import Mathlib

/-!
The scene model of the emulated camera sensor.

A shallow embedding of `devices/EmulatedCamera/hwl/EmulatedScene.cpp` and the statements proved
about it.  Line numbers refer to that file.

* Values of type `float` and `double` are the rational numbers they denote; the rounding of each
  type is a parameter (`Rounding`).  Exact arithmetic (`exactRounding`) and IEEE 754 binary32 /
  binary64 (`ieeeRounding`) are two instances.
* Machine integers are integers with explicit reduction modulo `2 ^ 32` where unsigned
  arithmetic wraps, and a result `none` where a signed computation overflows.
* A function whose behaviour can be undefined returns an `Option`; `none` is undefined
  behaviour.
* What the file takes from `EmulatedScene.h`, which is not among the sources, is a parameter
  (`Header`).
-/

set_option linter.dupNamespace false

namespace EmulatedScene

/-! ## Arithmetic of `float` and `double`

Every value of type `float` or `double` is represented by the rational number it denotes.  The
result of each floating operation, of each conversion from an integer and of each literal is the
exact result passed through the rounding function of its type.  Taking both roundings to be the
identity gives exact arithmetic; `roundF32` and `roundF64` below give IEEE 754 binary32 and
binary64 with round-to-nearest-even (each source operation rounded on its own, no fused
multiply-add).  Infinities and NaN are not represented: a division by zero yields `0` here. -/

/-- Rounding behaviour of the two floating types. -/
structure Rounding where
  /-- rounding to `float` -/
  rnd : ℚ → ℚ
  /-- rounding to `double` -/
  rndD : ℚ → ℚ

namespace Rounding

/-- Sum `a + b` on `float`. -/
def add (fm : Rounding) (a b : ℚ) : ℚ := fm.rnd (a + b)
/-- Difference `a - b` on `float`. -/
def sub (fm : Rounding) (a b : ℚ) : ℚ := fm.rnd (a - b)
/-- Product `a * b` on `float`. -/
def mul (fm : Rounding) (a b : ℚ) : ℚ := fm.rnd (a * b)
/-- Quotient `a / b` on `float`. -/
def div (fm : Rounding) (a b : ℚ) : ℚ := fm.rnd (a / b)
/-- Conversion of an integer operand to `float`. -/
def ofInt (fm : Rounding) (n : Int) : ℚ := fm.rnd n
/-- A literal with suffix `f`, such as `0.35161f`. -/
def lit (fm : Rounding) (q : ℚ) : ℚ := fm.rnd q
/-- A `double` literal stored into a `float`, such as `const float kAperture = 2.8`. -/
def litD (fm : Rounding) (q : ℚ) : ℚ := fm.rnd (fm.rndD q)

end Rounding

/-- The floating arithmetic `CalculateScene` runs on: the two roundings and the overload
`float std::sin(float)`, which only the handshake offsets use. -/
structure FloatModel extends Rounding where
  /-- the overload `float std::sin(float)` -/
  sin : ℚ → ℚ

/-- Exact arithmetic: no operation rounds. -/
def exactRounding : Rounding := ⟨id, id⟩

/-- Exact arithmetic with a given sine. -/
def exactArith (sin : ℚ → ℚ) : FloatModel := ⟨exactRounding, sin⟩

/-! ### IEEE 754 binary formats

Round to nearest, ties to even, on a format with `p` significant bits whose normal numbers start
at `2 ^ emin`; below that the spacing stays `2 ^ (emin - (p - 1))` (subnormal numbers).  Overflow
to infinity is not represented: every finite rational is rounded to the grid of its binade. -/

/-- Nearest integer, ties to even. -/
def roundNearestEven (q : ℚ) : Int :=
  if q - ⌊q⌋ < 1 / 2 then ⌊q⌋
  else if 1 / 2 < q - ⌊q⌋ then ⌊q⌋ + 1
  else if ⌊q⌋ % 2 = 0 then ⌊q⌋ else ⌊q⌋ + 1

/-- Rounding to the binary format with `p` significant bits and least normal exponent `emin`. -/
def roundBinary (p : Nat) (emin : Int) (q : ℚ) : ℚ :=
  if q = 0 then 0
  else (roundNearestEven (q / 2 ^ (max (Int.log 2 |q|) emin - ((p : Int) - 1))) : ℚ)
    * 2 ^ (max (Int.log 2 |q|) emin - ((p : Int) - 1))

/-- Rounding to binary32, the type `float`. -/
def roundF32 : ℚ → ℚ := roundBinary 24 (-126)

/-- Rounding to binary64, the type `double`. -/
def roundF64 : ℚ → ℚ := roundBinary 53 (-1022)

/-- IEEE 754 arithmetic: `float` is binary32, `double` is binary64. -/
def ieeeRounding : Rounding := ⟨roundF32, roundF64⟩

/-- What the proofs about non-zero divisors use of a rounding: both roundings are monotone, and
zero and the powers of two `2 ^ k` with `-126 ≤ k ≤ 127` are representable in both types. -/
structure Rounding.Faithful (fm : Rounding) : Prop where
  rnd_mono : Monotone fm.rnd
  rndD_mono : Monotone fm.rndD
  rnd_zero : fm.rnd 0 = 0
  rnd_zpow : ∀ k : Int, -126 ≤ k → k ≤ 127 → fm.rnd ((2 : ℚ) ^ k) = (2 : ℚ) ^ k
  rndD_zpow : ∀ k : Int, -126 ≤ k → k ≤ 127 → fm.rndD ((2 : ℚ) ^ k) = (2 : ℚ) ^ k

/-- Statement that `m` is a nearest integer to `q`, and even when `q` lies half way between two
integers. -/
def IsNearestEven (q : ℚ) (m : Int) : Prop :=
  |q - m| ≤ 1 / 2 ∧ (|q - m| = 1 / 2 → m % 2 = 0)

/-- The exponent `roundBinary` works at: that of `q`, raised to `emin` for subnormal `q`. -/
def binaryExponent (emin : Int) (q : ℚ) : Int := max (Int.log 2 |q|) emin

/-- Element `[0]`, `[1]`, `[2]` of a `float[3]`. -/
structure Vec3 where
  e0 : ℚ
  e1 : ℚ
  e2 : ℚ
deriving DecidableEq

/-! ## Declarations of `EmulatedScene.h`

The header is not among the sources.  What `EmulatedScene.cpp` takes from it and cannot be read
off the `.cpp` file is a parameter of the model. -/

/-- Constants and conversions declared in `EmulatedScene.h`. -/
structure Header where
  /-- `kSceneWidth` -/
  kSceneWidth : Nat
  /-- `kSceneHeight` -/
  kSceneHeight : Nat
  /-- `NUM_CHANNELS`: stride of `current_colors_` -/
  NUM_CHANNELS : Nat
  /-- conversion of a `float` to the element type of `current_colors_` -/
  storeColor : ℚ → ℚ
  /-- enumerator `R` -/
  R : Nat
  /-- enumerator `Gr` -/
  Gr : Nat
  /-- enumerator `B` -/
  B : Nat

/-- `NUM_MATERIALS`: the number of rows `kMaterials_xyY` and `kMaterialsFlags` are initialised
with (lines 483-500). -/
def NUM_MATERIALS : Nat := 11

/-- `kTimeStep`: hours per bucket; `kSunlight[24 / kTimeStep]` has 12 entries (lines 426-438). -/
def kTimeStep : Int := 2

/-- `sizeof(kScene)` (lines 35-36): the 54-byte BMP header and three bytes per pixel. -/
def sizeofkScene (hd : Header) : Nat := 54 + hd.kSceneWidth * hd.kSceneHeight * 3

/-- The buffer `current_scene_` points to. -/
inductive SceneBuf where
  | rot0
  | rot90
  | rot180
  | rot270
deriving DecidableEq, Repr

/-- The fields of an `EmulatedScene` object together with the two static buffers of the
translation unit, `kScene` and `pixel`. -/
structure Scene where
  screen_rotation_ : Nat
  current_scene_ : SceneBuf
  sensor_orientation_ : Int
  is_front_facing_ : Bool
  hour_ : Int
  exposure_duration_ : ℚ
  filter_r_ : Vec3
  filter_gr_ : Vec3
  filter_gb_ : Vec3
  filter_b_ : Vec3
  sensor_width_ : Int
  sensor_height_ : Int
  sensor_sensitivity_ : ℚ
  map_div_ : Int
  offset_x_ : Int
  offset_y_ : Int
  test_pattern_mode_ : Bool
  test_pattern_data_ : List Nat
  current_colors_ : List ℚ
  handshake_x_ : ℚ
  handshake_y_ : ℚ
  current_x_ : Int
  current_y_ : Int
  scene_rot0_ : List Nat
  scene_rot90_ : List Nat
  scene_rot180_ : List Nat
  scene_rot270_ : List Nat
  kScene : List Nat
  pixel : List Nat

/-! ## Machine integers -/

/-- A value of a signed 64-bit computation; `none` when it does not fit in
`-2 ^ 63 .. 2 ^ 63 - 1` (undefined behaviour). -/
def i64 (x : Int) : Option Int :=
  if -9223372036854775808 ≤ x ∧ x < 9223372036854775808 then some x else none

/-- A value of a signed 32-bit computation; `none` when it does not fit in
`-2 ^ 31 .. 2 ^ 31 - 1` (undefined behaviour). -/
def i32 (x : Int) : Option Int :=
  if -2147483648 ≤ x ∧ x < 2147483648 then some x else none

/-- Conversion of an integer to `uint32_t`: its residue modulo `2 ^ 32`. -/
def u32 (x : Int) : Nat := (x % 4294967296).toNat

/-- `memcpy(dst, src, n)` on buffers held as lists. -/
def memcpy (dst src : List Nat) (n : Nat) : List Nat := src.take n ++ dst.drop n

/-- Read of `table[i]` for a signed index; `none` outside the array. -/
def readTable (table : List ℚ) (i : Int) : Option ℚ :=
  if 0 ≤ i then table.get? i.toNat else none

/-! ## Loop nests of `InitiliazeSceneRotation` (lines 358-389)

Each loop nest stores one sample per iteration at the cursor `c`, which starts at 0 and is
incremented by every store.  The list below is the sequence of stored samples in the order of
`c`.  A read `kScene[n]` is `kScene.getD n 0`; with `kScene` of its declared size every read of
the loops is in bounds.  The scene size is a parameter, so that a construction can be applied
to its own output. -/

/-- The values of the index of a loop `for (i = n - 1; i >= 0; i--)`, in order. -/
def countDown (n : Nat) : List Nat := (List.range n).reverse

/-- The values of the index of a loop `for (i = 0; i < n; i++)`, in order. -/
def countUp (n : Nat) : List Nat := List.range n

/-- Samples stored into `scene_rot180_` by lines 361-366: `i` runs down from `H - 1`, `j` runs
down from `W - 1`, the sample is `kScene[i * W + j]`. -/
def rot180Samples (W H : Nat) (kScene : List Nat) : List Nat :=
  (countDown H).flatMap fun i => (countDown W).map fun j => kScene.getD (i * W + j) 0

/-- Samples stored by lines 368-377: `i` runs down from `W - 1`, `j` runs up to `H - 1`, the sample
is `kScene[j * W + i]`. -/
def transposeDownUp (W H : Nat) (kScene : List Nat) : List Nat :=
  (countDown W).flatMap fun i => (countUp H).map fun j => kScene.getD (j * W + i) 0

/-- Samples stored by lines 379-388: `i` runs up to `W - 1`, `j` runs down from `H - 1`, the sample
is `kScene[j * W + i]`. -/
def transposeUpDown (W H : Nat) (kScene : List Nat) : List Nat :=
  (countUp W).flatMap fun i => (countDown H).map fun j => kScene.getD (j * W + i) 0

/-- Samples stored into `scene_rot90_`: by the loop nest of lines 368-377 when `clock_wise`, by
the one of lines 379-388 otherwise. -/
def construct90 (W H : Nat) (clock_wise : Bool) (kScene : List Nat) : List Nat :=
  if clock_wise then transposeDownUp W H kScene else transposeUpDown W H kScene

/-- Samples stored into `scene_rot270_`: by the loop nest of lines 379-388 when `clock_wise`, by
the one of lines 368-377 otherwise. -/
def construct270 (W H : Nat) (clock_wise : Bool) (kScene : List Nat) : List Nat :=
  if clock_wise then transposeUpDown W H kScene else transposeDownUp W H kScene

/-! ## Constants of the illumination model (lines 411-500) -/

/-- Constant `kOneHourInNsec` (line 159): `1e9 * 60 * 60` stored in an `nsecs_t`. -/
def kOneHourInNsec : Int := 3600000000000

/-- Constant `M_PI` of `<cmath>`. -/
def M_PI (fm : Rounding) : ℚ := fm.rndD (314159265358979323846 / 100000000000000000000)

/-- Initialiser `2 * M_PI * hz / 1e9` (lines 413-416), computed in `double`, stored in a
`float`. -/
def shakeFreq (fm : Rounding) (hz : Int) : ℚ :=
  fm.rnd (fm.rndD (fm.rndD (fm.rndD (fm.rndD 2 * M_PI fm) * fm.rndD hz) / fm.rndD 1000000000))

def kHorizShakeFreq1 (fm : Rounding) : ℚ := shakeFreq fm 2
def kHorizShakeFreq2 (fm : Rounding) : ℚ := shakeFreq fm 13
def kVertShakeFreq1 (fm : Rounding) : ℚ := shakeFreq fm 3
def kVertShakeFreq2 (fm : Rounding) : ℚ := shakeFreq fm 11
def kFreq1Magnitude (fm : Rounding) : ℚ := fm.ofInt 5
def kFreq2Magnitude (fm : Rounding) : ℚ := fm.ofInt 1
def kShakeFraction (fm : Rounding) : ℚ := fm.litD (3 / 100)

def kAperture (fm : Rounding) : ℚ := fm.litD (28 / 10)

def kSunOverhead : Int := 12
def kMoonOverhead : Int := 0

def kDirectSunIllum (fm : Rounding) : ℚ := fm.ofInt 100000
def kSunsetIllum (fm : Rounding) : ℚ := fm.ofInt 400
def kTwilightIllum (fm : Rounding) : ℚ := fm.ofInt 4
def kFullMoonIllum (fm : Rounding) : ℚ := fm.ofInt 1
def kDaylightShadeIllum (fm : Rounding) : ℚ := fm.ofInt 20000
def kClearNightIllum (fm : Rounding) : ℚ := fm.litD (2 / 1000)
def kStarIllum (fm : Rounding) : ℚ := fm.litD (2 / 1000000)
def kLivingRoomIllum (fm : Rounding) : ℚ := fm.ofInt 50

/-- Sun illumination levels through the day (lines 426-438). -/
def kSunlight (fm : Rounding) : List ℚ :=
  [fm.ofInt 0, fm.ofInt 0, fm.ofInt 0, kTwilightIllum fm, kDirectSunIllum fm,
   kDirectSunIllum fm, kDirectSunIllum fm, kDirectSunIllum fm, kDirectSunIllum fm,
   kSunsetIllum fm, kTwilightIllum fm, fm.ofInt 0]

/-- Moon illumination levels through the day (lines 441-453). -/
def kMoonlight (fm : Rounding) : List ℚ :=
  [kFullMoonIllum fm, kFullMoonIllum fm, fm.ofInt 0, fm.ofInt 0, fm.ofInt 0, fm.ofInt 0,
   fm.ofInt 0, fm.ofInt 0, fm.ofInt 0, fm.ofInt 0, fm.ofInt 0, kFullMoonIllum fm]

/-- A chromaticity pair, elements `[0]` and `[1]` of a `float[2]`. -/
structure XY where
  x : ℚ
  y : ℚ

def kIncandescentXY (fm : Rounding) : XY := ⟨fm.lit (44757 / 100000), fm.lit (40745 / 100000)⟩
def kDirectSunlightXY (fm : Rounding) : XY := ⟨fm.lit (34842 / 100000), fm.lit (35161 / 100000)⟩
def kDaylightXY (fm : Rounding) : XY := ⟨fm.lit (31271 / 100000), fm.lit (32902 / 100000)⟩
def kNoonSkyXY (fm : Rounding) : XY := ⟨fm.lit (346 / 1000), fm.lit (359 / 1000)⟩
def kMoonlightXY (fm : Rounding) : XY := ⟨fm.lit (34842 / 100000), fm.lit (35161 / 100000)⟩
def kSunsetXY (fm : Rounding) : XY := ⟨fm.lit (527 / 1000), fm.lit (413 / 1000)⟩

def kSelfLit : Nat := 1
def kShadowed : Nat := 2
def kSky : Nat := 4

/-- Rows of `kMaterials_xyY` (lines 483-495): `e0 = x`, `e1 = y`, `e2 = Y`. -/
def kMaterials_xyY (fm : Rounding) : List Vec3 :=
  [⟨fm.lit (3688 / 10000), fm.lit (4501 / 10000), fm.lit (1329 / 10000)⟩,
   ⟨fm.lit (3688 / 10000), fm.lit (4501 / 10000), fm.lit (1329 / 10000)⟩,
   ⟨fm.lit (3986 / 10000), fm.lit (5002 / 10000), fm.lit (4440 / 10000)⟩,
   ⟨fm.lit (3262 / 10000), fm.lit (5040 / 10000), fm.lit (2297 / 10000)⟩,
   ⟨fm.lit (4336 / 10000), fm.lit (3787 / 10000), fm.lit (1029 / 10000)⟩,
   ⟨fm.lit (3316 / 10000), fm.lit (2544 / 10000), fm.lit (639 / 10000)⟩,
   ⟨fm.lit (3425 / 10000), fm.lit (3577 / 10000), fm.lit (887 / 10000)⟩,
   ⟨(kIncandescentXY fm).x, (kIncandescentXY fm).y, kLivingRoomIllum fm⟩,
   ⟨(kDirectSunlightXY fm).x, (kDirectSunlightXY fm).y, kDirectSunIllum fm⟩,
   ⟨(kNoonSkyXY fm).x, (kNoonSkyXY fm).y, fm.div (kDaylightShadeIllum fm) (kDirectSunIllum fm)⟩,
   ⟨(kMoonlightXY fm).x, (kMoonlightXY fm).y, kFullMoonIllum fm⟩]

/-- Rows of `kMaterialsFlags` (lines 497-500). -/
def kMaterialsFlags : List Nat :=
  [0, kShadowed, kShadowed, kShadowed, kShadowed, kShadowed,
   kShadowed, kSelfLit, kSelfLit, kSky, kSelfLit]

/-! ## `CalculateScene`: illumination (lines 158-271) -/

/-- The expression `a * (1 - time_frac) + b * time_frac`. -/
def interpolate (fm : Rounding) (a b time_frac : ℚ) : ℚ :=
  fm.add (fm.mul a (fm.sub (fm.ofInt 1) time_frac)) (fm.mul b time_frac)

/-- The initialiser `{Y / y * x, Y, Y / y * (1 - x - y)}` converting xyY to XYZ. -/
def xyY_to_XYZ (fm : Rounding) (x y Y : ℚ) : Vec3 :=
  ⟨fm.mul (fm.div Y y) x, Y, fm.mul (fm.div Y y) (fm.sub (fm.sub (fm.ofInt 1) x) y)⟩

/-- Local `time_idx` (line 163); `/` on `int` truncates. -/
def time_idx (hour_ : Int) : Int := Int.tdiv hour_ kTimeStep

/-- Local `next_time_idx` (line 164). -/
def next_time_idx (hour_ : Int) : Int := Int.tmod (time_idx hour_ + 1) (Int.tdiv 24 kTimeStep)

/-- Local `time_since_idx` (lines 165-166), a signed 64-bit computation. -/
def time_since_idx (hour_ time : Int) : Option Int := do
  let p ← i64 ((hour_ - time_idx hour_ * kTimeStep) * kOneHourInNsec)
  i64 (p + time)

/-- Local `time_frac` (line 167). -/
def time_frac (fm : Rounding) (tsi : Int) : ℚ :=
  fm.div (fm.ofInt tsi) (fm.ofInt (kOneHourInNsec * kTimeStep))

/-- Whether a table entry selects the sunset chromaticity (lines 182-183 and 190-191). -/
def isSunsetLevel (fm : Rounding) (lux : ℚ) : Bool :=
  lux == kSunsetIllum fm || lux == kTwilightIllum fm

/-- The locals of `CalculateScene` that describe the illumination. -/
structure Illumination where
  time_idx : Int
  next_time_idx : Int
  time_since_idx : Int
  time_frac : ℚ
  sun_lux : ℚ
  sun_shade_lux : ℚ
  current_sun_xy : XY
  current_shade_xy : XY
  sun_xyz : Vec3
  sun_shade_xyz : Vec3
  moon_lux : ℚ
  moonshade_lux : ℚ
  moon_xyz : Vec3
  moon_shade_xyz : Vec3
  kClearNightXYZ : Vec3
  direct_illum_xyz : Vec3
  shade_illum_xyz : Vec3

/-- Lines 167-266 of `CalculateScene`, `FAST_SCENE_CYCLE` not defined: the illumination from
`time_since_idx` and the four table entries read at `time_idx` and `next_time_idx`. -/
def illuminate (fm : Rounding) (hour_ tsi : Int) (sun_prev sun_next moon_prev moon_next : ℚ) :
    Illumination :=
  let tf := time_frac fm tsi
  let sun_lux := interpolate fm sun_prev sun_next tf
  let sun_shade_lux := fm.mul sun_lux (fm.div (kDaylightShadeIllum fm) (kDirectSunIllum fm))
  let prev_sun_xy := if isSunsetLevel fm sun_prev then kSunsetXY fm else kDirectSunlightXY fm
  let prev_shade_xy := if isSunsetLevel fm sun_prev then kSunsetXY fm else kDaylightXY fm
  let next_sun_xy := if isSunsetLevel fm sun_next then kSunsetXY fm else kDirectSunlightXY fm
  let next_shade_xy := if isSunsetLevel fm sun_next then kSunsetXY fm else kDaylightXY fm
  let current_sun_xy : XY :=
    ⟨interpolate fm prev_sun_xy.x next_sun_xy.x tf, interpolate fm prev_sun_xy.y next_sun_xy.y tf⟩
  let current_shade_xy : XY :=
    ⟨interpolate fm prev_shade_xy.x next_shade_xy.x tf,
     interpolate fm prev_shade_xy.y next_shade_xy.y tf⟩
  let sun_xyz := xyY_to_XYZ fm current_sun_xy.x current_sun_xy.y sun_lux
  let sun_shade_xyz := xyY_to_XYZ fm current_shade_xy.x current_shade_xy.y sun_shade_lux
  let moon_lux := interpolate fm moon_prev moon_next tf
  let moonshade_lux := fm.mul moon_lux (fm.div (kDaylightShadeIllum fm) (kDirectSunIllum fm))
  let moon_xyz := xyY_to_XYZ fm (kMoonlightXY fm).x (kMoonlightXY fm).y moon_lux
  let moon_shade_xyz := xyY_to_XYZ fm (kMoonlightXY fm).x (kMoonlightXY fm).y moonshade_lux
  let kClearNightXYZ :=
    xyY_to_XYZ fm (kMoonlightXY fm).x (kMoonlightXY fm).y (kClearNightIllum fm)
  let direct_illum_xyz : Vec3 :=
    ⟨fm.add (fm.add sun_xyz.e0 moon_xyz.e0) kClearNightXYZ.e0,
     fm.add (fm.add sun_xyz.e1 moon_xyz.e1) kClearNightXYZ.e1,
     fm.add (fm.add sun_xyz.e2 moon_xyz.e2) kClearNightXYZ.e2⟩
  let sun_part := if hour_ < kSunOverhead then sun_xyz else sun_shade_xyz
  let adj_hour := Int.tmod (hour_ + 12) 24
  let adj_moon_overhead := Int.tmod (kMoonOverhead + 12) 24
  let moon_part := if adj_hour < adj_moon_overhead then moon_xyz else moon_shade_xyz
  let shade_illum_xyz : Vec3 :=
    ⟨fm.add (fm.add kClearNightXYZ.e0 sun_part.e0) moon_part.e0,
     fm.add (fm.add kClearNightXYZ.e1 sun_part.e1) moon_part.e1,
     fm.add (fm.add kClearNightXYZ.e2 sun_part.e2) moon_part.e2⟩
  { time_idx := time_idx hour_, next_time_idx := next_time_idx hour_, time_since_idx := tsi,
    time_frac := tf, sun_lux := sun_lux, sun_shade_lux := sun_shade_lux,
    current_sun_xy := current_sun_xy, current_shade_xy := current_shade_xy,
    sun_xyz := sun_xyz, sun_shade_xyz := sun_shade_xyz, moon_lux := moon_lux,
    moonshade_lux := moonshade_lux, moon_xyz := moon_xyz, moon_shade_xyz := moon_shade_xyz,
    kClearNightXYZ := kClearNightXYZ, direct_illum_xyz := direct_illum_xyz,
    shade_illum_xyz := shade_illum_xyz }

/-- Lines 158-266 of `CalculateScene`: `time_since_idx`, the four table reads of lines 170-171
and 227-228, then `illuminate`.  The result is `none` when `time_since_idx` overflows or a table
is read outside its bounds. -/
def illumination (fm : Rounding) (hour_ time : Int) : Option Illumination := do
  let tsi ← time_since_idx hour_ time
  let sun_prev ← readTable (kSunlight fm) (time_idx hour_)
  let sun_next ← readTable (kSunlight fm) (next_time_idx hour_)
  let moon_prev ← readTable (kMoonlight fm) (time_idx hour_)
  let moon_next ← readTable (kMoonlight fm) (next_time_idx hour_)
  pure (illuminate fm hour_ tsi sun_prev sun_next moon_prev moon_next)

/-! ## `CalculateScene`: colour table, handshake, rotation (lines 273-356) -/

/-- Local `mat_xyz` after the scaling of lines 284-292, for the material of index `i`
(`i < NUM_MATERIALS` in the loop, so the defaults are never read). -/
def mat_xyz (fm : Rounding) (il : Illumination) (i : Nat) : Vec3 :=
  let m := (kMaterials_xyY fm).getD i ⟨0, 0, 0⟩
  let flags := kMaterialsFlags.getD i 0
  let v := xyY_to_XYZ fm m.e0 m.e1 m.e2
  if flags = 0 ∨ flags &&& kSky ≠ 0 then
    ⟨fm.mul v.e0 il.direct_illum_xyz.e0, fm.mul v.e1 il.direct_illum_xyz.e1,
     fm.mul v.e2 il.direct_illum_xyz.e2⟩
  else if flags &&& kShadowed ≠ 0 then
    ⟨fm.mul v.e0 il.shade_illum_xyz.e0, fm.mul v.e1 il.shade_illum_xyz.e1,
     fm.mul v.e2 il.shade_illum_xyz.e2⟩
  else v

/-- Local `lux_to_electrons` (lines 295-296). -/
def lux_to_electrons (fm : Rounding) (s : Scene) : ℚ :=
  fm.div (fm.mul s.sensor_sensitivity_ s.exposure_duration_) (fm.mul (kAperture fm) (kAperture fm))

/-- The `float` value `(f[0] * m[0] + f[1] * m[1] + f[2] * m[2]) * lux_to_electrons` of lines
297-312, before it is stored. -/
def channel (fm : Rounding) (filter m : Vec3) (l2e : ℚ) : ℚ :=
  fm.mul (fm.add (fm.add (fm.mul filter.e0 m.e0) (fm.mul filter.e1 m.e1)) (fm.mul filter.e2 m.e2))
    l2e

/-- One iteration of the loop of line 273: the four stores into `current_colors_`. -/
def storeMaterial (fm : Rounding) (hd : Header) (s : Scene) (il : Illumination)
    (colors : List ℚ) (i : Nat) : List ℚ :=
  let m := mat_xyz fm il i
  let l2e := lux_to_electrons fm s
  (((colors.set (i * hd.NUM_CHANNELS + 0) (hd.storeColor (channel fm s.filter_r_ m l2e))).set
      (i * hd.NUM_CHANNELS + 1) (hd.storeColor (channel fm s.filter_gr_ m l2e))).set
      (i * hd.NUM_CHANNELS + 2) (hd.storeColor (channel fm s.filter_gb_ m l2e))).set
      (i * hd.NUM_CHANNELS + 3) (hd.storeColor (channel fm s.filter_b_ m l2e))

/-- The loop of lines 273-319 as a function of the table it starts from. -/
def colorLoop (fm : Rounding) (hd : Header) (s : Scene) (il : Illumination) (T : List ℚ) :
    List ℚ :=
  (List.range NUM_MATERIALS).foldl (storeMaterial fm hd s il) T

/-- The loop of lines 273-319 run on the table `s.current_colors_`. -/
def calculateColors (fm : Rounding) (hd : Header) (s : Scene) (il : Illumination) : List ℚ :=
  colorLoop fm hd s il s.current_colors_

/-- Lines 322-328 (and 330-335): one handshake offset from its two frequencies. -/
def handshake (fm : FloatModel) (freq1 freq2 : ℚ) (tsi map_div_ handshake_divider : Int) : ℚ :=
  let shake :=
    fm.mul
      (fm.mul
        (fm.add (fm.mul (kFreq1Magnitude fm.toRounding) (fm.sin (fm.mul freq1 (fm.ofInt tsi))))
          (fm.mul (kFreq2Magnitude fm.toRounding) (fm.sin (fm.mul freq2 (fm.ofInt tsi)))))
        (fm.ofInt map_div_))
      (kShakeFraction fm.toRounding)
  if handshake_divider > 0 then fm.div shake (fm.ofInt handshake_divider) else shake

/-- Local `scene_rotation` (line 339) for the negated-or-not `sensor_orientation` of line
337-338.  `screen_rotation_` has the type of the parameter of `SetScreenRotation`, `uint32_t`,
so the sum is formed modulo `2 ^ 32 = 4294967296`. -/
def scene_rotation (screen_rotation_ : Nat) (sensor_orientation : Int) : Nat :=
  (((screen_rotation_ + 360) % 4294967296 + u32 sensor_orientation) % 4294967296) % 360

/-- The `switch` of lines 340-352. -/
def selectScene (scene_rotation : Nat) : SceneBuf :=
  match scene_rotation with
  | 90 => SceneBuf.rot90
  | 180 => SceneBuf.rot180
  | 270 => SceneBuf.rot270
  | _ => SceneBuf.rot0

/-- Function `SetReadoutPixel` (lines 391-394). -/
def SetReadoutPixel (s : Scene) (x y : Int) : Scene :=
  { s with current_x_ := x, current_y_ := y }

/-- Outcome of the transfer of lines 146-148: the code returned by `curl_easy_perform` and the
bytes `curl_write_callback` appended to `read_buffer`. -/
structure Fetch where
  res : Nat
  read_buffer : List Nat

/-- Function `CalculateScene` (lines 141-356).  The argument `live` is `none` when `property_get`
returns 0 for `vendor.qemu.camera_url` and the outcome of the transfer otherwise.  The result is
`none` when the call has undefined behaviour (signed overflow, read outside a table). -/
def CalculateScene (fm : FloatModel) (hd : Header) (live : Option Fetch) (s : Scene)
    (time handshake_divider : Int) : Option Scene :=
  match live with
  | some f =>
    let kScene :=
      if f.read_buffer.length > 0 then
        memcpy s.kScene f.read_buffer (min (sizeofkScene hd) f.read_buffer.length)
      else s.kScene
    some (SetReadoutPixel { s with kScene := kScene } 0 0)
  | none => do
    let il ← illumination fm.toRounding s.hour_ time
    let sensor_orientation ←
      i32 (if s.is_front_facing_ then -s.sensor_orientation_ else s.sensor_orientation_)
    some (SetReadoutPixel
      { s with
        current_colors_ := calculateColors fm.toRounding hd s il
        handshake_x_ :=
          handshake fm (kHorizShakeFreq1 fm.toRounding) (kHorizShakeFreq2 fm.toRounding) il.time_since_idx s.map_div_
            handshake_divider
        handshake_y_ :=
          handshake fm (kVertShakeFreq1 fm.toRounding) (kVertShakeFreq2 fm.toRounding) il.time_since_idx s.map_div_
            handshake_divider
        current_scene_ := selectScene (scene_rotation s.screen_rotation_ sensor_orientation) }
      0 0)

/-! ## `InitiliazeSceneRotation` and the readout (lines 358-405) -/

/-- Effect on `buf` of the stores `buf[c++] = v` for the values `vs` in order, `c` starting
at 0. -/
def storeFromStart (buf vs : List Nat) : List Nat := vs ++ buf.drop vs.length

/-- Function `InitiliazeSceneRotation` (lines 358-389).  Each rotation buffer keeps its declared
length, the length of the list that holds it. -/
def InitiliazeSceneRotation (hd : Header) (clock_wise : Bool) (s : Scene) : Scene :=
  { s with
    scene_rot0_ := memcpy s.scene_rot0_ s.kScene s.scene_rot0_.length
    scene_rot180_ := storeFromStart s.scene_rot180_ (rot180Samples hd.kSceneWidth hd.kSceneHeight s.kScene)
    scene_rot90_ :=
      storeFromStart s.scene_rot90_ (construct90 hd.kSceneWidth hd.kSceneHeight clock_wise s.kScene)
    scene_rot270_ :=
      storeFromStart s.scene_rot270_ (construct270 hd.kSceneWidth hd.kSceneHeight clock_wise s.kScene) }

/-- The stores of lines 398-402 into the static `pixel`, as a function of what they read.
The offset `start_pos` is computed on `int` and converted to `uint32_t`; the result is `none`
when the computation overflows or a read falls outside `kScene`. -/
def readPixel (hd : Header) (kScene pixel : List Nat) (current_x_ current_y_ : Int) :
    Option (List Nat) := do
  let p1 ← i32 ((hd.kSceneWidth : Int) * current_x_)
  let p2 ← i32 (p1 * 3)
  let p3 ← i32 (54 + p2)
  let e ← i32 (p3 + current_y_)
  let start_pos := u32 e
  let r ← kScene.get? ((start_pos + 2) % 4294967296)
  let gr ← kScene.get? ((start_pos + 1) % 4294967296)
  let b ← kScene.get? start_pos
  some (((pixel.set hd.R r).set hd.Gr gr).set hd.B b)

/-- Function `GetPixelElectrons` (lines 396-405): the scene after the stores into the static
`pixel`, which the returned pointer designates. -/
def GetPixelElectrons (hd : Header) (s : Scene) : Option Scene :=
  (readPixel hd s.kScene s.pixel s.current_x_ s.current_y_).map fun p => { s with pixel := p }

/-! ## Construction (lines 43-97) -/

/-- The value stored in `map_div_` by lines 88-93; `none` on signed overflow. -/
def mapDiv (hd : Header) (sensor_width_ sensor_height_ : Int) : Option Int :=
  if sensor_width_ > sensor_height_ then
    (i32 ((hd.kSceneWidth : Int) + 1)).bind fun d => i32 (Int.tdiv sensor_width_ d + 1)
  else
    (i32 ((hd.kSceneHeight : Int) + 1)).bind fun d => i32 (Int.tdiv sensor_height_ d + 1)

/-- Function `Initialize` (lines 81-97), on `int` fields; `none` on signed overflow. -/
def Initialize (hd : Header) (s : Scene) (sensor_width_px sensor_height_px : Int)
    (sensor_sensitivity : ℚ) : Option Scene := do
  let map_div_ ← mapDiv hd sensor_width_px sensor_height_px
  let wx ← i32 ((hd.kSceneWidth : Int) * map_div_)
  let dx ← i32 (wx - sensor_width_px)
  let hy ← i32 ((hd.kSceneHeight : Int) * map_div_)
  let dy ← i32 (hy - sensor_height_px)
  some
    { s with
      sensor_width_ := sensor_width_px
      sensor_height_ := sensor_height_px
      sensor_sensitivity_ := sensor_sensitivity
      map_div_ := map_div_
      offset_x_ := Int.tdiv dx 2
      offset_y_ := Int.tdiv dy 2 }

/-- The constructor (lines 43-73).  The argument `mem` holds the static buffers and what the
object's storage held before: the constructor leaves `current_colors_`, the handshake offsets,
the cursor, the test-pattern fields and the tails of the rotation buffers as they were. -/
def EmulatedScene (fm : Rounding) (hd : Header) (mem : Scene)
    (sensor_width_px sensor_height_px : Int) (sensor_sensitivity : ℚ) (sensor_orientation : Int)
    (is_front_facing : Bool) : Option Scene :=
  let s : Scene :=
    { mem with
      screen_rotation_ := 0
      current_scene_ := SceneBuf.rot0
      sensor_orientation_ := sensor_orientation
      is_front_facing_ := is_front_facing
      hour_ := 12
      exposure_duration_ := fm.lit (33 / 1000)
      filter_r_ := ⟨fm.lit (32406 / 10000), -fm.lit (15372 / 10000), -fm.lit (4986 / 10000)⟩
      filter_gr_ := ⟨-fm.lit (9689 / 10000), fm.lit (18758 / 10000), fm.lit (415 / 10000)⟩
      filter_gb_ := ⟨-fm.lit (9689 / 10000), fm.lit (18758 / 10000), fm.lit (415 / 10000)⟩
      filter_b_ := ⟨fm.lit (557 / 10000), -fm.lit (2040 / 10000), fm.lit (10570 / 10000)⟩ }
  Initialize hd (InitiliazeSceneRotation hd (!is_front_facing) s) sensor_width_px sensor_height_px
    sensor_sensitivity

/-! ## Sample data for the concrete instances -/

/-- A header with a 2 x 2 scene and four channels per material. -/
def sampleHeader : Header :=
  { kSceneWidth := 2, kSceneHeight := 2, NUM_CHANNELS := 4, storeColor := id, R := 0, Gr := 1,
    B := 3 }

/-- The bitmap of the samples: a zero header and the payload bytes 1, 2, ..., 12. -/
def sampleBitmap : List Nat := List.replicate 54 0 ++ [1, 2, 3, 4, 5, 6, 7, 8, 9, 10, 11, 12]

/-- Storage before construction: rotation buffers of the bitmap's size filled with 9, the
other fields zero. -/
def sampleMemory : Scene :=
  { screen_rotation_ := 0, current_scene_ := SceneBuf.rot0, sensor_orientation_ := 0,
    is_front_facing_ := false, hour_ := 0, exposure_duration_ := 0,
    filter_r_ := ⟨0, 0, 0⟩, filter_gr_ := ⟨0, 0, 0⟩, filter_gb_ := ⟨0, 0, 0⟩,
    filter_b_ := ⟨0, 0, 0⟩, sensor_width_ := 0, sensor_height_ := 0, sensor_sensitivity_ := 0,
    map_div_ := 0, offset_x_ := 0, offset_y_ := 0, test_pattern_mode_ := false,
    test_pattern_data_ := [0, 0, 0, 0], current_colors_ := List.replicate 44 0,
    handshake_x_ := 0, handshake_y_ := 0, current_x_ := 0, current_y_ := 0,
    scene_rot0_ := List.replicate 66 9, scene_rot90_ := List.replicate 66 9,
    scene_rot180_ := List.replicate 66 9, scene_rot270_ := List.replicate 66 9,
    kScene := sampleBitmap, pixel := [0, 0, 0, 0] }

/-- The scene the constructor builds in exact arithmetic from `sampleMemory` for a back-facing
640 x 480 sensor of sensitivity 100 mounted at 90 degrees. -/
def sampleScene : Scene :=
  (EmulatedScene exactRounding sampleHeader sampleMemory 640 480 100 90 false).getD sampleMemory

/-! ## Definitions used by the statements -/

/-- Hours and times at which `CalculateScene` reads its tables in bounds and `time_since_idx`
does not overflow. -/
def InRange (hour_ time : Int) : Prop :=
  0 ≤ hour_ ∧ hour_ < 24 ∧ -9223372036854775808 ≤ time ∧
    time + kOneHourInNsec < 9223372036854775808

instance (hour_ time : Int) : Decidable (InRange hour_ time) := by
  unfold InRange
  infer_instance

/-- Value of `sensor_orientation` (lines 337-338) before the check for signed overflow. -/
def signedOrientation (s : Scene) : Int :=
  if s.is_front_facing_ then -s.sensor_orientation_ else s.sensor_orientation_

/-- The scene `CalculateScene` leaves without a live source, given the illumination `il` it
computed. -/
def sceneAfter (fm : FloatModel) (hd : Header) (s : Scene) (il : Illumination) (d : Int) :
    Scene :=
  SetReadoutPixel
    { s with
      current_colors_ := calculateColors fm.toRounding hd s il
      handshake_x_ :=
        handshake fm (kHorizShakeFreq1 fm.toRounding) (kHorizShakeFreq2 fm.toRounding)
          il.time_since_idx s.map_div_ d
      handshake_y_ :=
        handshake fm (kVertShakeFreq1 fm.toRounding) (kVertShakeFreq2 fm.toRounding)
          il.time_since_idx s.map_div_ d
      current_scene_ := selectScene (scene_rotation s.screen_rotation_ (signedOrientation s)) }
    0 0

/-- Function `SetScreenRotation` (lines 125-127); its parameter is a `uint32_t`. -/
def SetScreenRotation (s : Scene) (screen_rotation : Nat) : Scene :=
  { s with screen_rotation_ := screen_rotation % 4294967296 }

/-- Result code `CURLE_OK` of libcurl. -/
def CURLE_OK : Nat := 0

/-- Result code `CURLE_PARTIAL_FILE` of libcurl: the transfer ended before all of the announced
body had arrived. -/
def CURLE_PARTIAL_FILE : Nat := 18

/-- The buffer `current_scene_` designates. -/
def activeBuffer (s : Scene) : List Nat :=
  match s.current_scene_ with
  | SceneBuf.rot0 => s.scene_rot0_
  | SceneBuf.rot90 => s.scene_rot90_
  | SceneBuf.rot180 => s.scene_rot180_
  | SceneBuf.rot270 => s.scene_rot270_

/-- A table transformer that, at every index, either keeps the entry or stores a value that does
not depend on the table. -/
def Overwrites (F : List ℚ → List ℚ) : Prop :=
  ∀ k : Nat, ∃ f : ℚ → ℚ, (f = id ∨ ∃ a, f = fun _ => a) ∧ ∀ T : List ℚ, (F T)[k]? = (T[k]?).map f

/-- Indices of `kScene` read by the loop nest of lines 362-366, in the order of the reads. -/
def idx180 (W H : Nat) : List Nat :=
  (countDown H).flatMap fun i => (countDown W).map fun j => i * W + j

/-- Indices of `kScene` read by the loop nest of lines 369-377, in the order of the reads. -/
def idxDownUp (W H : Nat) : List Nat :=
  (countDown W).flatMap fun i => (countUp H).map fun j => j * W + i

/-- Indices of `kScene` read by the loop nest of lines 380-388, in the order of the reads. -/
def idxUpDown (W H : Nat) : List Nat :=
  (countUp W).flatMap fun i => (countDown H).map fun j => j * W + i

/-- The filter lines 297-312 use for the store at offset `c` of a material's row of
`current_colors_`: `filter_r_`, `filter_gr_`, `filter_gb_`, `filter_b_` for 0, 1, 2, 3. -/
def channelFilter (s : Scene) (c : Nat) : Vec3 :=
  match c with
  | 0 => s.filter_r_
  | 1 => s.filter_gr_
  | 2 => s.filter_gb_
  | _ => s.filter_b_

/-- The value lines 297-312 store at `current_colors_[i * NUM_CHANNELS + c]`. -/
def storedCount (fm : Rounding) (hd : Header) (s : Scene) (il : Illumination) (i c : Nat) : ℚ :=
  hd.storeColor (channel fm (channelFilter s c) (mat_xyz fm il i) (lux_to_electrons fm s))

/-- Function `SetExposureDuration` (lines 129-131). -/
def SetExposureDuration (s : Scene) (seconds : ℚ) : Scene :=
  { s with exposure_duration_ := seconds }

/-- Function `SetHour` (lines 116-119); `%` on `int` truncates towards zero. -/
def SetHour (s : Scene) (hour : Int) : Scene :=
  { s with hour_ := Int.tmod hour 24 }

/-- Function `GetHour` (lines 121-123). -/
def GetHour (s : Scene) : Int := s.hour_

/-- The four bytes of a `uint32_t`, least significant first (the byte order of the targets of
the emulator). -/
def wordBytes (w : Nat) : List Nat :=
  [w % 256, w / 256 % 256, w / 65536 % 256, w / 16777216 % 256]

/-- The object representation of an array of `uint32_t`. -/
def wordsBytes (ws : List Nat) : List Nat := ws.flatMap wordBytes

/-- The `uint32_t` values held by a sequence of bytes, four bytes per value. -/
def bytesWords : List Nat → List Nat
  | b0 :: b1 :: b2 :: b3 :: rest =>
    (b0 + 256 * b1 + 65536 * b2 + 16777216 * b3) :: bytesWords rest
  | _ => []

/-- Function `SetTestPatternData` (lines 137-139): `memcpy(test_pattern_data_, data, 4)` on the
bytes of the two arrays of `uint32_t`. -/
def SetTestPatternData (s : Scene) (data : List Nat) : Scene :=
  { s with
    test_pattern_data_ := bytesWords (memcpy (wordsBytes s.test_pattern_data_) (wordsBytes data) 4) }

/-- Local `start_pos` of `GetPixelElectrons` (line 398) for a cursor held as natural numbers. -/
def startPos (hd : Header) (x y : Nat) : Nat := 54 + hd.kSceneWidth * x * 3 + y

/-- The expression of lines 322-328 (and 330-335) evaluated without rounding in an ordered
field `K`: `(m1 * sin(freq1 * t) + m2 * sin(freq2 * t)) * map_div_ * frac`, divided by
`handshake_divider` when that is positive.  With `K = ℚ` this is `handshake` in exact arithmetic;
with `K = ℝ` the sine can be the sine of the real numbers. -/
def handshakeOver {K : Type} [LinearOrderedField K] (sin : K → K) (m1 m2 freq1 freq2 frac : K)
    (tsi map_div_ handshake_divider : Int) : K :=
  let shake := (m1 * sin (freq1 * (tsi : K)) + m2 * sin (freq2 * (tsi : K))) * (map_div_ : K) * frac
  if handshake_divider > 0 then shake / (handshake_divider : K) else shake

/-- The illumination `CalculateScene` computes at hour 12 and time 0: `time_since_idx` is 0 and
the entries of `kSunlight` and `kMoonlight` at the buckets 6 and 7 are `kDirectSunIllum` and 0. -/
def noonIllumination (fm : Rounding) : Illumination :=
  illuminate fm 12 0 (kDirectSunIllum fm) (kDirectSunIllum fm) (fm.ofInt 0) (fm.ofInt 0)

/-- The `float` value lines 297-312 compute for material 0 (GRASS) and the filter `filter` at
hour 12 and time 0, with sensitivity 100 and exposure duration `0.033f`. -/
def grassCount (fm : Rounding) (filter : Vec3) : ℚ :=
  channel fm filter (mat_xyz fm (noonIllumination fm) 0)
    (fm.div (fm.mul (fm.ofInt 100) (fm.lit (33 / 1000))) (fm.mul (kAperture fm) (kAperture fm)))

/-- The filters the constructor stores (lines 53-64). -/
def defaultFilterR (fm : Rounding) : Vec3 :=
  ⟨fm.lit (32406 / 10000), -fm.lit (15372 / 10000), -fm.lit (4986 / 10000)⟩

def defaultFilterGr (fm : Rounding) : Vec3 :=
  ⟨-fm.lit (9689 / 10000), fm.lit (18758 / 10000), fm.lit (415 / 10000)⟩

def defaultFilterGb (fm : Rounding) : Vec3 :=
  ⟨-fm.lit (9689 / 10000), fm.lit (18758 / 10000), fm.lit (415 / 10000)⟩

def defaultFilterB (fm : Rounding) : Vec3 :=
  ⟨fm.lit (557 / 10000), -fm.lit (2040 / 10000), fm.lit (10570 / 10000)⟩

/-- The scene the constructor builds with the arithmetic `fm` from `sampleMemory` for a
back-facing 640 x 480 sensor of sensitivity 100 mounted at 90 degrees. -/
def constructedScene (fm : Rounding) : Scene :=
  (EmulatedScene fm sampleHeader sampleMemory 640 480 (fm.ofInt 100) 90 false).getD sampleMemory

/-- A bitmap whose 54 header bytes are 101, 102, ..., 154 and whose payload is the bytes
1, 2, ..., 12 of a 2 x 2 scene. -/
def headedBitmap : List Nat :=
  (List.range 54).map (fun i => 101 + i) ++ [1, 2, 3, 4, 5, 6, 7, 8, 9, 10, 11, 12]

/-- Storage before construction that holds `headedBitmap` in `kScene` and zeroed rotation buffers
of the bitmap's size. -/
def headedMemory : Scene :=
  { sampleMemory with
    kScene := headedBitmap
    scene_rot0_ := List.replicate 66 0
    scene_rot90_ := List.replicate 66 0
    scene_rot180_ := List.replicate 66 0
    scene_rot270_ := List.replicate 66 0 }

/-- The scene the constructor builds in exact arithmetic from `headedMemory` for a back-facing
640 x 480 sensor of sensitivity 100 mounted at 90 degrees. -/
def headedScene : Scene :=
  (EmulatedScene exactRounding sampleHeader headedMemory 640 480 100 90 false).getD headedMemory

/-- The `float` value lines 297-312 compute for material `i` and the channel at offset `c` of its
row, before it is stored into `current_colors_`. -/
def floatCount (fm : Rounding) (s : Scene) (il : Illumination) (i c : Nat) : ℚ :=
  channel fm (channelFilter s c) (mat_xyz fm il i) (lux_to_electrons fm s)

/-- Conversion of a `float` to an integer type: the fractional part is discarded (truncation
towards zero).  It is the conversion of the stores of lines 297-312 when the element type of
`current_colors_` is an integer type, as the `%d` of lines 314-318 has it, for the values the type
can represent. -/
def truncStore (q : ℚ) : ℚ := if 0 ≤ q then ((⌊q⌋ : Int) : ℚ) else ((⌈q⌉ : Int) : ℚ)

/-- The sample header with a colour table of integers. -/
def integerHeader : Header := { sampleHeader with storeColor := truncStore }

/-- Accuracy of round-to-nearest on `float`: the error of a rounding is at most `2 ^ -24` of the
magnitude of its argument (half a unit in the last place of a normal binary32 number) plus
`2 ^ -150` (half the spacing of the subnormal binary32 numbers). -/
def Rounding.Accurate (fm : Rounding) : Prop :=
  ∀ q : ℚ, |fm.rnd q - q| ≤ |q| / 16777216 + 1 / 2 ^ 150

/-! # Theorems -/

theorem countDown_length (n : Nat) : (countDown n).length = n := by simp [countDown]
theorem countUp_length (n : Nat) : (countUp n).length = n := by simp [countUp]

theorem countUp_getD (n k : Nat) (hk : k < n) : (countUp n).getD k 0 = k := by
  have h : k < (countUp n).length := by simpa [countUp] using hk
  rw [List.getD_eq_getElem _ _ h]
  simp [countUp]

theorem countDown_getD (n k : Nat) (hk : k < n) : (countDown n).getD k 0 = n - 1 - k := by
  have h : k < (countDown n).length := by simpa [countDown] using hk
  rw [List.getD_eq_getElem _ _ h]
  simp [countDown]

theorem nest_length (outer inner : List Nat) (f : Nat → Nat → Nat) :
    (outer.flatMap fun i => inner.map fun j => f i j).length = outer.length * inner.length := by
  induction outer with
  | nil => simp
  | cons a t ih => simp only [List.flatMap_cons, List.length_append, List.length_map, ih,
      List.length_cons]; ring

theorem nest_getD (outer inner : List Nat) (f : Nat → Nat → Nat) (k j : Nat)
    (hk : k < outer.length) (hj : j < inner.length) :
    (outer.flatMap fun i => inner.map fun j => f i j).getD (k * inner.length + j) 0
      = f (outer.getD k 0) (inner.getD j 0) := by
  induction outer generalizing k with
  | nil => simp at hk
  | cons a t ih =>
    rw [List.flatMap_cons]
    cases k with
    | zero =>
      have hlen : 0 * inner.length + j < (inner.map fun j => f a j).length := by simpa using hj
      rw [List.getD_append _ _ _ _ hlen]
      simp only [Nat.zero_mul, Nat.zero_add]
      rw [List.getD_eq_getElem _ _ (by simpa using hj), List.getD_eq_getElem _ _ hj]
      simp
    | succ k =>
      have hlen : (inner.map fun j => f a j).length ≤ (k + 1) * inner.length + j := by
        simp only [List.length_map]; nlinarith
      rw [List.getD_append_right _ _ _ _ hlen]
      have : (k + 1) * inner.length + j - (inner.map fun j => f a j).length
          = k * inner.length + j := by
        simp only [List.length_map]; rw [Nat.add_mul]; omega
      rw [this, ih k (by simpa using hk)]
      simp

theorem ext_getD {l₁ l₂ : List Nat} (hl : l₁.length = l₂.length)
    (h : ∀ c, c < l₁.length → l₁.getD c 0 = l₂.getD c 0) : l₁ = l₂ := by
  apply List.ext_getElem hl
  intro n h1 h2
  have := h n h1
  rwa [List.getD_eq_getElem _ _ h1, List.getD_eq_getElem _ _ h2] at this

theorem rot180Samples_length (W H : Nat) (src : List Nat) :
    (rot180Samples W H src).length = H * W := by
  unfold rot180Samples
  rw [nest_length, countDown_length, countDown_length]

theorem transposeDownUp_length (W H : Nat) (src : List Nat) :
    (transposeDownUp W H src).length = W * H := by
  unfold transposeDownUp
  rw [nest_length, countDown_length, countUp_length]

theorem transposeUpDown_length (W H : Nat) (src : List Nat) :
    (transposeUpDown W H src).length = W * H := by
  unfold transposeUpDown
  rw [nest_length, countUp_length, countDown_length]

theorem rot180Samples_getD (W H : Nat) (src : List Nat) (k j : Nat) (hk : k < H) (hj : j < W) :
    (rot180Samples W H src).getD (k * W + j) 0 = src.getD ((H - 1 - k) * W + (W - 1 - j)) 0 := by
  have h := nest_getD (countDown H) (countDown W) (fun i j => src.getD (i * W + j) 0) k j
    (by simpa [countDown_length] using hk) (by simpa [countDown_length] using hj)
  rw [countDown_length, countDown_getD H k hk, countDown_getD W j hj] at h
  exact h

theorem transposeDownUp_getD (W H : Nat) (src : List Nat) (k j : Nat) (hk : k < W) (hj : j < H) :
    (transposeDownUp W H src).getD (k * H + j) 0 = src.getD (j * W + (W - 1 - k)) 0 := by
  have h := nest_getD (countDown W) (countUp H) (fun i j => src.getD (j * W + i) 0) k j
    (by simpa [countDown_length] using hk) (by simpa [countUp_length] using hj)
  rw [countUp_length, countDown_getD W k hk, countUp_getD H j hj] at h
  exact h

theorem transposeUpDown_getD (W H : Nat) (src : List Nat) (k j : Nat) (hk : k < W) (hj : j < H) :
    (transposeUpDown W H src).getD (k * H + j) 0 = src.getD ((H - 1 - j) * W + k) 0 := by
  have h := nest_getD (countUp W) (countDown H) (fun i j => src.getD (j * W + i) 0) k j
    (by simpa [countUp_length] using hk) (by simpa [countDown_length] using hj)
  rw [countDown_length, countUp_getD W k hk, countDown_getD H j hj] at h
  exact h

/-- Every index below `n * m` splits as `k * m + j` with `k < n` and `j < m`. -/
theorem split_index (n m c : Nat) (hc : c < n * m) :
    ∃ k j, k < n ∧ j < m ∧ c = k * m + j := by
  have hm : 0 < m := by
    rcases Nat.eq_zero_or_pos m with h | h
    · subst h; simp at hc
    · exact h
  refine ⟨c / m, c % m, ?_, Nat.mod_lt _ hm, ?_⟩
  · exact (Nat.div_lt_iff_lt_mul hm).2 hc
  · rw [Nat.mul_comm]; exact (Nat.div_add_mod c m).symm

theorem mirror_index (W H k j : Nat) (hk : k < H) (hj : j < W) :
    (H - 1 - k) * W + (W - 1 - j) = W * H - 1 - (k * W + j) := by
  obtain ⟨a, rfl⟩ : ∃ a, H = k + 1 + a := ⟨H - (k + 1), by omega⟩
  obtain ⟨b, rfl⟩ : ∃ b, W = j + 1 + b := ⟨W - (j + 1), by omega⟩
  have e1 : k + 1 + a - 1 - k = a := by omega
  have e2 : j + 1 + b - 1 - j = b := by omega
  rw [e1, e2]
  have : (j + 1 + b) * (k + 1 + a) = (a * (j + 1 + b) + b) + (k * (j + 1 + b) + j) + 1 := by ring
  rw [this]
  omega

/-! ## C2, C3: the rotation constructions composed -/

theorem twice90_getD (W H : Nat) (src : List Nat) (k j : Nat) (hk : k < H) (hj : j < W) :
    (transposeDownUp H W (transposeDownUp W H src)).getD (k * W + j) 0
      = src.getD ((H - 1 - k) * W + (W - 1 - j)) 0 := by
  rw [transposeDownUp_getD H W _ k j hk hj]
  rw [transposeDownUp_getD W H src j (H - 1 - k) hj (by omega)]

theorem twice90_eq_rot180 (W H : Nat) (src : List Nat) :
    transposeDownUp H W (transposeDownUp W H src) = rot180Samples W H src := by
  apply ext_getD
  · rw [transposeDownUp_length, rot180Samples_length]
  · intro c hc
    rw [transposeDownUp_length] at hc
    obtain ⟨k, j, hk, hj, rfl⟩ := split_index H W c hc
    rw [twice90_getD W H src k j hk hj, rot180Samples_getD W H src k j hk hj]

/-- C2.  For every sample array `src` and every width `W` and height `H`, the 90 degree
construction of `InitiliazeSceneRotation` (`clock_wise = true`) applied to the `W` x `H` array
and then again to the resulting `H` x `W` array stores exactly the samples the 180 degree
construction stores for the original array, in the same order: the sample at index `c < W * H`
is the original sample at index `W * H - 1 - c`. -/
theorem rot90_twice_is_rot180 (W H : Nat) (src : List Nat) :
    construct90 H W true (construct90 W H true src) = rot180Samples W H src ∧
    ∀ c, c < W * H →
      (construct90 H W true (construct90 W H true src)).getD c 0 = src.getD (W * H - 1 - c) 0 := by
  refine ⟨twice90_eq_rot180 W H src, ?_⟩
  intro c hc
  obtain ⟨k, j, hk, hj, rfl⟩ := split_index H W c (by rwa [Nat.mul_comm])
  show (transposeDownUp H W (transposeDownUp W H src)).getD (k * W + j) 0 = _
  rw [twice90_getD W H src k j hk hj, mirror_index W H k j hk hj]

theorem down_then_up_getD (W H : Nat) (src : List Nat) (k j : Nat) (hk : k < H) (hj : j < W) :
    (transposeUpDown H W (transposeDownUp W H src)).getD (k * W + j) 0
      = src.getD (k * W + j) 0 := by
  rw [transposeUpDown_getD H W _ k j hk hj]
  rw [transposeDownUp_getD W H src (W - 1 - j) k (by omega) hk]
  congr 2
  omega

theorem up_then_down_getD (W H : Nat) (src : List Nat) (k j : Nat) (hk : k < H) (hj : j < W) :
    (transposeDownUp H W (transposeUpDown W H src)).getD (k * W + j) 0
      = src.getD (k * W + j) 0 := by
  rw [transposeDownUp_getD H W _ k j hk hj]
  rw [transposeUpDown_getD W H src j (H - 1 - k) hj (by omega)]
  congr 2
  have : H - 1 - (H - 1 - k) = k := by omega
  rw [this]

theorem down_then_up (W H : Nat) (src : List Nat) (hsrc : src.length = W * H) :
    transposeUpDown H W (transposeDownUp W H src) = src := by
  apply ext_getD
  · rw [transposeUpDown_length, hsrc, Nat.mul_comm]
  · intro c hc
    rw [transposeUpDown_length] at hc
    obtain ⟨k, j, hk, hj, rfl⟩ := split_index H W c hc
    exact down_then_up_getD W H src k j hk hj

theorem up_then_down (W H : Nat) (src : List Nat) (hsrc : src.length = W * H) :
    transposeDownUp H W (transposeUpDown W H src) = src := by
  apply ext_getD
  · rw [transposeDownUp_length, hsrc, Nat.mul_comm]
  · intro c hc
    rw [transposeDownUp_length] at hc
    obtain ⟨k, j, hk, hj, rfl⟩ := split_index H W c hc
    exact up_then_down_getD W H src k j hk hj

/-- C3.  For every array `src` of `W * H` samples and either value of `clock_wise`, the 90 degree
construction applied to the `W` x `H` array followed by the 270 degree construction applied to
the resulting `H` x `W` array returns `src`, and so do the two constructions applied in the
other order. -/
theorem rot90_rot270_restore (W H : Nat) (clock_wise : Bool) (src : List Nat)
    (hsrc : src.length = W * H) :
    construct270 H W clock_wise (construct90 W H clock_wise src) = src ∧
    construct90 H W clock_wise (construct270 W H clock_wise src) = src := by
  cases clock_wise
  · exact ⟨up_then_down W H src hsrc, down_then_up W H src hsrc⟩
  · exact ⟨down_then_up W H src hsrc, up_then_down W H src hsrc⟩

theorem rot90_rot270_restore_witness :
    construct270 2 3 true (construct90 3 2 true [1, 2, 3, 4, 5, 6]) = [1, 2, 3, 4, 5, 6] ∧
    construct90 2 3 true (construct270 3 2 true [1, 2, 3, 4, 5, 6]) = [1, 2, 3, 4, 5, 6] :=
  rot90_rot270_restore 3 2 true [1, 2, 3, 4, 5, 6] rfl

example : construct90 3 2 true [1, 2, 3, 4, 5, 6] = [3, 6, 2, 5, 1, 4] := by decide
example : construct270 3 2 true [1, 2, 3, 4, 5, 6] = [4, 1, 5, 2, 6, 3] := by decide
example : rot180Samples 3 2 [1, 2, 3, 4, 5, 6] = [6,5,4,3,2,1] := by decide

/-! ## Basic facts about the model -/

theorem readTable_some (table : List ℚ) (i : Int) (h0 : 0 ≤ i) (h1 : i < table.length) :
    readTable table i = some (table.getD i.toNat 0) := by
  have hlt : i.toNat < table.length := by omega
  simp [readTable, h0, List.getD_eq_getElem _ _ hlt, List.getElem?_eq_getElem hlt]

theorem time_idx_eq (h : Int) (h0 : 0 ≤ h) : time_idx h = h / 2 := by
  unfold time_idx kTimeStep
  exact Int.tdiv_eq_ediv h0 (by decide)

theorem next_time_idx_eq (h : Int) (h0 : 0 ≤ h) : next_time_idx h = (h / 2 + 1) % 12 := by
  unfold next_time_idx
  rw [time_idx_eq h h0]
  have h24 : Int.tdiv 24 kTimeStep = 12 := by decide
  rw [h24, Int.tmod_eq_emod (by omega) (by decide)]

theorem time_since_idx_eq (h t : Int) (hr : InRange h t) :
    time_since_idx h t = some (h % 2 * kOneHourInNsec + t) := by
  obtain ⟨h0, h1, ht0, ht1⟩ := hr
  unfold time_since_idx
  rw [time_idx_eq h h0]
  have e : h - h / 2 * kTimeStep = h % 2 := by unfold kTimeStep; omega
  rw [e]
  have hm : h % 2 = 0 ∨ h % 2 = 1 := by omega
  unfold kOneHourInNsec at ht1 ⊢
  rcases hm with hm | hm <;> rw [hm] <;> simp [i64] <;> omega

theorem kSunlight_length (fm : Rounding) : (kSunlight fm).length = 12 := rfl
theorem kMoonlight_length (fm : Rounding) : (kMoonlight fm).length = 12 := rfl

/-- In range, the illumination is defined and is `illuminate` at the entries of the buckets
`hour_ / 2` and `(hour_ / 2 + 1) % 12`. -/
theorem illumination_eq (fm : Rounding) (h t : Int) (hr : InRange h t) :
    illumination fm h t = some (illuminate fm h (h % 2 * kOneHourInNsec + t)
      ((kSunlight fm).getD (h / 2).toNat 0) ((kSunlight fm).getD ((h / 2 + 1) % 12).toNat 0)
      ((kMoonlight fm).getD (h / 2).toNat 0) ((kMoonlight fm).getD ((h / 2 + 1) % 12).toNat 0)) := by
  have h0 := hr.1
  have h1 := hr.2.1
  unfold illumination
  rw [time_since_idx_eq h t hr, time_idx_eq h h0, next_time_idx_eq h h0]
  rw [readTable_some (kSunlight fm) (h / 2) (by omega) (by rw [kSunlight_length]; omega),
    readTable_some (kSunlight fm) ((h / 2 + 1) % 12) (by omega) (by rw [kSunlight_length]; omega),
    readTable_some (kMoonlight fm) (h / 2) (by omega) (by rw [kMoonlight_length]; omega),
    readTable_some (kMoonlight fm) ((h / 2 + 1) % 12) (by omega)
      (by rw [kMoonlight_length]; omega)]
  rfl

theorem i32_eq_some (x y : Int) (h : i32 x = some y) :
    y = x ∧ -2147483648 ≤ x ∧ x < 2147483648 := by
  unfold i32 at h
  split at h
  · rename_i hx
    exact ⟨(Option.some.inj h).symm, hx.1, hx.2⟩
  · exact absurd h (by simp)

/-- Without a live source, a call that returns has computed its illumination and returns
`sceneAfter`. -/
theorem CalculateScene_none_inv (fm : FloatModel) (hd : Header) (s s' : Scene) (time d : Int)
    (h : CalculateScene fm hd none s time d = some s') :
    ∃ il, illumination fm.toRounding s.hour_ time = some il ∧
      (-2147483648 ≤ signedOrientation s ∧ signedOrientation s < 2147483648) ∧
      s' = sceneAfter fm hd s il d := by
  unfold CalculateScene at h
  simp only [Option.bind_eq_bind, Option.bind_eq_some] at h
  obtain ⟨il, hil, o, ho, hs⟩ := h
  obtain ⟨rfl, h1, h2⟩ := i32_eq_some _ _ ho
  exact ⟨il, hil, ⟨h1, h2⟩, (Option.some.inj hs).symm⟩

/-- Without a live source, a call whose illumination is defined and whose orientation can be
negated returns `sceneAfter`. -/
theorem CalculateScene_none_of (fm : FloatModel) (hd : Header) (s : Scene) (time d : Int)
    (il : Illumination) (hil : illumination fm.toRounding s.hour_ time = some il)
    (ho : -2147483648 ≤ signedOrientation s ∧ signedOrientation s < 2147483648) :
    CalculateScene fm hd none s time d = some (sceneAfter fm hd s il d) := by
  unfold CalculateScene
  simp only [hil, Option.bind_eq_bind, Option.some_bind]
  have hi : i32 (if s.is_front_facing_ then -s.sensor_orientation_ else s.sensor_orientation_)
      = some (signedOrientation s) := by
    unfold signedOrientation at ho ⊢
    unfold i32
    rw [if_pos ho]
  rw [hi]
  rfl

/-- Without a live source and in range, `CalculateScene` returns. -/
theorem CalculateScene_none_eq (fm : FloatModel) (hd : Header) (s : Scene) (time d : Int)
    (hr : InRange s.hour_ time)
    (ho : -2147483648 ≤ signedOrientation s ∧ signedOrientation s < 2147483648) :
    ∃ il, illumination fm.toRounding s.hour_ time = some il ∧
      CalculateScene fm hd none s time d = some (sceneAfter fm hd s il d) :=
  ⟨_, illumination_eq fm.toRounding s.hour_ time hr,
    CalculateScene_none_of fm hd s time d _ (illumination_eq fm.toRounding s.hour_ time hr) ho⟩

theorem sampleScene_hour : sampleScene.hour_ = 12 := rfl

theorem sampleScene_signedOrientation : signedOrientation sampleScene = 90 := rfl

/-! ## C1: selection of the active rotation buffer -/

theorem selectScene_rot90 (n : Nat) : selectScene n = SceneBuf.rot90 ↔ n = 90 := by
  unfold selectScene
  split <;> simp_all

theorem selectScene_rot180 (n : Nat) : selectScene n = SceneBuf.rot180 ↔ n = 180 := by
  unfold selectScene
  split <;> simp_all

theorem selectScene_rot270 (n : Nat) : selectScene n = SceneBuf.rot270 ↔ n = 270 := by
  unfold selectScene
  split <;> simp_all

theorem selectScene_rot0 (n : Nat) :
    selectScene n = SceneBuf.rot0 ↔ n ≠ 90 ∧ n ≠ 180 ∧ n ≠ 270 := by
  unfold selectScene
  split <;> simp_all

/-- The value of `scene_rotation` as an integer: the sum is reduced modulo `2 ^ 32` first. -/
theorem scene_rotation_cast (r : Nat) (o : Int) :
    ((scene_rotation r o : Nat) : Int) = ((r : Int) + 360 + o) % 4294967296 % 360 := by
  unfold scene_rotation u32
  omega

/-- C1 (amended).  Without a live source, for every screen rotation `r`, every sensor orientation
`o` in {0, 90, 180, 270} and either facing: `CalculateScene` returns when the hour is in 0..23
and `time_since_idx` does not overflow, and whenever it returns, the active buffer is the 90, 180
or 270 degree buffer exactly when `v = ((r + 360 + o') mod 2 ^ 32) mod 360` is 90, 180 or 270,
with `o' = -o` for a front-facing device and `o' = o` otherwise, and the 0 degree buffer for every
other `v`.  When `r + 360 + o' < 2 ^ 32` the value `v` is `(r + o') mod 360`. -/
theorem calculateScene_selects_rotation (fm : FloatModel) (hd : Header) (s : Scene)
    (time d o : Int) (ho : o = 0 ∨ o = 90 ∨ o = 180 ∨ o = 270) (hs : s.sensor_orientation_ = o) :
    (InRange s.hour_ time → ∃ s', CalculateScene fm hd none s time d = some s') ∧
    ∀ s', CalculateScene fm hd none s time d = some s' →
      (s'.current_scene_ = SceneBuf.rot90 ↔
        ((s.screen_rotation_ : Int) + 360 + (if s.is_front_facing_ then -o else o))
          % 4294967296 % 360 = 90) ∧
      (s'.current_scene_ = SceneBuf.rot180 ↔
        ((s.screen_rotation_ : Int) + 360 + (if s.is_front_facing_ then -o else o))
          % 4294967296 % 360 = 180) ∧
      (s'.current_scene_ = SceneBuf.rot270 ↔
        ((s.screen_rotation_ : Int) + 360 + (if s.is_front_facing_ then -o else o))
          % 4294967296 % 360 = 270) ∧
      (s'.current_scene_ = SceneBuf.rot0 ↔
        ((s.screen_rotation_ : Int) + 360 + (if s.is_front_facing_ then -o else o))
            % 4294967296 % 360 ≠ 90 ∧
        ((s.screen_rotation_ : Int) + 360 + (if s.is_front_facing_ then -o else o))
            % 4294967296 % 360 ≠ 180 ∧
        ((s.screen_rotation_ : Int) + 360 + (if s.is_front_facing_ then -o else o))
            % 4294967296 % 360 ≠ 270) ∧
      ((s.screen_rotation_ : Int) + 360 + (if s.is_front_facing_ then -o else o) < 4294967296 →
        ((s.screen_rotation_ : Int) + 360 + (if s.is_front_facing_ then -o else o))
            % 4294967296 % 360
          = ((s.screen_rotation_ : Int) + (if s.is_front_facing_ then -o else o)) % 360) := by
  have hso : signedOrientation s = (if s.is_front_facing_ then -o else o) := by
    unfold signedOrientation; rw [hs]
  have hb' : -270 ≤ (if s.is_front_facing_ then -o else o) ∧
      (if s.is_front_facing_ then -o else o) ≤ 270 := by
    split <;> omega
  have hb : -2147483648 ≤ signedOrientation s ∧ signedOrientation s < 2147483648 := by
    rw [hso]
    omega
  constructor
  · intro hr
    obtain ⟨il, -, hcs⟩ := CalculateScene_none_eq fm hd s time d hr hb
    exact ⟨_, hcs⟩
  · intro s' hcs
    obtain ⟨il, -, -, rfl⟩ := CalculateScene_none_inv fm hd s s' time d hcs
    have hc := scene_rotation_cast s.screen_rotation_ (signedOrientation s)
    rw [hso] at hc
    rw [← hc]
    simp only [sceneAfter, SetReadoutPixel, selectScene_rot90, selectScene_rot180,
      selectScene_rot270, selectScene_rot0, hso]
    refine ⟨by omega, by omega, by omega, by omega, ?_⟩
    intro hlt
    rw [hc]
    omega

theorem calculateScene_selects_rotation_witness :
    (InRange sampleScene.hour_ 0 →
      ∃ s', CalculateScene (exactArith id) sampleHeader none sampleScene 0 0 = some s') ∧
    ∀ s', CalculateScene (exactArith id) sampleHeader none sampleScene 0 0 = some s' →
      (s'.current_scene_ = SceneBuf.rot90 ↔
        ((sampleScene.screen_rotation_ : Int) + 360
            + (if sampleScene.is_front_facing_ then -90 else 90)) % 4294967296 % 360 = 90) ∧
      (s'.current_scene_ = SceneBuf.rot180 ↔
        ((sampleScene.screen_rotation_ : Int) + 360
            + (if sampleScene.is_front_facing_ then -90 else 90)) % 4294967296 % 360 = 180) ∧
      (s'.current_scene_ = SceneBuf.rot270 ↔
        ((sampleScene.screen_rotation_ : Int) + 360
            + (if sampleScene.is_front_facing_ then -90 else 90)) % 4294967296 % 360 = 270) ∧
      (s'.current_scene_ = SceneBuf.rot0 ↔
        ((sampleScene.screen_rotation_ : Int) + 360
            + (if sampleScene.is_front_facing_ then -90 else 90)) % 4294967296 % 360 ≠ 90 ∧
        ((sampleScene.screen_rotation_ : Int) + 360
            + (if sampleScene.is_front_facing_ then -90 else 90)) % 4294967296 % 360 ≠ 180 ∧
        ((sampleScene.screen_rotation_ : Int) + 360
            + (if sampleScene.is_front_facing_ then -90 else 90)) % 4294967296 % 360 ≠ 270) ∧
      ((sampleScene.screen_rotation_ : Int) + 360
          + (if sampleScene.is_front_facing_ then -90 else 90) < 4294967296 →
        ((sampleScene.screen_rotation_ : Int) + 360
            + (if sampleScene.is_front_facing_ then -90 else 90)) % 4294967296 % 360
          = ((sampleScene.screen_rotation_ : Int)
            + (if sampleScene.is_front_facing_ then -90 else 90)) % 360) :=
  calculateScene_selects_rotation (exactArith id) sampleHeader sampleScene 0 0 90
    (by decide) (by rfl)

/-- C1 (counterexample).  After `SetScreenRotation(4294966936)` on the sample scene (back-facing,
sensor orientation 90) the 32-bit sum `r + 360` wraps to 0: `CalculateScene` selects the 90 degree
buffer although `(r + 90) mod 360` is 346. -/
theorem calculateScene_rotation_wraps :
    ∃ s', CalculateScene (exactArith id) sampleHeader none
        (SetScreenRotation sampleScene 4294966936) 0 0 = some s' ∧
      (SetScreenRotation sampleScene 4294966936).screen_rotation_ = 4294966936 ∧
      sampleScene.sensor_orientation_ = 90 ∧ sampleScene.is_front_facing_ = false ∧
      s'.current_scene_ = SceneBuf.rot90 ∧ ((4294966936 : Int) + 90) % 360 = 346 := by
  obtain ⟨il, -, hcs⟩ := CalculateScene_none_eq (exactArith id) sampleHeader
    (SetScreenRotation sampleScene 4294966936) 0 0 (by decide) (by decide)
  exact ⟨_, hcs, by rfl, by rfl, by rfl, by rfl, by decide⟩

/-! ## C5, C6: the live source -/

theorem memcpy_length (dst src : List Nat) (n : Nat) (h1 : n ≤ src.length) (h2 : n ≤ dst.length) :
    (memcpy dst src n).length = dst.length := by
  unfold memcpy
  rw [List.length_append, List.length_take, List.length_drop]
  omega

theorem memcpy_getElem?_lt (dst src : List Nat) (n i : Nat) (hi : i < n) (h1 : n ≤ src.length) :
    (memcpy dst src n)[i]? = src[i]? := by
  unfold memcpy
  rw [List.getElem?_append_left (by rw [List.length_take]; omega)]
  rw [List.getElem?_take_of_lt hi]

theorem memcpy_getElem?_ge (dst src : List Nat) (n i : Nat) (hi : n ≤ i) (h1 : n ≤ src.length) :
    (memcpy dst src n)[i]? = dst[i]? := by
  unfold memcpy
  have hl : (List.take n src).length = n := by rw [List.length_take]; omega
  rw [List.getElem?_append_right (by rw [hl]; exact hi), hl, List.getElem?_drop]
  congr 1
  omega

/-- C5.  With a live source whose transfer delivered `n > 0` bytes, `CalculateScene` returns; the
bitmap keeps its length, its first `min (sizeof kScene) n` bytes are the first received bytes in
order, and every byte from index `min (sizeof kScene) n` on (so every byte at an index `≥ n`)
keeps its prior content. -/
theorem calculateScene_live_overwrites (fm : FloatModel) (hd : Header) (s : Scene)
    (time d : Int) (f : Fetch) (hn : 0 < f.read_buffer.length)
    (hlen : s.kScene.length = sizeofkScene hd) :
    ∃ s', CalculateScene fm hd (some f) s time d = some s' ∧
      s'.kScene.length = s.kScene.length ∧
      (∀ i, i < min (sizeofkScene hd) f.read_buffer.length → s'.kScene[i]? = f.read_buffer[i]?) ∧
      (∀ i, min (sizeofkScene hd) f.read_buffer.length ≤ i → s'.kScene[i]? = s.kScene[i]?) ∧
      (∀ i, f.read_buffer.length ≤ i → s'.kScene[i]? = s.kScene[i]?) := by
  refine ⟨_, rfl, ?_, ?_, ?_, ?_⟩
  · simp only [SetReadoutPixel, if_pos hn]
    exact memcpy_length _ _ _ (Nat.min_le_right _ _) (by rw [hlen]; exact Nat.min_le_left _ _)
  · intro i hi
    simp only [SetReadoutPixel, if_pos hn]
    exact memcpy_getElem?_lt _ _ _ _ hi (Nat.min_le_right _ _)
  · intro i hi
    simp only [SetReadoutPixel, if_pos hn]
    exact memcpy_getElem?_ge _ _ _ _ hi (Nat.min_le_right _ _)
  · intro i hi
    simp only [SetReadoutPixel, if_pos hn]
    exact memcpy_getElem?_ge _ _ _ _ (le_trans (Nat.min_le_right _ _) hi) (Nat.min_le_right _ _)

/-- C6 (amended).  With a live source whose transfer delivered no byte, whatever code it
returned, `CalculateScene` returns the scene with the cursor at (0, 0) and every other field,
the bitmap included, as it was. -/
theorem calculateScene_live_empty (fm : FloatModel) (hd : Header) (s : Scene) (time d : Int)
    (f : Fetch) (h0 : f.read_buffer = []) :
    CalculateScene fm hd (some f) s time d = some { s with current_x_ := 0, current_y_ := 0 } := by
  unfold CalculateScene
  simp [h0, SetReadoutPixel]

/-- C6 (counterexample).  A transfer that fails with `CURLE_PARTIAL_FILE` after one byte has
arrived: `CalculateScene` overwrites the first byte of the bitmap. -/
theorem calculateScene_live_failed_overwrites :
    CURLE_PARTIAL_FILE ≠ CURLE_OK ∧
    ∃ s', CalculateScene (exactArith id) sampleHeader (some ⟨CURLE_PARTIAL_FILE, [255]⟩)
        sampleScene 0 0 = some s' ∧
      sampleScene.kScene[0]? = some 0 ∧ s'.kScene[0]? = some 255 :=
  ⟨by decide, _, rfl, by decide, by decide⟩

theorem calculateScene_live_overwrites_witness :
    ∃ s', CalculateScene (exactArith id) sampleHeader (some ⟨CURLE_OK, [7, 8, 9]⟩) sampleScene 0 0
        = some s' ∧
      s'.kScene.length = sampleScene.kScene.length ∧
      (∀ i, i < min (sizeofkScene sampleHeader) 3 → s'.kScene[i]? = [7, 8, 9][i]?) ∧
      (∀ i, min (sizeofkScene sampleHeader) 3 ≤ i → s'.kScene[i]? = sampleScene.kScene[i]?) ∧
      (∀ i, 3 ≤ i → s'.kScene[i]? = sampleScene.kScene[i]?) :=
  calculateScene_live_overwrites (exactArith id) sampleHeader sampleScene 0 0 ⟨CURLE_OK, [7, 8, 9]⟩
    (by decide) (by decide)

theorem calculateScene_live_empty_witness :
    CalculateScene (exactArith id) sampleHeader (some ⟨CURLE_PARTIAL_FILE, []⟩) sampleScene 0 0
      = some { sampleScene with current_x_ := 0, current_y_ := 0 } :=
  calculateScene_live_empty (exactArith id) sampleHeader sampleScene 0 0 ⟨CURLE_PARTIAL_FILE, []⟩ rfl

/-! ## C7: the readout -/

theorem i32_some (x : Int) (h1 : -2147483648 ≤ x) (h2 : x < 2147483648) : i32 x = some x := by
  unfold i32
  rw [if_pos ⟨h1, h2⟩]

theorem u32_of_nat (n : Nat) (h : n < 4294967296) : u32 (n : Int) = n := by
  unfold u32
  omega

theorem readPixel_eq (hd : Header) (kScene pixel : List Nat) (x y : Nat)
    (hb : 54 + hd.kSceneWidth * x * 3 + y + 2 < kScene.length)
    (hl : kScene.length < 2147483648) :
    readPixel hd kScene pixel x y = some
      (((pixel.set hd.R (kScene.getD (54 + hd.kSceneWidth * x * 3 + y + 2) 0)).set hd.Gr
        (kScene.getD (54 + hd.kSceneWidth * x * 3 + y + 1) 0)).set hd.B
        (kScene.getD (54 + hd.kSceneWidth * x * 3 + y) 0)) := by
  have hwx : (0 : Int) ≤ (hd.kSceneWidth : Int) * (x : Int) := by positivity
  have hbz : 54 + (hd.kSceneWidth : Int) * (x : Int) * 3 + (y : Int) + 2 < 2147483648 := by
    have : ((54 + hd.kSceneWidth * x * 3 + y + 2 : Nat) : Int) < 2147483648 := by
      exact_mod_cast lt_trans hb hl
    push_cast at this
    linarith
  have e1 := i32_some ((hd.kSceneWidth : Int) * (x : Int)) (by omega) (by omega)
  have e2 := i32_some ((hd.kSceneWidth : Int) * (x : Int) * 3) (by omega) (by omega)
  have e3 := i32_some (54 + (hd.kSceneWidth : Int) * (x : Int) * 3) (by omega) (by omega)
  have e4 := i32_some (54 + (hd.kSceneWidth : Int) * (x : Int) * 3 + (y : Int)) (by omega)
    (by omega)
  have e : (54 + (hd.kSceneWidth : Int) * (x : Int) * 3 + (y : Int))
        = ((54 + hd.kSceneWidth * x * 3 + y : Nat) : Int) := by push_cast; ring
  have hu : u32 (54 + (hd.kSceneWidth : Int) * (x : Int) * 3 + (y : Int))
      = 54 + hd.kSceneWidth * x * 3 + y := by
    rw [e]; exact u32_of_nat _ (by omega)
  have h2 : (54 + hd.kSceneWidth * x * 3 + y + 2) % 4294967296
      = 54 + hd.kSceneWidth * x * 3 + y + 2 := Nat.mod_eq_of_lt (by omega)
  have h1 : (54 + hd.kSceneWidth * x * 3 + y + 1) % 4294967296
      = 54 + hd.kSceneWidth * x * 3 + y + 1 := Nat.mod_eq_of_lt (by omega)
  have hb1 : 54 + hd.kSceneWidth * x * 3 + y + 1 < kScene.length := by omega
  have hb0 : 54 + hd.kSceneWidth * x * 3 + y < kScene.length := by omega
  unfold readPixel
  rw [e1, Option.bind_eq_bind, Option.some_bind, e2, Option.some_bind, e3, Option.some_bind, e4,
    Option.some_bind, hu]
  show (kScene.get? ((54 + hd.kSceneWidth * x * 3 + y + 2) % 4294967296)).bind (fun r =>
    (kScene.get? ((54 + hd.kSceneWidth * x * 3 + y + 1) % 4294967296)).bind (fun gr =>
    (kScene.get? (54 + hd.kSceneWidth * x * 3 + y)).bind (fun b =>
     some (((pixel.set hd.R r).set hd.Gr gr).set hd.B b)))) = _
  rw [h2, h1, List.get?_eq_getElem?, List.get?_eq_getElem?, List.get?_eq_getElem?,
    List.getElem?_eq_getElem hb, List.getElem?_eq_getElem hb1, List.getElem?_eq_getElem hb0,
    Option.some_bind, Option.some_bind, Option.some_bind,
    List.getD_eq_getElem _ _ hb, List.getD_eq_getElem _ _ hb1, List.getD_eq_getElem _ _ hb0]

/-- C7 (amended).  `GetPixelElectrons` does not read the active rotation buffer: replacing
`current_scene_` by any buffer leaves the returned tuple as it is.  For a cursor `(x, y)` with
non-negative coordinates whose offset `start_pos = 54 + kSceneWidth * x * 3 + y` has
`start_pos + 2` inside `kScene`, it returns, and the tuple is the previous `pixel` with
`kScene[start_pos + 2]`, `kScene[start_pos + 1]` and `kScene[start_pos]` stored at `R`, `Gr`
and `B`. -/
theorem getPixelElectrons_reads_kScene (hd : Header) (s : Scene) (c : SceneBuf) (x y : Nat)
    (hx : s.current_x_ = x) (hy : s.current_y_ = y)
    (hb : 54 + hd.kSceneWidth * x * 3 + y + 2 < s.kScene.length)
    (hl : s.kScene.length < 2147483648) :
    (GetPixelElectrons hd { s with current_scene_ := c }).map Scene.pixel
      = (GetPixelElectrons hd s).map Scene.pixel ∧
    ∃ s', GetPixelElectrons hd s = some s' ∧
      s'.pixel =
        ((s.pixel.set hd.R (s.kScene.getD (54 + hd.kSceneWidth * x * 3 + y + 2) 0)).set hd.Gr
          (s.kScene.getD (54 + hd.kSceneWidth * x * 3 + y + 1) 0)).set hd.B
          (s.kScene.getD (54 + hd.kSceneWidth * x * 3 + y) 0) := by
  constructor
  · unfold GetPixelElectrons
    simp only [Option.map_map]
    rfl
  · unfold GetPixelElectrons
    rw [hx, hy, readPixel_eq hd s.kScene s.pixel x y hb hl]
    exact ⟨_, rfl, rfl⟩

theorem getPixelElectrons_reads_kScene_witness :
    (GetPixelElectrons sampleHeader { sampleScene with current_scene_ := SceneBuf.rot180 }).map
        Scene.pixel
      = (GetPixelElectrons sampleHeader sampleScene).map Scene.pixel ∧
    ∃ s', GetPixelElectrons sampleHeader sampleScene = some s' ∧
      s'.pixel =
        ((sampleScene.pixel.set sampleHeader.R
            (sampleScene.kScene.getD (54 + sampleHeader.kSceneWidth * 0 * 3 + 0 + 2) 0)).set
          sampleHeader.Gr
            (sampleScene.kScene.getD (54 + sampleHeader.kSceneWidth * 0 * 3 + 0 + 1) 0)).set
          sampleHeader.B (sampleScene.kScene.getD (54 + sampleHeader.kSceneWidth * 0 * 3 + 0) 0) :=
  getPixelElectrons_reads_kScene sampleHeader sampleScene SceneBuf.rot180 0 0 (by rfl) (by rfl)
    (by decide) (by decide)

/-- C7 (counterexample).  The sample scene and the same scene with the 90 degree buffer
active differ only in `current_scene_`, and their active buffers differ at offset 54, the
`start_pos` of the cursor (0, 0); `GetPixelElectrons` returns the same tuple for both, the
bytes of `kScene` at 56, 55 and 54. -/
theorem getPixelElectrons_ignores_active_buffer :
    sampleScene.current_x_ = 0 ∧ sampleScene.current_y_ = 0 ∧
    (activeBuffer sampleScene)[54]? = some 1 ∧
    (activeBuffer { sampleScene with current_scene_ := SceneBuf.rot90 })[54]? = some 9 ∧
    (GetPixelElectrons sampleHeader sampleScene).map Scene.pixel = some [3, 2, 0, 1] ∧
    (GetPixelElectrons sampleHeader { sampleScene with current_scene_ := SceneBuf.rot90 }).map
      Scene.pixel = some [3, 2, 0, 1] :=
  ⟨by rfl, by rfl, by decide, by decide, by decide, by decide⟩

/-! ## C8: a second call with the same arguments -/

theorem overwrites_set (i : Nat) (a : ℚ) : Overwrites (fun T => T.set i a) := by
  intro k
  by_cases h : i = k
  · refine ⟨fun _ => a, Or.inr ⟨a, rfl⟩, ?_⟩
    intro T
    subst h
    rw [List.getElem?_set]
    by_cases hl : i < T.length
    · simp [hl, List.getElem?_eq_getElem hl]
    · simp [hl, List.getElem?_eq_none (Nat.le_of_not_lt hl)]
  · refine ⟨id, Or.inl rfl, ?_⟩
    intro T
    rw [List.getElem?_set, if_neg h]
    simp

theorem overwrites_comp {F G : List ℚ → List ℚ} (hF : Overwrites F) (hG : Overwrites G) :
    Overwrites (fun T => G (F T)) := by
  intro k
  obtain ⟨f, hf, hFk⟩ := hF k
  obtain ⟨g, hg, hGk⟩ := hG k
  refine ⟨g ∘ f, ?_, ?_⟩
  · rcases hg with rfl | ⟨b, rfl⟩
    · rcases hf with rfl | ⟨a, rfl⟩
      · exact Or.inl rfl
      · exact Or.inr ⟨a, rfl⟩
    · exact Or.inr ⟨b, rfl⟩
  · intro T
    rw [hGk, hFk, Option.map_map]

theorem overwrites_foldl (step : List ℚ → Nat → List ℚ)
    (hstep : ∀ i, Overwrites (fun T => step T i)) (l : List Nat) :
    Overwrites (fun T => l.foldl step T) := by
  induction l with
  | nil =>
    intro k
    exact ⟨id, Or.inl rfl, fun T => by simp⟩
  | cons i l ih =>
    have := overwrites_comp (hstep i) ih
    simpa [List.foldl_cons] using this

theorem overwrites_idem {F : List ℚ → List ℚ} (hF : Overwrites F) (T : List ℚ) :
    F (F T) = F T := by
  apply List.ext_getElem?
  intro k
  obtain ⟨f, hf, hFk⟩ := hF k
  rw [hFk (F T), hFk T, Option.map_map]
  rcases hf with rfl | ⟨a, rfl⟩
  · rfl
  · rfl

theorem overwrites_storeMaterial (fm : Rounding) (hd : Header) (s : Scene) (il : Illumination)
    (i : Nat) : Overwrites (fun T => storeMaterial fm hd s il T i) := by
  unfold storeMaterial
  exact overwrites_comp (overwrites_comp (overwrites_comp (overwrites_set _ _) (overwrites_set _ _))
    (overwrites_set _ _)) (overwrites_set _ _)

theorem colorLoop_idem (fm : Rounding) (hd : Header) (s : Scene) (il : Illumination)
    (T : List ℚ) : colorLoop fm hd s il (colorLoop fm hd s il T) = colorLoop fm hd s il T :=
  overwrites_idem (overwrites_foldl _ (overwrites_storeMaterial fm hd s il) _) T

/-- The stores of one iteration read the scene only through sensitivity, exposure and the four
filters. -/
theorem colorLoop_congr (fm : Rounding) (hd : Header) (s s1 : Scene) (il : Illumination)
    (h1 : s1.sensor_sensitivity_ = s.sensor_sensitivity_)
    (h2 : s1.exposure_duration_ = s.exposure_duration_)
    (h3 : s1.filter_r_ = s.filter_r_) (h4 : s1.filter_gr_ = s.filter_gr_)
    (h5 : s1.filter_gb_ = s.filter_gb_) (h6 : s1.filter_b_ = s.filter_b_) :
    colorLoop fm hd s1 il = colorLoop fm hd s il := by
  have : storeMaterial fm hd s1 il = storeMaterial fm hd s il := by
    funext T i
    unfold storeMaterial lux_to_electrons
    rw [h1, h2, h3, h4, h5, h6]
  funext T
  unfold colorLoop
  rw [this]

/-- C8.  Without a live source, for every configuration, time and handshake divider:
`CalculateScene` returns when the hour is in 0..23 and neither `time_since_idx` nor the negation
of the orientation overflows; and whenever a first call returns, a second call with the same
arguments returns too and leaves the colour table and the active rotation selection exactly as
the first one left them, the first call having changed none of the configuration fields it
reads. -/
theorem calculateScene_idempotent (fm : FloatModel) (hd : Header) (s : Scene) (time d : Int) :
    (InRange s.hour_ time →
      (-2147483648 ≤ signedOrientation s ∧ signedOrientation s < 2147483648) →
      ∃ s1, CalculateScene fm hd none s time d = some s1) ∧
    ∀ s1, CalculateScene fm hd none s time d = some s1 →
      ∃ s2, CalculateScene fm hd none s1 time d = some s2 ∧
        s2.current_colors_ = s1.current_colors_ ∧ s2.current_scene_ = s1.current_scene_ ∧
        s1.sensor_width_ = s.sensor_width_ ∧ s1.sensor_height_ = s.sensor_height_ ∧
        s1.sensor_sensitivity_ = s.sensor_sensitivity_ ∧
        s1.exposure_duration_ = s.exposure_duration_ ∧ s1.hour_ = s.hour_ ∧
        s1.screen_rotation_ = s.screen_rotation_ ∧
        s1.sensor_orientation_ = s.sensor_orientation_ ∧
        s1.is_front_facing_ = s.is_front_facing_ ∧ s1.map_div_ = s.map_div_ ∧
        s1.filter_r_ = s.filter_r_ ∧ s1.filter_gr_ = s.filter_gr_ ∧
        s1.filter_gb_ = s.filter_gb_ ∧ s1.filter_b_ = s.filter_b_ := by
  constructor
  · intro hr ho
    obtain ⟨il, -, h1⟩ := CalculateScene_none_eq fm hd s time d hr ho
    exact ⟨_, h1⟩
  · intro s1 h1
    obtain ⟨il, hil, ho, hs1⟩ := CalculateScene_none_inv fm hd s s1 time d h1
    have hh : s1.hour_ = s.hour_ := by rw [hs1]; simp only [sceneAfter, SetReadoutPixel]
    have hso : signedOrientation s1 = signedOrientation s := by
      rw [hs1]; simp only [sceneAfter, SetReadoutPixel, signedOrientation]
    have hsr : s1.screen_rotation_ = s.screen_rotation_ := by
      rw [hs1]; simp only [sceneAfter, SetReadoutPixel]
    have hcc : s1.current_colors_ = calculateColors fm.toRounding hd s il := by
      rw [hs1]; simp only [sceneAfter, SetReadoutPixel]
    have hcs : s1.current_scene_
        = selectScene (scene_rotation s.screen_rotation_ (signedOrientation s)) := by
      rw [hs1]; simp only [sceneAfter, SetReadoutPixel]
    have h2 := CalculateScene_none_of fm hd s1 time d il (by rw [hh]; exact hil)
      (by rw [hso]; exact ho)
    refine ⟨_, h2, ?_, ?_, ?_⟩
    · simp only [sceneAfter, SetReadoutPixel]
      unfold calculateColors
      rw [hcc]
      unfold calculateColors
      rw [colorLoop_congr fm.toRounding hd s s1 il
        (by rw [hs1]; simp only [sceneAfter, SetReadoutPixel])
        (by rw [hs1]; simp only [sceneAfter, SetReadoutPixel])
        (by rw [hs1]; simp only [sceneAfter, SetReadoutPixel])
        (by rw [hs1]; simp only [sceneAfter, SetReadoutPixel])
        (by rw [hs1]; simp only [sceneAfter, SetReadoutPixel])
        (by rw [hs1]; simp only [sceneAfter, SetReadoutPixel])]
      exact colorLoop_idem fm.toRounding hd s il s.current_colors_
    · simp only [sceneAfter, SetReadoutPixel]
      rw [hcs, hsr, hso]
    · subst hs1
      simp only [sceneAfter, SetReadoutPixel, and_self]

theorem calculateScene_idempotent_witness :
    ∃ s1 s2, CalculateScene (exactArith id) sampleHeader none sampleScene 1000000 3 = some s1 ∧
      CalculateScene (exactArith id) sampleHeader none s1 1000000 3 = some s2 ∧
      s2.current_colors_ = s1.current_colors_ ∧ s2.current_scene_ = s1.current_scene_ := by
  obtain ⟨h1, h2⟩ := calculateScene_idempotent (exactArith id) sampleHeader sampleScene 1000000 3
  obtain ⟨s1, hs1⟩ := h1 (by rw [sampleScene_hour]; unfold InRange kOneHourInNsec; omega)
    (by rw [sampleScene_signedOrientation]; omega)
  obtain ⟨s2, hs2, hc, hr, -⟩ := h2 s1 hs1
  exact ⟨s1, s2, hs1, hs2, hc, hr⟩

/-! ## C4: the rotation buffers after construction -/

theorem rot180Samples_eq_map (W H : Nat) (src : List Nat) :
    rot180Samples W H src = (idx180 W H).map fun n => src.getD n 0 := by
  unfold rot180Samples idx180
  rw [List.map_flatMap]
  simp only [List.map_map, Function.comp_def]

theorem transposeDownUp_eq_map (W H : Nat) (src : List Nat) :
    transposeDownUp W H src = (idxDownUp W H).map fun n => src.getD n 0 := by
  unfold transposeDownUp idxDownUp
  rw [List.map_flatMap]
  simp only [List.map_map, Function.comp_def]

theorem transposeUpDown_eq_map (W H : Nat) (src : List Nat) :
    transposeUpDown W H src = (idxUpDown W H).map fun n => src.getD n 0 := by
  unfold transposeUpDown idxUpDown
  rw [List.map_flatMap]
  simp only [List.map_map, Function.comp_def]

theorem mem_countDown (n i : Nat) : i ∈ countDown n ↔ i < n := by
  simp [countDown]

theorem mem_countUp (n i : Nat) : i ∈ countUp n ↔ i < n := by
  simp [countUp]

theorem cell_lt (W H i j : Nat) (hi : i < W) (hj : j < H) : j * W + i < W * H := by
  have : (j + 1) * W ≤ H * W := Nat.mul_le_mul_right W hj
  rw [Nat.mul_comm W H]
  rw [Nat.add_mul] at this
  omega

/-- A list of numbers below `n` that some map sends to `0, 1, ..., n - 1` in order is a
permutation of `0, 1, ..., n - 1`. -/
theorem perm_range_of_inverse (n : Nat) (l : List Nat) (g : Nat → Nat)
    (hl : ∀ x ∈ l, x < n) (hg : l.map g = List.range n) : l.Perm (List.range n) := by
  have hnd : l.Nodup := List.Nodup.of_map g (by rw [hg]; exact List.nodup_range n)
  have hlen : l.length = n := by
    have := congrArg List.length hg
    simpa using this
  have hsub : l ⊆ List.range n := fun x hx => List.mem_range.2 (hl x hx)
  exact (List.subperm_of_subset hnd hsub).perm_of_length_le (by simp [hlen])

theorem ext_range (n : Nat) (l : List Nat) (hlen : l.length = n)
    (h : ∀ c, c < n → l.getD c 0 = c) : l = List.range n := by
  apply ext_getD
  · simp [hlen]
  · intro c hc
    rw [hlen] at hc
    rw [h c hc, List.getD_eq_getElem _ _ (by simpa using hc)]
    simp

theorem getD_map_lt (l : List Nat) (g : Nat → Nat) (c : Nat) (hc : c < l.length) :
    (l.map g).getD c 0 = g (l.getD c 0) := by
  rw [List.getD_eq_getElem _ _ (by simpa using hc), List.getD_eq_getElem _ _ hc]
  simp

theorem idx180_length (W H : Nat) : (idx180 W H).length = W * H := by
  unfold idx180
  rw [nest_length, countDown_length, countDown_length, Nat.mul_comm]

theorem idxDownUp_length (W H : Nat) : (idxDownUp W H).length = W * H := by
  unfold idxDownUp
  rw [nest_length, countDown_length, countUp_length]

theorem idxUpDown_length (W H : Nat) : (idxUpDown W H).length = W * H := by
  unfold idxUpDown
  rw [nest_length, countUp_length, countDown_length]

theorem idx180_getD (W H k j : Nat) (hk : k < H) (hj : j < W) :
    (idx180 W H).getD (k * W + j) 0 = (H - 1 - k) * W + (W - 1 - j) := by
  have h := nest_getD (countDown H) (countDown W) (fun i j => i * W + j) k j
    (by simpa [countDown_length] using hk) (by simpa [countDown_length] using hj)
  rw [countDown_length, countDown_getD H k hk, countDown_getD W j hj] at h
  exact h

theorem idxDownUp_getD (W H k j : Nat) (hk : k < W) (hj : j < H) :
    (idxDownUp W H).getD (k * H + j) 0 = j * W + (W - 1 - k) := by
  have h := nest_getD (countDown W) (countUp H) (fun i j => j * W + i) k j
    (by simpa [countDown_length] using hk) (by simpa [countUp_length] using hj)
  rw [countUp_length, countDown_getD W k hk, countUp_getD H j hj] at h
  exact h

theorem idxUpDown_getD (W H k j : Nat) (hk : k < W) (hj : j < H) :
    (idxUpDown W H).getD (k * H + j) 0 = (H - 1 - j) * W + k := by
  have h := nest_getD (countUp W) (countDown H) (fun i j => j * W + i) k j
    (by simpa [countUp_length] using hk) (by simpa [countDown_length] using hj)
  rw [countDown_length, countUp_getD W k hk, countDown_getD H j hj] at h
  exact h

theorem idx180_perm (W H : Nat) : (idx180 W H).Perm (List.range (W * H)) := by
  apply perm_range_of_inverse (W * H) _ (fun n => W * H - 1 - n)
  · intro x hx
    unfold idx180 at hx
    simp only [List.mem_flatMap, List.mem_map, mem_countDown] at hx
    obtain ⟨i, hi, j, hj, rfl⟩ := hx
    exact cell_lt W H j i hj hi
  · apply ext_range
    · rw [List.length_map, idx180_length]
    · intro c hc
      obtain ⟨k, j, hk, hj, rfl⟩ := split_index H W c (by rwa [Nat.mul_comm])
      rw [getD_map_lt _ _ _ (by rw [idx180_length]; exact hc), idx180_getD W H k j hk hj,
        mirror_index W H k j hk hj]
      show W * H - 1 - (W * H - 1 - (k * W + j)) = k * W + j
      omega

theorem idxDownUp_perm (W H : Nat) : (idxDownUp W H).Perm (List.range (W * H)) := by
  apply perm_range_of_inverse (W * H) _ (fun n => (W - 1 - n % W) * H + n / W)
  · intro x hx
    unfold idxDownUp at hx
    simp only [List.mem_flatMap, List.mem_map, mem_countDown, mem_countUp] at hx
    obtain ⟨i, hi, j, hj, rfl⟩ := hx
    exact cell_lt W H i j hi hj
  · apply ext_range
    · rw [List.length_map, idxDownUp_length]
    · intro c hc
      obtain ⟨k, j, hk, hj, rfl⟩ := split_index W H c hc
      rw [getD_map_lt _ _ _ (by rw [idxDownUp_length]; exact hc), idxDownUp_getD W H k j hk hj]
      show (W - 1 - (j * W + (W - 1 - k)) % W) * H + (j * W + (W - 1 - k)) / W = k * H + j
      have hlt : W - 1 - k < W := by omega
      have hm : (j * W + (W - 1 - k)) % W = W - 1 - k := by
        rw [Nat.add_comm, Nat.add_mul_mod_self_right, Nat.mod_eq_of_lt hlt]
      have hdv : (j * W + (W - 1 - k)) / W = j := by
        rw [Nat.add_comm, Nat.add_mul_div_right _ _ (by omega), Nat.div_eq_of_lt hlt, Nat.zero_add]
      rw [hm, hdv]
      have : W - 1 - (W - 1 - k) = k := by omega
      rw [this]

theorem idxUpDown_perm (W H : Nat) : (idxUpDown W H).Perm (List.range (W * H)) := by
  apply perm_range_of_inverse (W * H) _ (fun n => (n % W) * H + (H - 1 - n / W))
  · intro x hx
    unfold idxUpDown at hx
    simp only [List.mem_flatMap, List.mem_map, mem_countDown, mem_countUp] at hx
    obtain ⟨i, hi, j, hj, rfl⟩ := hx
    exact cell_lt W H i j hi hj
  · apply ext_range
    · rw [List.length_map, idxUpDown_length]
    · intro c hc
      obtain ⟨k, j, hk, hj, rfl⟩ := split_index W H c hc
      rw [getD_map_lt _ _ _ (by rw [idxUpDown_length]; exact hc), idxUpDown_getD W H k j hk hj]
      show (((H - 1 - j) * W + k) % W) * H + (H - 1 - ((H - 1 - j) * W + k) / W) = k * H + j
      have hm : ((H - 1 - j) * W + k) % W = k := by
        rw [Nat.add_comm, Nat.add_mul_mod_self_right, Nat.mod_eq_of_lt hk]
      have hdv : ((H - 1 - j) * W + k) / W = H - 1 - j := by
        rw [Nat.add_comm, Nat.add_mul_div_right _ _ (by omega), Nat.div_eq_of_lt hk, Nat.zero_add]
      rw [hm, hdv]
      have : H - 1 - (H - 1 - j) = j := by omega
      rw [this]

theorem map_range_getD (src : List Nat) (n : Nat) (hn : n ≤ src.length) :
    (List.range n).map (fun c => src.getD c 0) = src.take n := by
  apply List.ext_getElem
  · simp [hn]
  · intro c h1 h2
    have hc : c < n := by simpa using h1
    simp only [List.getElem_map, List.getElem_range, List.getElem_take]
    exact List.getD_eq_getElem _ _ (by omega)

theorem rot180Samples_perm (W H : Nat) (src : List Nat) (h : W * H ≤ src.length) :
    (rot180Samples W H src).Perm (src.take (W * H)) := by
  rw [rot180Samples_eq_map, ← map_range_getD src (W * H) h]
  exact (idx180_perm W H).map _

theorem transposeDownUp_perm (W H : Nat) (src : List Nat) (h : W * H ≤ src.length) :
    (transposeDownUp W H src).Perm (src.take (W * H)) := by
  rw [transposeDownUp_eq_map, ← map_range_getD src (W * H) h]
  exact (idxDownUp_perm W H).map _

theorem transposeUpDown_perm (W H : Nat) (src : List Nat) (h : W * H ≤ src.length) :
    (transposeUpDown W H src).Perm (src.take (W * H)) := by
  rw [transposeUpDown_eq_map, ← map_range_getD src (W * H) h]
  exact (idxUpDown_perm W H).map _

theorem Initialize_buffers (hd : Header) (s s' : Scene) (w h : Int) (sens : ℚ)
    (hi : Initialize hd s w h sens = some s') :
    s'.kScene = s.kScene ∧ s'.scene_rot0_ = s.scene_rot0_ ∧ s'.scene_rot90_ = s.scene_rot90_ ∧
      s'.scene_rot180_ = s.scene_rot180_ ∧ s'.scene_rot270_ = s.scene_rot270_ := by
  unfold Initialize at hi
  simp only [Option.bind_eq_bind, Option.bind_eq_some, Option.some.injEq] at hi
  obtain ⟨_, _, _, _, _, _, _, _, _, _, rfl⟩ := hi
  exact ⟨rfl, rfl, rfl, rfl, rfl⟩

theorem storeFromStart_length (buf vs : List Nat) (h : vs.length ≤ buf.length) :
    (storeFromStart buf vs).length = buf.length := by
  unfold storeFromStart
  rw [List.length_append, List.length_drop]
  omega

theorem storeFromStart_take (buf vs : List Nat) :
    (storeFromStart buf vs).take vs.length = vs := by
  unfold storeFromStart
  rw [List.take_left']
  rfl

theorem storeFromStart_drop (buf vs : List Nat) :
    (storeFromStart buf vs).drop vs.length = buf.drop vs.length := by
  unfold storeFromStart
  rw [List.drop_left']
  rfl

theorem construct90_length (W H : Nat) (cw : Bool) (src : List Nat) :
    (construct90 W H cw src).length = W * H := by
  unfold construct90
  split
  · exact transposeDownUp_length W H src
  · exact transposeUpDown_length W H src

theorem construct270_length (W H : Nat) (cw : Bool) (src : List Nat) :
    (construct270 W H cw src).length = W * H := by
  unfold construct270
  split
  · exact transposeUpDown_length W H src
  · exact transposeDownUp_length W H src

theorem construct90_perm (W H : Nat) (cw : Bool) (src : List Nat) (h : W * H ≤ src.length) :
    (construct90 W H cw src).Perm (src.take (W * H)) := by
  unfold construct90
  split
  · exact transposeDownUp_perm W H src h
  · exact transposeUpDown_perm W H src h

theorem construct270_perm (W H : Nat) (cw : Bool) (src : List Nat) (h : W * H ≤ src.length) :
    (construct270 W H cw src).Perm (src.take (W * H)) := by
  unfold construct270
  split
  · exact transposeUpDown_perm W H src h
  · exact transposeDownUp_perm W H src h

/-- What `InitiliazeSceneRotation` leaves in the four buffers. -/
theorem InitiliazeSceneRotation_buffers (hd : Header) (cw : Bool) (s : Scene)
    (hk : hd.kSceneWidth * hd.kSceneHeight ≤ s.kScene.length)
    (h90 : hd.kSceneWidth * hd.kSceneHeight ≤ s.scene_rot90_.length)
    (h180 : hd.kSceneWidth * hd.kSceneHeight ≤ s.scene_rot180_.length)
    (h270 : hd.kSceneWidth * hd.kSceneHeight ≤ s.scene_rot270_.length) :
    (InitiliazeSceneRotation hd cw s).scene_rot0_ = s.kScene.take s.scene_rot0_.length ∧
    (InitiliazeSceneRotation hd cw s).scene_rot90_.length = s.scene_rot90_.length ∧
    (InitiliazeSceneRotation hd cw s).scene_rot180_.length = s.scene_rot180_.length ∧
    (InitiliazeSceneRotation hd cw s).scene_rot270_.length = s.scene_rot270_.length ∧
    ((InitiliazeSceneRotation hd cw s).scene_rot90_.take (hd.kSceneWidth * hd.kSceneHeight)).Perm
      (s.kScene.take (hd.kSceneWidth * hd.kSceneHeight)) ∧
    ((InitiliazeSceneRotation hd cw s).scene_rot180_.take (hd.kSceneWidth * hd.kSceneHeight)).Perm
      (s.kScene.take (hd.kSceneWidth * hd.kSceneHeight)) ∧
    ((InitiliazeSceneRotation hd cw s).scene_rot270_.take (hd.kSceneWidth * hd.kSceneHeight)).Perm
      (s.kScene.take (hd.kSceneWidth * hd.kSceneHeight)) ∧
    (InitiliazeSceneRotation hd cw s).scene_rot90_.drop (hd.kSceneWidth * hd.kSceneHeight)
      = s.scene_rot90_.drop (hd.kSceneWidth * hd.kSceneHeight) ∧
    (InitiliazeSceneRotation hd cw s).scene_rot180_.drop (hd.kSceneWidth * hd.kSceneHeight)
      = s.scene_rot180_.drop (hd.kSceneWidth * hd.kSceneHeight) ∧
    (InitiliazeSceneRotation hd cw s).scene_rot270_.drop (hd.kSceneWidth * hd.kSceneHeight)
      = s.scene_rot270_.drop (hd.kSceneWidth * hd.kSceneHeight) := by
  have l90 := construct90_length hd.kSceneWidth hd.kSceneHeight cw s.kScene
  have l270 := construct270_length hd.kSceneWidth hd.kSceneHeight cw s.kScene
  have l180 : (rot180Samples hd.kSceneWidth hd.kSceneHeight s.kScene).length
      = hd.kSceneWidth * hd.kSceneHeight := by
    rw [rot180Samples_length, Nat.mul_comm]
  have t90 := storeFromStart_take s.scene_rot90_
    (construct90 hd.kSceneWidth hd.kSceneHeight cw s.kScene)
  have t180 := storeFromStart_take s.scene_rot180_
    (rot180Samples hd.kSceneWidth hd.kSceneHeight s.kScene)
  have t270 := storeFromStart_take s.scene_rot270_
    (construct270 hd.kSceneWidth hd.kSceneHeight cw s.kScene)
  have d90 := storeFromStart_drop s.scene_rot90_
    (construct90 hd.kSceneWidth hd.kSceneHeight cw s.kScene)
  have d180 := storeFromStart_drop s.scene_rot180_
    (rot180Samples hd.kSceneWidth hd.kSceneHeight s.kScene)
  have d270 := storeFromStart_drop s.scene_rot270_
    (construct270 hd.kSceneWidth hd.kSceneHeight cw s.kScene)
  rw [l90] at t90 d90
  rw [l180] at t180 d180
  rw [l270] at t270 d270
  refine ⟨?_, ?_, ?_, ?_, ?_, ?_, ?_, d90, d180, d270⟩
  · show memcpy s.scene_rot0_ s.kScene s.scene_rot0_.length = _
    unfold memcpy
    rw [List.drop_length, List.append_nil]
  · exact storeFromStart_length _ _ (by rw [l90]; exact h90)
  · exact storeFromStart_length _ _ (by rw [l180]; exact h180)
  · exact storeFromStart_length _ _ (by rw [l270]; exact h270)
  · show ((storeFromStart s.scene_rot90_ _).take _).Perm _
    rw [t90]
    exact construct90_perm _ _ cw _ hk
  · show ((storeFromStart s.scene_rot180_ _).take _).Perm _
    rw [t180]
    exact rot180Samples_perm _ _ _ hk
  · show ((storeFromStart s.scene_rot270_ _).take _).Perm _
    rw [t270]
    exact construct270_perm _ _ cw _ hk

/-- What the constructor leaves in the four buffers.  Each buffer has the length it had before
(its declared length), the 0 degree buffer is a copy of the start of `kScene`, and the first
`kSceneWidth * kSceneHeight` entries of the 90, 180 and 270 degree buffers are a permutation of
the first `kSceneWidth * kSceneHeight` bytes of `kScene`, which lie in the BMP header and not in
the payload: every value occurs among them exactly as many times as among those bytes.  The
entries from index `kSceneWidth * kSceneHeight` on are as they were before. -/
theorem construction_rotation_buffers (fm : Rounding) (hd : Header) (mem s : Scene)
    (w h : Int) (sens : ℚ) (o : Int) (ff : Bool)
    (hctor : EmulatedScene fm hd mem w h sens o ff = some s)
    (hk : hd.kSceneWidth * hd.kSceneHeight ≤ mem.kScene.length)
    (h0 : mem.scene_rot0_.length ≤ mem.kScene.length)
    (h90 : hd.kSceneWidth * hd.kSceneHeight ≤ mem.scene_rot90_.length)
    (h180 : hd.kSceneWidth * hd.kSceneHeight ≤ mem.scene_rot180_.length)
    (h270 : hd.kSceneWidth * hd.kSceneHeight ≤ mem.scene_rot270_.length) :
    s.kScene = mem.kScene ∧
    s.scene_rot0_ = mem.kScene.take mem.scene_rot0_.length ∧
    s.scene_rot0_.length = mem.scene_rot0_.length ∧
    s.scene_rot90_.length = mem.scene_rot90_.length ∧
    s.scene_rot180_.length = mem.scene_rot180_.length ∧
    s.scene_rot270_.length = mem.scene_rot270_.length ∧
    (s.scene_rot90_.take (hd.kSceneWidth * hd.kSceneHeight)).Perm
      (mem.kScene.take (hd.kSceneWidth * hd.kSceneHeight)) ∧
    (s.scene_rot180_.take (hd.kSceneWidth * hd.kSceneHeight)).Perm
      (mem.kScene.take (hd.kSceneWidth * hd.kSceneHeight)) ∧
    (s.scene_rot270_.take (hd.kSceneWidth * hd.kSceneHeight)).Perm
      (mem.kScene.take (hd.kSceneWidth * hd.kSceneHeight)) ∧
    (∀ v, (s.scene_rot90_.take (hd.kSceneWidth * hd.kSceneHeight)).count v
      = (mem.kScene.take (hd.kSceneWidth * hd.kSceneHeight)).count v) ∧
    (∀ v, (s.scene_rot180_.take (hd.kSceneWidth * hd.kSceneHeight)).count v
      = (mem.kScene.take (hd.kSceneWidth * hd.kSceneHeight)).count v) ∧
    (∀ v, (s.scene_rot270_.take (hd.kSceneWidth * hd.kSceneHeight)).count v
      = (mem.kScene.take (hd.kSceneWidth * hd.kSceneHeight)).count v) ∧
    s.scene_rot90_.drop (hd.kSceneWidth * hd.kSceneHeight)
      = mem.scene_rot90_.drop (hd.kSceneWidth * hd.kSceneHeight) ∧
    s.scene_rot180_.drop (hd.kSceneWidth * hd.kSceneHeight)
      = mem.scene_rot180_.drop (hd.kSceneWidth * hd.kSceneHeight) ∧
    s.scene_rot270_.drop (hd.kSceneWidth * hd.kSceneHeight)
      = mem.scene_rot270_.drop (hd.kSceneWidth * hd.kSceneHeight) := by
  unfold EmulatedScene at hctor
  obtain ⟨e, e0, e90, e180, e270⟩ := Initialize_buffers hd _ s w h sens hctor
  obtain ⟨b0, l90, l180, l270, p90, p180, p270, d90, d180, d270⟩ :=
    InitiliazeSceneRotation_buffers hd (!ff)
      { mem with
        screen_rotation_ := 0
        current_scene_ := SceneBuf.rot0
        sensor_orientation_ := o
        is_front_facing_ := ff
        hour_ := 12
        exposure_duration_ := fm.lit (33 / 1000)
        filter_r_ := ⟨fm.lit (32406 / 10000), -fm.lit (15372 / 10000), -fm.lit (4986 / 10000)⟩
        filter_gr_ := ⟨-fm.lit (9689 / 10000), fm.lit (18758 / 10000), fm.lit (415 / 10000)⟩
        filter_gb_ := ⟨-fm.lit (9689 / 10000), fm.lit (18758 / 10000), fm.lit (415 / 10000)⟩
        filter_b_ := ⟨fm.lit (557 / 10000), -fm.lit (2040 / 10000), fm.lit (10570 / 10000)⟩ }
      hk h90 h180 h270
  rw [← e0] at b0
  rw [← e90] at l90 p90 d90
  rw [← e180] at l180 p180 d180
  rw [← e270] at l270 p270 d270
  refine ⟨e, b0, ?_, l90, l180, l270, p90, p180, p270, fun v => p90.count_eq v,
    fun v => p180.count_eq v, fun v => p270.count_eq v, d90, d180, d270⟩
  rw [b0, List.length_take]
  exact Nat.min_eq_left h0

theorem sampleScene_constructed :
    EmulatedScene exactRounding sampleHeader sampleMemory 640 480 100 90 false
      = some sampleScene := by
  rfl

theorem headedScene_constructed :
    EmulatedScene exactRounding sampleHeader headedMemory 640 480 100 90 false
      = some headedScene := by
  rfl

theorem construction_rotation_buffers_witness :
    headedScene.kScene = headedMemory.kScene ∧
    headedScene.scene_rot0_ = headedMemory.kScene.take headedMemory.scene_rot0_.length ∧
    headedScene.scene_rot0_.length = headedMemory.scene_rot0_.length ∧
    headedScene.scene_rot90_.length = headedMemory.scene_rot90_.length ∧
    headedScene.scene_rot180_.length = headedMemory.scene_rot180_.length ∧
    headedScene.scene_rot270_.length = headedMemory.scene_rot270_.length ∧
    (headedScene.scene_rot90_.take (sampleHeader.kSceneWidth * sampleHeader.kSceneHeight)).Perm
      (headedMemory.kScene.take (sampleHeader.kSceneWidth * sampleHeader.kSceneHeight)) ∧
    (headedScene.scene_rot180_.take (sampleHeader.kSceneWidth * sampleHeader.kSceneHeight)).Perm
      (headedMemory.kScene.take (sampleHeader.kSceneWidth * sampleHeader.kSceneHeight)) ∧
    (headedScene.scene_rot270_.take (sampleHeader.kSceneWidth * sampleHeader.kSceneHeight)).Perm
      (headedMemory.kScene.take (sampleHeader.kSceneWidth * sampleHeader.kSceneHeight)) ∧
    (∀ v, (headedScene.scene_rot90_.take
        (sampleHeader.kSceneWidth * sampleHeader.kSceneHeight)).count v
      = (headedMemory.kScene.take (sampleHeader.kSceneWidth * sampleHeader.kSceneHeight)).count v) ∧
    (∀ v, (headedScene.scene_rot180_.take
        (sampleHeader.kSceneWidth * sampleHeader.kSceneHeight)).count v
      = (headedMemory.kScene.take (sampleHeader.kSceneWidth * sampleHeader.kSceneHeight)).count v) ∧
    (∀ v, (headedScene.scene_rot270_.take
        (sampleHeader.kSceneWidth * sampleHeader.kSceneHeight)).count v
      = (headedMemory.kScene.take (sampleHeader.kSceneWidth * sampleHeader.kSceneHeight)).count v) ∧
    headedScene.scene_rot90_.drop (sampleHeader.kSceneWidth * sampleHeader.kSceneHeight)
      = headedMemory.scene_rot90_.drop (sampleHeader.kSceneWidth * sampleHeader.kSceneHeight) ∧
    headedScene.scene_rot180_.drop (sampleHeader.kSceneWidth * sampleHeader.kSceneHeight)
      = headedMemory.scene_rot180_.drop (sampleHeader.kSceneWidth * sampleHeader.kSceneHeight) ∧
    headedScene.scene_rot270_.drop (sampleHeader.kSceneWidth * sampleHeader.kSceneHeight)
      = headedMemory.scene_rot270_.drop (sampleHeader.kSceneWidth * sampleHeader.kSceneHeight) :=
  construction_rotation_buffers exactRounding sampleHeader headedMemory headedScene 640 480 100
    90 false headedScene_constructed (by decide) (by decide) (by decide) (by decide) (by decide)

/-- C4 (failing input).  The constructor run on a 2 x 2 scene whose bitmap has the header bytes
101, ..., 154 and the payload 1, ..., 12, with zeroed rotation buffers of the bitmap's size.  The
90, 180 and 270 degree buffers receive the first four header bytes in three orders and nothing
else: none of the twelve payload samples occurs in any of them, although each occurs once in the
bitmap.  `GetPixelElectrons` on the same scene reads the payload at the offsets 56, 55, 54. -/
theorem construction_rotates_header_bytes :
    EmulatedScene exactRounding sampleHeader headedMemory 640 480 100 90 false
      = some headedScene ∧
    headedScene.kScene.length = sizeofkScene sampleHeader ∧
    headedScene.kScene.take 4 = [101, 102, 103, 104] ∧
    headedScene.kScene.drop 54 = [1, 2, 3, 4, 5, 6, 7, 8, 9, 10, 11, 12] ∧
    headedScene.scene_rot90_ = [102, 104, 101, 103] ++ List.replicate 62 0 ∧
    headedScene.scene_rot180_ = [104, 103, 102, 101] ++ List.replicate 62 0 ∧
    headedScene.scene_rot270_ = [103, 101, 104, 102] ++ List.replicate 62 0 ∧
    (∀ v ∈ headedScene.kScene.drop 54, (headedScene.kScene.drop 54).count v = 1 ∧
      headedScene.scene_rot90_.count v = 0 ∧ headedScene.scene_rot180_.count v = 0 ∧
      headedScene.scene_rot270_.count v = 0) ∧
    (GetPixelElectrons sampleHeader headedScene).map Scene.pixel = some [3, 2, 0, 1] :=
  ⟨headedScene_constructed, by decide, by decide, by decide, by decide, by decide, by decide,
    by decide, by decide⟩

theorem count_storeFromStart_le (buf vs : List Nat) (v : Nat) :
    (storeFromStart buf vs).count v ≤ vs.length + (buf.drop vs.length).count v := by
  unfold storeFromStart
  rw [List.count_append]
  exact Nat.add_le_add_right (List.count_le_length _ _) _

/-- Whatever the scene size, the declared length `N` of the rotation buffers and the direction:
over a bitmap whose payload is all 7 and rotation buffers that held no 7, each rotated buffer holds
fewer 7s after `InitiliazeSceneRotation` than the payload does. -/
theorem rotation_buffers_miss_payload_any_size (hd : Header) (N : Nat) (cw : Bool) (mem : Scene)
    (hpos : 0 < hd.kSceneWidth * hd.kSceneHeight)
    (hk : mem.kScene
      = List.replicate 54 0 ++ List.replicate (hd.kSceneWidth * hd.kSceneHeight * 3) 7)
    (h90 : mem.scene_rot90_ = List.replicate N 0) (h180 : mem.scene_rot180_ = List.replicate N 0)
    (h270 : mem.scene_rot270_ = List.replicate N 0) :
    (InitiliazeSceneRotation hd cw mem).scene_rot90_.count 7 < (mem.kScene.drop 54).count 7 ∧
    (InitiliazeSceneRotation hd cw mem).scene_rot180_.count 7 < (mem.kScene.drop 54).count 7 ∧
    (InitiliazeSceneRotation hd cw mem).scene_rot270_.count 7 < (mem.kScene.drop 54).count 7 := by
  have hp : (mem.kScene.drop 54).count 7 = hd.kSceneWidth * hd.kSceneHeight * 3 := by
    rw [hk, List.drop_left' (by simp)]
    simp
  have hz : ∀ n, ((List.replicate N 0).drop n).count 7 = 0 := by
    intro n
    rw [List.count_eq_zero]
    intro hm
    have := List.mem_of_mem_drop hm
    simp at this
  rw [hp]
  refine ⟨?_, ?_, ?_⟩
  · have := count_storeFromStart_le mem.scene_rot90_
      (construct90 hd.kSceneWidth hd.kSceneHeight cw mem.kScene) 7
    rw [construct90_length, h90, hz] at this
    show (storeFromStart mem.scene_rot90_ _).count 7 < _
    rw [h90]
    omega
  · have := count_storeFromStart_le mem.scene_rot180_
      (rot180Samples hd.kSceneWidth hd.kSceneHeight mem.kScene) 7
    rw [rot180Samples_length, h180, hz, Nat.mul_comm] at this
    show (storeFromStart mem.scene_rot180_ _).count 7 < _
    rw [h180]
    omega
  · have := count_storeFromStart_le mem.scene_rot270_
      (construct270 hd.kSceneWidth hd.kSceneHeight cw mem.kScene) 7
    rw [construct270_length, h270, hz] at this
    show (storeFromStart mem.scene_rot270_ _).count 7 < _
    rw [h270]
    omega

/-! ## Binary rounding -/

theorem roundNearestEven_spec (q : ℚ) : IsNearestEven q (roundNearestEven q) := by
  unfold roundNearestEven IsNearestEven
  have hf1 : (⌊q⌋ : ℚ) ≤ q := Int.floor_le q
  have hf2 : q < ⌊q⌋ + 1 := Int.lt_floor_add_one q
  split_ifs with ha hb hc
  · have h0 : 0 ≤ q - ⌊q⌋ := by linarith
    rw [abs_of_nonneg h0]
    exact ⟨le_of_lt ha, fun h => absurd h (ne_of_lt ha)⟩
  · have h0 : q - ((⌊q⌋ + 1 : Int) : ℚ) ≤ 0 := by push_cast; linarith
    rw [abs_of_nonpos h0]
    push_cast
    constructor
    · linarith
    · intro h; exfalso; linarith
  · have hq : q - ⌊q⌋ = 1 / 2 := le_antisymm (not_lt.1 hb) (not_lt.1 ha)
    have h0 : 0 ≤ q - ⌊q⌋ := by linarith
    rw [abs_of_nonneg h0]
    exact ⟨le_of_eq hq, fun _ => hc⟩
  · have hq : q - ⌊q⌋ = 1 / 2 := le_antisymm (not_lt.1 hb) (not_lt.1 ha)
    have h0 : q - ((⌊q⌋ + 1 : Int) : ℚ) ≤ 0 := by push_cast; linarith
    rw [abs_of_nonpos h0]
    push_cast
    constructor
    · linarith
    · intro _; omega

theorem isNearestEven_unique {q : ℚ} {m n : Int} (hm : IsNearestEven q m)
    (hn : IsNearestEven q n) : m = n := by
  obtain ⟨hm1, hm2⟩ := hm
  obtain ⟨hn1, hn2⟩ := hn
  have am := abs_le.1 hm1
  have an := abs_le.1 hn1
  rcases lt_trichotomy m n with h | h | h
  · exfalso
    have h1 : m + 1 ≤ n := h
    have h1q : (m : ℚ) + 1 ≤ n := by exact_mod_cast h1
    have e1 : q - m = 1 / 2 := by linarith [am.2, an.1]
    have e2 : q - n = -(1 / 2) := by linarith [am.2, an.1]
    have hmn : (n : ℚ) = m + 1 := by linarith
    have hmn' : n = m + 1 := by exact_mod_cast hmn
    have p1 := hm2 (by rw [e1]; norm_num)
    have p2 := hn2 (by rw [e2]; norm_num)
    omega
  · exact h
  · exfalso
    have h1 : n + 1 ≤ m := h
    have h1q : (n : ℚ) + 1 ≤ m := by exact_mod_cast h1
    have e1 : q - n = 1 / 2 := by linarith [am.1, an.2]
    have e2 : q - m = -(1 / 2) := by linarith [am.1, an.2]
    have hmn : (m : ℚ) = n + 1 := by linarith
    have hmn' : m = n + 1 := by exact_mod_cast hmn
    have p1 := hn2 (by rw [e1]; norm_num)
    have p2 := hm2 (by rw [e2]; norm_num)
    omega

theorem roundNearestEven_eq_of (q : ℚ) (m : Int) (h : IsNearestEven q m) :
    roundNearestEven q = m :=
  isNearestEven_unique (roundNearestEven_spec q) h

theorem roundNearestEven_eq (q : ℚ) (m : Int) (h1 : (m : ℚ) - 1 / 2 < q) (h2 : q < m + 1 / 2) :
    roundNearestEven q = m := by
  apply roundNearestEven_eq_of
  have : |q - m| < 1 / 2 := abs_lt.2 ⟨by linarith, by linarith⟩
  exact ⟨le_of_lt this, fun h => absurd h (ne_of_lt this)⟩

theorem roundNearestEven_intCast (n : Int) : roundNearestEven (n : ℚ) = n :=
  roundNearestEven_eq _ n (by linarith) (by linarith)

theorem roundNearestEven_neg (q : ℚ) : roundNearestEven (-q) = -roundNearestEven q := by
  apply roundNearestEven_eq_of
  obtain ⟨h1, h2⟩ := roundNearestEven_spec q
  have e : -q - ((-roundNearestEven q : Int) : ℚ) = -(q - roundNearestEven q) := by
    push_cast; ring
  unfold IsNearestEven
  rw [e, abs_neg]
  exact ⟨h1, fun h => by have := h2 h; omega⟩

theorem roundNearestEven_mono {a b : ℚ} (hab : a ≤ b) :
    roundNearestEven a ≤ roundNearestEven b := by
  by_contra hlt
  have hlt' : roundNearestEven b + 1 ≤ roundNearestEven a := by omega
  have hq : ((roundNearestEven b : Int) : ℚ) + 1 ≤ roundNearestEven a := by exact_mod_cast hlt'
  obtain ⟨ha1, ha2⟩ := roundNearestEven_spec a
  obtain ⟨hb1, hb2⟩ := roundNearestEven_spec b
  have aa := abs_le.1 ha1
  have bb := abs_le.1 hb1
  have hab' : a = b := by linarith [aa.1, bb.2]
  rw [hab'] at hlt
  exact hlt le_rfl

theorem log2_eq (r : ℚ) (e : Int) (h1 : (2 : ℚ) ^ e ≤ r) (h2 : r < (2 : ℚ) ^ (e + 1)) :
    Int.log 2 r = e := by
  have hr : 0 < r := lt_of_lt_of_le (by positivity) h1
  have a := (Int.zpow_le_iff_le_log (b := 2) (by norm_num) hr).1 h1
  have b := (Int.lt_zpow_iff_log_lt (b := 2) (by norm_num) hr).1 h2
  omega

theorem roundBinary_def (p : Nat) (emin : Int) (q : ℚ) (hq : q ≠ 0) :
    roundBinary p emin q = (roundNearestEven (q / 2 ^ (binaryExponent emin q - ((p : Int) - 1))) : ℚ)
      * 2 ^ (binaryExponent emin q - ((p : Int) - 1)) := by
  unfold roundBinary binaryExponent
  rw [if_neg hq]

theorem roundBinary_zero (p : Nat) (emin : Int) : roundBinary p emin 0 = 0 := by
  unfold roundBinary
  rw [if_pos rfl]

theorem roundBinary_eq (p : Nat) (emin : Int) (q : ℚ) (e m : Int) (he : emin ≤ e)
    (h1 : (2 : ℚ) ^ e ≤ |q|) (h2 : |q| < (2 : ℚ) ^ (e + 1))
    (h3 : (m : ℚ) - 1 / 2 < q / 2 ^ (e - ((p : Int) - 1)))
    (h4 : q / 2 ^ (e - ((p : Int) - 1)) < m + 1 / 2) :
    roundBinary p emin q = m * 2 ^ (e - ((p : Int) - 1)) := by
  have hq : q ≠ 0 := by
    intro h
    rw [h, abs_zero] at h1
    exact absurd h1 (not_le.2 (by positivity))
  rw [roundBinary_def p emin q hq]
  unfold binaryExponent
  rw [log2_eq |q| e h1 h2, max_eq_left he, roundNearestEven_eq _ m h3 h4]

theorem roundBinary_neg (p : Nat) (emin : Int) (q : ℚ) :
    roundBinary p emin (-q) = -roundBinary p emin q := by
  by_cases hq : q = 0
  · rw [hq, neg_zero, roundBinary_zero, neg_zero]
  · rw [roundBinary_def p emin (-q) (neg_ne_zero.2 hq), roundBinary_def p emin q hq]
    unfold binaryExponent
    rw [abs_neg, neg_div, roundNearestEven_neg]
    push_cast
    ring

theorem lt_zpow_binaryExponent (emin : Int) (q : ℚ) :
    |q| < (2 : ℚ) ^ (binaryExponent emin q + 1) := by
  by_cases hq : q = 0
  · rw [hq, abs_zero]; positivity
  · have hpos : 0 < |q| := abs_pos.2 hq
    have h := Int.lt_zpow_succ_log_self (b := 2) (by norm_num) |q|
    have hle : Int.log 2 |q| + 1 ≤ binaryExponent emin q + 1 := by
      unfold binaryExponent; have := le_max_left (Int.log 2 |q|) emin; omega
    calc |q| < (2 : ℚ) ^ (Int.log 2 |q| + 1) := by exact_mod_cast h
      _ ≤ (2 : ℚ) ^ (binaryExponent emin q + 1) := zpow_le_zpow_right₀ (by norm_num) hle

theorem roundBinary_nonneg (p : Nat) (emin : Int) (q : ℚ) (hq : 0 ≤ q) :
    0 ≤ roundBinary p emin q := by
  by_cases h0 : q = 0
  · rw [h0, roundBinary_zero]
  · rw [roundBinary_def p emin q h0]
    have hu : (0 : ℚ) < 2 ^ (binaryExponent emin q - ((p : Int) - 1)) := by positivity
    have h1 : (0 : ℚ) ≤ q / 2 ^ (binaryExponent emin q - ((p : Int) - 1)) := div_nonneg hq hu.le
    have h2 := roundNearestEven_mono h1
    rw [show ((0 : ℚ)) = ((0 : Int) : ℚ) by norm_num, roundNearestEven_intCast] at h2
    have h3 : (0 : ℚ) ≤ (roundNearestEven (q / 2 ^ (binaryExponent emin q - ((p : Int) - 1))) : ℚ) := by
      exact_mod_cast h2
    exact mul_nonneg h3 hu.le

/-- For positive `q` the result does not exceed the next power of two. -/
theorem roundBinary_le_pow (p : Nat) (emin : Int) (q : ℚ) (hq : 0 < q) :
    roundBinary p emin q ≤ (2 : ℚ) ^ (binaryExponent emin q + 1) := by
  rw [roundBinary_def p emin q hq.ne']
  have hu : (0 : ℚ) < 2 ^ (binaryExponent emin q - ((p : Int) - 1)) := by positivity
  have hlt := lt_zpow_binaryExponent emin q
  rw [abs_of_pos hq] at hlt
  have hsplit : (2 : ℚ) ^ (binaryExponent emin q + 1)
      = ((2 ^ p : Int) : ℚ) * 2 ^ (binaryExponent emin q - ((p : Int) - 1)) := by
    push_cast
    rw [← zpow_natCast (2 : ℚ) p, ← zpow_add₀ (by norm_num : (2 : ℚ) ≠ 0)]
    congr 1
    ring
  have h1 : q / 2 ^ (binaryExponent emin q - ((p : Int) - 1)) ≤ ((2 ^ p : Int) : ℚ) := by
    rw [div_le_iff₀ hu, ← hsplit]
    exact hlt.le
  have h2 := roundNearestEven_mono h1
  rw [roundNearestEven_intCast] at h2
  have h3 : (roundNearestEven (q / 2 ^ (binaryExponent emin q - ((p : Int) - 1))) : ℚ)
      ≤ ((2 ^ p : Int) : ℚ) := by exact_mod_cast h2
  rw [hsplit]
  exact mul_le_mul_of_nonneg_right h3 hu.le

/-- For positive `q` whose exponent is not raised to `emin`, the result is at least the power of
two below `q`. -/
theorem pow_le_roundBinary (p : Nat) (emin : Int) (q : ℚ) (hp : 1 ≤ p) (hq : 0 < q)
    (he : emin ≤ Int.log 2 |q|) :
    (2 : ℚ) ^ (binaryExponent emin q) ≤ roundBinary p emin q := by
  rw [roundBinary_def p emin q hq.ne']
  have hE : binaryExponent emin q = Int.log 2 |q| := by
    unfold binaryExponent; exact max_eq_left he
  have hu : (0 : ℚ) < 2 ^ (binaryExponent emin q - ((p : Int) - 1)) := by positivity
  have hge : (2 : ℚ) ^ (binaryExponent emin q) ≤ q := by
    rw [hE]
    have := Int.zpow_log_le_self (b := 2) (by norm_num) (abs_pos.2 hq.ne')
    rw [abs_of_pos hq] at this ⊢
    exact_mod_cast this
  have hsplit : (2 : ℚ) ^ (binaryExponent emin q)
      = ((2 ^ (p - 1) : Int) : ℚ) * 2 ^ (binaryExponent emin q - ((p : Int) - 1)) := by
    push_cast
    rw [← zpow_natCast (2 : ℚ) (p - 1), ← zpow_add₀ (by norm_num : (2 : ℚ) ≠ 0)]
    congr 1
    have : ((p - 1 : Nat) : Int) = (p : Int) - 1 := by omega
    rw [this]
    ring
  have h1 : ((2 ^ (p - 1) : Int) : ℚ) ≤ q / 2 ^ (binaryExponent emin q - ((p : Int) - 1)) := by
    rw [le_div_iff₀ hu, ← hsplit]
    exact hge
  have h2 := roundNearestEven_mono h1
  rw [roundNearestEven_intCast] at h2
  have h3 : ((2 ^ (p - 1) : Int) : ℚ)
      ≤ (roundNearestEven (q / 2 ^ (binaryExponent emin q - ((p : Int) - 1))) : ℚ) := by
    exact_mod_cast h2
  rw [hsplit]
  exact mul_le_mul_of_nonneg_right h3 hu.le

theorem binaryExponent_mono (emin : Int) {x y : ℚ} (hx : 0 < x) (hxy : x ≤ y) :
    binaryExponent emin x ≤ binaryExponent emin y := by
  unfold binaryExponent
  have hy : 0 < y := lt_of_lt_of_le hx hxy
  rw [abs_of_pos hx, abs_of_pos hy]
  exact max_le_max (Int.log_mono_right hx hxy) le_rfl

theorem roundBinary_mono_pos (p : Nat) (emin : Int) (hp : 1 ≤ p) {x y : ℚ} (hx : 0 < x)
    (hxy : x ≤ y) : roundBinary p emin x ≤ roundBinary p emin y := by
  have hy : 0 < y := lt_of_lt_of_le hx hxy
  have hE := binaryExponent_mono emin hx hxy
  rcases eq_or_lt_of_le hE with he | he
  · rw [roundBinary_def p emin x hx.ne', roundBinary_def p emin y hy.ne', he]
    have hu : (0 : ℚ) < 2 ^ (binaryExponent emin y - ((p : Int) - 1)) := by positivity
    have h1 : x / 2 ^ (binaryExponent emin y - ((p : Int) - 1))
        ≤ y / 2 ^ (binaryExponent emin y - ((p : Int) - 1)) := div_le_div_of_nonneg_right hxy hu.le
    have h2 := roundNearestEven_mono h1
    have h3 : (roundNearestEven (x / 2 ^ (binaryExponent emin y - ((p : Int) - 1))) : ℚ)
        ≤ (roundNearestEven (y / 2 ^ (binaryExponent emin y - ((p : Int) - 1))) : ℚ) := by
      exact_mod_cast h2
    exact mul_le_mul_of_nonneg_right h3 hu.le
  · have hlog : emin ≤ Int.log 2 |y| := by
      by_contra hcon
      have : binaryExponent emin y = emin := by
        unfold binaryExponent; exact max_eq_right (by omega)
      have : emin ≤ binaryExponent emin x := by unfold binaryExponent; exact le_max_right _ _
      omega
    calc roundBinary p emin x ≤ (2 : ℚ) ^ (binaryExponent emin x + 1) :=
          roundBinary_le_pow p emin x hx
      _ ≤ (2 : ℚ) ^ (binaryExponent emin y) := zpow_le_zpow_right₀ (by norm_num) (by omega)
      _ ≤ roundBinary p emin y := pow_le_roundBinary p emin y hp hy hlog

theorem roundBinary_mono (p : Nat) (emin : Int) (hp : 1 ≤ p) : Monotone (roundBinary p emin) := by
  intro x y hxy
  rcases lt_trichotomy x 0 with hx | hx | hx
  · rcases lt_or_le y 0 with hy | hy
    · have h := roundBinary_mono_pos p emin hp (neg_pos.2 hy) (neg_le_neg hxy)
      rw [roundBinary_neg, roundBinary_neg] at h
      exact neg_le_neg_iff.1 h
    · have h1 := roundBinary_nonneg p emin (-x) (by linarith)
      rw [roundBinary_neg] at h1
      have h2 := roundBinary_nonneg p emin y hy
      show roundBinary p emin x ≤ roundBinary p emin y
      linarith
  · rw [hx, roundBinary_zero]
    exact roundBinary_nonneg p emin y (by linarith)
  · exact roundBinary_mono_pos p emin hp hx hxy

/-- Powers of two from `2 ^ emin` on are representable. -/
theorem roundBinary_zpow (p : Nat) (emin : Int) (hp : 1 ≤ p) (k : Int) (hk : emin ≤ k) :
    roundBinary p emin ((2 : ℚ) ^ k) = (2 : ℚ) ^ k := by
  have hpos : (0 : ℚ) < 2 ^ k := by positivity
  have hsplit : (2 : ℚ) ^ k = ((2 ^ (p - 1) : Int) : ℚ) * 2 ^ (k - ((p : Int) - 1)) := by
    push_cast
    rw [← zpow_natCast (2 : ℚ) (p - 1), ← zpow_add₀ (by norm_num : (2 : ℚ) ≠ 0)]
    congr 1
    have : ((p - 1 : Nat) : Int) = (p : Int) - 1 := by omega
    rw [this]
    ring
  have hu : (0 : ℚ) < 2 ^ (k - ((p : Int) - 1)) := by positivity
  have hdiv : (2 : ℚ) ^ k / 2 ^ (k - ((p : Int) - 1)) = ((2 ^ (p - 1) : Int) : ℚ) := by
    rw [div_eq_iff hu.ne']
    exact hsplit
  have h := roundBinary_eq p emin ((2 : ℚ) ^ k) k (2 ^ (p - 1)) hk
    (by rw [abs_of_pos hpos])
    (by rw [abs_of_pos hpos]; exact zpow_lt_zpow_right₀ (by norm_num) (by omega))
    (by rw [hdiv]; linarith) (by rw [hdiv]; linarith)
  rw [h, ← hsplit]

/-! ## C10: no zero divisor in the illumination and projection -/

theorem exactRounding_faithful : exactRounding.Faithful :=
  ⟨fun _ _ h => h, fun _ _ h => h, rfl, fun _ _ _ => rfl, fun _ _ _ => rfl⟩

theorem ieeeRounding_faithful : ieeeRounding.Faithful :=
  ⟨roundBinary_mono 24 (-126) (by norm_num), roundBinary_mono 53 (-1022) (by norm_num),
    roundBinary_zero 24 (-126),
    fun k hk _ => roundBinary_zpow 24 (-126) (by norm_num) k hk,
    fun k hk _ => roundBinary_zpow 53 (-1022) (by norm_num) k (by omega)⟩

theorem Rounding.Faithful.rnd_nonneg {fm : Rounding} (hf : fm.Faithful) {x : ℚ} (hx : 0 ≤ x) :
    0 ≤ fm.rnd x := by
  have := hf.rnd_mono hx
  rwa [hf.rnd_zero] at this

theorem Rounding.Faithful.rnd_one {fm : Rounding} (hf : fm.Faithful) : fm.rnd 1 = 1 := by
  have := hf.rnd_zpow 0 (by norm_num) (by norm_num)
  simpa using this

theorem Rounding.Faithful.rnd_half {fm : Rounding} (hf : fm.Faithful) : fm.rnd (1 / 2) = 1 / 2 := by
  have := hf.rnd_zpow (-1) (by norm_num) (by norm_num)
  norm_num at this
  simpa using this

theorem Rounding.Faithful.rnd_quarter {fm : Rounding} (hf : fm.Faithful) :
    fm.rnd (1 / 4) = 1 / 4 := by
  have := hf.rnd_zpow (-2) (by norm_num) (by norm_num)
  norm_num at this
  simpa using this

theorem Rounding.Faithful.rnd_eighth {fm : Rounding} (hf : fm.Faithful) :
    fm.rnd (1 / 8) = 1 / 8 := by
  have := hf.rnd_zpow (-3) (by norm_num) (by norm_num)
  norm_num at this
  simpa using this

theorem Rounding.Faithful.rnd_two {fm : Rounding} (hf : fm.Faithful) : fm.rnd 2 = 2 := by
  have := hf.rnd_zpow 1 (by norm_num) (by norm_num)
  simpa using this

theorem Rounding.Faithful.rnd_four {fm : Rounding} (hf : fm.Faithful) : fm.rnd 4 = 4 := by
  have := hf.rnd_zpow 2 (by norm_num) (by norm_num)
  norm_num at this
  simpa using this

theorem Rounding.Faithful.rndD_two {fm : Rounding} (hf : fm.Faithful) : fm.rndD 2 = 2 := by
  have := hf.rndD_zpow 1 (by norm_num) (by norm_num)
  simpa using this

/-- A literal of at least 1/4 is stored as a `float` of at least 1/4. -/
theorem Rounding.Faithful.quarter_le_lit {fm : Rounding} (hf : fm.Faithful) {q : ℚ}
    (hq : 1 / 4 ≤ q) : 1 / 4 ≤ fm.lit q := by
  have := hf.rnd_mono hq
  rwa [hf.rnd_quarter] at this

/-- In range, `time_frac` lies in the closed interval from 0 to 1. -/
theorem time_frac_mem (fm : Rounding) (hf : fm.Faithful) (tsi : Int) (h0 : 0 ≤ tsi)
    (h1 : tsi ≤ kOneHourInNsec * kTimeStep) :
    0 ≤ time_frac fm tsi ∧ time_frac fm tsi ≤ 1 := by
  unfold time_frac Rounding.div Rounding.ofInt
  have hden : 1 ≤ fm.rnd ((kOneHourInNsec * kTimeStep : Int) : ℚ) := by
    have h := hf.rnd_mono (show (1 : ℚ) ≤ ((kOneHourInNsec * kTimeStep : Int) : ℚ) by
      unfold kOneHourInNsec kTimeStep; norm_num)
    rwa [hf.rnd_one] at h
  have hnum0 : 0 ≤ fm.rnd (tsi : ℚ) := hf.rnd_nonneg (by exact_mod_cast h0)
  have hnum1 : fm.rnd (tsi : ℚ) ≤ fm.rnd ((kOneHourInNsec * kTimeStep : Int) : ℚ) :=
    hf.rnd_mono (by exact_mod_cast h1)
  have hq0 : 0 ≤ fm.rnd (tsi : ℚ) / fm.rnd ((kOneHourInNsec * kTimeStep : Int) : ℚ) :=
    div_nonneg hnum0 (by linarith)
  have hq1 : fm.rnd (tsi : ℚ) / fm.rnd ((kOneHourInNsec * kTimeStep : Int) : ℚ) ≤ 1 :=
    (div_le_one (by linarith)).2 hnum1
  refine ⟨hf.rnd_nonneg hq0, ?_⟩
  have := hf.rnd_mono hq1
  rwa [hf.rnd_one] at this

/-- An interpolation between two values of at least 1/4 is at least 1/8. -/
theorem eighth_le_interpolate (fm : Rounding) (hf : fm.Faithful) (a b tf : ℚ) (ha : 1 / 4 ≤ a)
    (hb : 1 / 4 ≤ b) (h0 : 0 ≤ tf) (h1 : tf ≤ 1) : 1 / 8 ≤ interpolate fm a b tf := by
  unfold interpolate Rounding.add Rounding.mul Rounding.sub Rounding.ofInt
  have hone : fm.rnd ((1 : Int) : ℚ) = 1 := by
    rw [Int.cast_one]; exact hf.rnd_one
  rw [hone]
  have hs0 : 0 ≤ fm.rnd (1 - tf) := hf.rnd_nonneg (by linarith)
  have hx0 : 0 ≤ fm.rnd (a * fm.rnd (1 - tf)) := hf.rnd_nonneg (mul_nonneg (by linarith) hs0)
  have hy0 : 0 ≤ fm.rnd (b * tf) := hf.rnd_nonneg (mul_nonneg (by linarith) h0)
  have key : 1 / 8 ≤ fm.rnd (a * fm.rnd (1 - tf)) + fm.rnd (b * tf) := by
    rcases le_total tf (1 / 2) with ht | ht
    · have hs : 1 / 2 ≤ fm.rnd (1 - tf) := by
        have := hf.rnd_mono (show (1 : ℚ) / 2 ≤ 1 - tf by linarith)
        rwa [hf.rnd_half] at this
      have hx : 1 / 8 ≤ fm.rnd (a * fm.rnd (1 - tf)) := by
        have := hf.rnd_mono (show (1 : ℚ) / 8 ≤ a * fm.rnd (1 - tf) by nlinarith)
        rwa [hf.rnd_eighth] at this
      linarith
    · have hy : 1 / 8 ≤ fm.rnd (b * tf) := by
        have := hf.rnd_mono (show (1 : ℚ) / 8 ≤ b * tf by nlinarith)
        rwa [hf.rnd_eighth] at this
      linarith
  have := hf.rnd_mono key
  rwa [hf.rnd_eighth] at this

theorem quarter_le_sunsetY (fm : Rounding) (hf : fm.Faithful) : 1 / 4 ≤ (kSunsetXY fm).y :=
  hf.quarter_le_lit (by norm_num)

theorem quarter_le_directSunY (fm : Rounding) (hf : fm.Faithful) :
    1 / 4 ≤ (kDirectSunlightXY fm).y :=
  hf.quarter_le_lit (by norm_num)

theorem quarter_le_daylightY (fm : Rounding) (hf : fm.Faithful) : 1 / 4 ≤ (kDaylightXY fm).y :=
  hf.quarter_le_lit (by norm_num)

theorem quarter_le_moonlightY (fm : Rounding) (hf : fm.Faithful) :
    1 / 4 ≤ (kMoonlightXY fm).y :=
  hf.quarter_le_lit (by norm_num)

theorem quarter_le_material_y (fm : Rounding) (hf : fm.Faithful) :
    ∀ m ∈ kMaterials_xyY fm, 1 / 4 ≤ m.e1 := by
  intro m hm
  unfold kMaterials_xyY at hm
  simp only [List.mem_cons, List.mem_singleton, List.not_mem_nil, or_false] at hm
  rcases hm with rfl | rfl | rfl | rfl | rfl | rfl | rfl | rfl | rfl | rfl | rfl
  all_goals exact hf.quarter_le_lit (by norm_num)

theorem one_le_kDirectSunIllum (fm : Rounding) (hf : fm.Faithful) : 1 ≤ kDirectSunIllum fm := by
  unfold kDirectSunIllum Rounding.ofInt
  have := hf.rnd_mono (show (1 : ℚ) ≤ ((100000 : Int) : ℚ) by norm_num)
  rwa [hf.rnd_one] at this

theorem four_le_aperture_sq (fm : Rounding) (hf : fm.Faithful) :
    4 ≤ fm.mul (kAperture fm) (kAperture fm) := by
  have h2 : 2 ≤ kAperture fm := by
    unfold kAperture Rounding.litD
    have hd : 2 ≤ fm.rndD (28 / 10) := by
      have := hf.rndD_mono (show (2 : ℚ) ≤ 28 / 10 by norm_num)
      rwa [hf.rndD_two] at this
    have := hf.rnd_mono hd
    rwa [hf.rnd_two] at this
  unfold Rounding.mul
  have := hf.rnd_mono (show (4 : ℚ) ≤ kAperture fm * kAperture fm by nlinarith)
  rwa [hf.rnd_four] at this

/-- C10.  For every rounding of `float` and `double` that is monotone and represents zero and
the powers of two (exact arithmetic and IEEE 754 binary32 / binary64 are such), every hour in
0..23 and every intra-hour offset `t` with `0 ≤ t <` one hour, `CalculateScene` computes its
illumination and no divisor of lines 174-296 is zero: the divisor of `time_frac`, the
interpolated sun chromaticity y, the interpolated shade chromaticity y, the moonlight y, the y of
each of the 11 palette materials, `kDirectSunIllum` and `kAperture * kAperture`. -/
theorem no_zero_divisor (fm : Rounding) (hf : fm.Faithful) (h t : Int) (hh0 : 0 ≤ h)
    (hh1 : h < 24) (ht0 : 0 ≤ t) (ht1 : t < kOneHourInNsec) :
    ∃ il, illumination fm h t = some il ∧
      fm.ofInt (kOneHourInNsec * kTimeStep) ≠ 0 ∧
      il.current_sun_xy.y ≠ 0 ∧ il.current_shade_xy.y ≠ 0 ∧ (kMoonlightXY fm).y ≠ 0 ∧
      (kMaterials_xyY fm).length = 11 ∧ (∀ m ∈ kMaterials_xyY fm, m.e1 ≠ 0) ∧
      kDirectSunIllum fm ≠ 0 ∧ fm.mul (kAperture fm) (kAperture fm) ≠ 0 := by
  have hr : InRange h t := by
    unfold InRange
    unfold kOneHourInNsec at ht1 ⊢
    omega
  refine ⟨_, illumination_eq fm h t hr, ?_, ?_, ?_, ?_, rfl, ?_, ?_, ?_⟩
  · have h1 := hf.rnd_mono (show (1 : ℚ) ≤ ((kOneHourInNsec * kTimeStep : Int) : ℚ) by
      unfold kOneHourInNsec kTimeStep; norm_num)
    rw [hf.rnd_one] at h1
    unfold Rounding.ofInt
    linarith
  · have htf := time_frac_mem fm hf (h % 2 * kOneHourInNsec + t)
      (by unfold kOneHourInNsec at ht1 ⊢; omega)
      (by unfold kOneHourInNsec at ht1 ⊢; unfold kTimeStep; omega)
    have := eighth_le_interpolate fm hf
      (if isSunsetLevel fm ((kSunlight fm).getD (h / 2).toNat 0) then kSunsetXY fm
        else kDirectSunlightXY fm).y
      (if isSunsetLevel fm ((kSunlight fm).getD ((h / 2 + 1) % 12).toNat 0) then kSunsetXY fm
        else kDirectSunlightXY fm).y
      (time_frac fm (h % 2 * kOneHourInNsec + t))
      (by split
          · exact quarter_le_sunsetY fm hf
          · exact quarter_le_directSunY fm hf)
      (by split
          · exact quarter_le_sunsetY fm hf
          · exact quarter_le_directSunY fm hf)
      htf.1 htf.2
    show interpolate fm _ _ _ ≠ 0
    linarith
  · have htf := time_frac_mem fm hf (h % 2 * kOneHourInNsec + t)
      (by unfold kOneHourInNsec at ht1 ⊢; omega)
      (by unfold kOneHourInNsec at ht1 ⊢; unfold kTimeStep; omega)
    have := eighth_le_interpolate fm hf
      (if isSunsetLevel fm ((kSunlight fm).getD (h / 2).toNat 0) then kSunsetXY fm
        else kDaylightXY fm).y
      (if isSunsetLevel fm ((kSunlight fm).getD ((h / 2 + 1) % 12).toNat 0) then kSunsetXY fm
        else kDaylightXY fm).y
      (time_frac fm (h % 2 * kOneHourInNsec + t))
      (by split
          · exact quarter_le_sunsetY fm hf
          · exact quarter_le_daylightY fm hf)
      (by split
          · exact quarter_le_sunsetY fm hf
          · exact quarter_le_daylightY fm hf)
      htf.1 htf.2
    show interpolate fm _ _ _ ≠ 0
    linarith
  · have := quarter_le_moonlightY fm hf
    linarith
  · intro m hm
    have := quarter_le_material_y fm hf m hm
    linarith
  · have := one_le_kDirectSunIllum fm hf
    linarith
  · have := four_le_aperture_sq fm hf
    linarith

theorem no_zero_divisor_witness :
    ∃ il, illumination ieeeRounding 12 0 = some il ∧
      ieeeRounding.ofInt (kOneHourInNsec * kTimeStep) ≠ 0 ∧
      il.current_sun_xy.y ≠ 0 ∧ il.current_shade_xy.y ≠ 0 ∧ (kMoonlightXY ieeeRounding).y ≠ 0 ∧
      (kMaterials_xyY ieeeRounding).length = 11 ∧ (∀ m ∈ kMaterials_xyY ieeeRounding, m.e1 ≠ 0) ∧
      kDirectSunIllum ieeeRounding ≠ 0 ∧
      ieeeRounding.mul (kAperture ieeeRounding) (kAperture ieeeRounding) ≠ 0 :=
  no_zero_divisor ieeeRounding ieeeRounding_faithful 12 0 (by norm_num) (by norm_num)
    (by norm_num) (by unfold kOneHourInNsec; norm_num)

/-! ## C9: interpolation of the illuminance -/

theorem interpolate_exact (a b tf : ℚ) :
    interpolate exactRounding a b tf = a * (1 - tf) + b * tf := by
  simp [interpolate, Rounding.add, Rounding.mul, Rounding.sub, Rounding.ofInt, exactRounding]

theorem time_frac_exact (tsi : Int) :
    time_frac exactRounding tsi = (tsi : ℚ) / 7200000000000 := by
  simp [time_frac, Rounding.div, Rounding.ofInt, exactRounding, kOneHourInNsec, kTimeStep]

theorem lerp_between (a b f : ℚ) (h0 : 0 ≤ f) (h1 : f ≤ 1) :
    min a b ≤ a * (1 - f) + b * f ∧ a * (1 - f) + b * f ≤ max a b := by
  rcases le_total a b with hab | hab
  · rw [min_eq_left hab, max_eq_right hab]
    constructor <;> nlinarith
  · rw [min_eq_right hab, max_eq_left hab]
    constructor <;> nlinarith

theorem lerp_mono (a b f g : ℚ) (hfg : f ≤ g) :
    (a ≤ b → a * (1 - f) + b * f ≤ a * (1 - g) + b * g) ∧
    (b ≤ a → a * (1 - g) + b * g ≤ a * (1 - f) + b * f) := by
  constructor <;> intro hab <;> nlinarith

theorem exactRounding_accurate : exactRounding.Accurate := by
  intro q
  show |q - q| ≤ _
  rw [sub_self, abs_zero]
  positivity

/-- The error of `roundBinary` is at most half the spacing of the grid at its argument. -/
theorem roundBinary_error (p : Nat) (emin : Int) (q : ℚ) (hq : q ≠ 0) :
    |roundBinary p emin q - q| ≤ 2 ^ (binaryExponent emin q - ((p : Int) - 1)) / 2 := by
  rw [roundBinary_def p emin q hq]
  have hu : (0 : ℚ) < 2 ^ (binaryExponent emin q - ((p : Int) - 1)) := by positivity
  obtain ⟨h1, -⟩ := roundNearestEven_spec (q / 2 ^ (binaryExponent emin q - ((p : Int) - 1)))
  generalize (2 : ℚ) ^ (binaryExponent emin q - ((p : Int) - 1)) = U at hu h1 ⊢
  generalize (roundNearestEven (q / U) : ℚ) = m at h1 ⊢
  have e : m * U - q = -((q / U - m) * U) := by
    field_simp
    ring
  rw [e, abs_neg, abs_mul, abs_of_pos hu]
  calc |q / U - m| * U ≤ 1 / 2 * U := mul_le_mul_of_nonneg_right h1 hu.le
    _ = U / 2 := by ring

theorem ieeeRounding_accurate : ieeeRounding.Accurate := by
  intro q
  show |roundBinary 24 (-126) q - q| ≤ _
  by_cases hq : q = 0
  · rw [hq, roundBinary_zero, sub_self, abs_zero]
    positivity
  refine le_trans (roundBinary_error 24 (-126) q hq) ?_
  have hsplit : ∀ E : Int, (2 : ℚ) ^ (E - (((24 : Nat) : Int) - 1)) / 2 = 2 ^ E / 16777216 := by
    intro E
    rw [show E - (((24 : Nat) : Int) - 1) = E - 23 by norm_num,
      zpow_sub₀ (by norm_num : (2 : ℚ) ≠ 0)]
    norm_num
    ring
  rw [hsplit]
  have hpos : 0 < |q| := abs_pos.2 hq
  unfold binaryExponent
  rcases le_total (-126) (Int.log 2 |q|) with hE | hE
  · rw [max_eq_left hE]
    have hle : (2 : ℚ) ^ Int.log 2 |q| ≤ |q| := by
      have := Int.zpow_log_le_self (b := 2) (by norm_num) hpos
      exact_mod_cast this
    have h1 : (2 : ℚ) ^ Int.log 2 |q| / 16777216 ≤ |q| / 16777216 :=
      div_le_div_of_nonneg_right hle (by norm_num)
    have h2 : (0 : ℚ) ≤ 1 / 2 ^ 150 := by positivity
    linarith
  · rw [max_eq_right hE]
    have h1 : (2 : ℚ) ^ (-126 : Int) / 16777216 = 1 / 2 ^ 150 := by
      rw [zpow_neg]
      norm_num
    rw [h1]
    have h2 : (0 : ℚ) ≤ |q| / 16777216 := by positivity
    linarith

theorem Rounding.Accurate.bounds {fm : Rounding} (hacc : fm.Accurate) {q : ℚ} (hq : 0 ≤ q) :
    q * (1 - 1 / 16777216) - 1 / 2 ^ 150 ≤ fm.rnd q ∧
      fm.rnd q ≤ q * (1 + 1 / 16777216) + 1 / 2 ^ 150 := by
  have h := hacc q
  rw [abs_of_nonneg hq] at h
  have h' := abs_le.1 h
  constructor <;> linarith [h'.1, h'.2]

/-- The rounded interpolation stays close to the exact one.  For endpoints that are zero or lie
between 1 and `2 ^ 17` and a fraction in the closed interval from 0 to 1, the value computed on
`float` differs from `a * (1 - tf) + b * tf` by at most `2 ^ -22` of the larger endpoint, and lies
between the smaller endpoint and the larger one up to a factor `1 ± 2 ^ -22`. -/
theorem interpolate_near (fm : Rounding) (hf : fm.Faithful) (hacc : fm.Accurate) (a b tf : ℚ)
    (ha : a = 0 ∨ 1 ≤ a) (hb : b = 0 ∨ 1 ≤ b) (ha2 : a ≤ 131072) (hb2 : b ≤ 131072)
    (h0 : 0 ≤ tf) (h1 : tf ≤ 1) :
    (1 - 1 / 4194304) * min a b ≤ interpolate fm a b tf ∧
    interpolate fm a b tf ≤ (1 + 1 / 4194304) * max a b ∧
    |interpolate fm a b tf - (a * (1 - tf) + b * tf)| ≤ max a b / 4194304 := by
  have ha0 : 0 ≤ a := by rcases ha with h | h <;> linarith
  have hb0 : 0 ≤ b := by rcases hb with h | h <;> linarith
  have hx0 : 0 ≤ 1 - tf := by linarith
  have hone : fm.rnd ((1 : Int) : ℚ) = 1 := by
    rw [Int.cast_one]
    exact hf.rnd_one
  unfold interpolate Rounding.add Rounding.mul Rounding.sub Rounding.ofInt
  rw [hone]
  by_cases hz : a = 0 ∧ b = 0
  · obtain ⟨rfl, rfl⟩ := hz
    rw [zero_mul, zero_mul, hf.rnd_zero, add_zero, hf.rnd_zero]
    simp
  have hM : 1 ≤ max a b := by
    rcases ha with h | h
    · rcases hb with h' | h'
      · exact absurd ⟨h, h'⟩ hz
      · exact le_trans h' (le_max_right a b)
    · exact le_trans h (le_max_left a b)
  have hs0 : 0 ≤ fm.rnd (1 - tf) := hf.rnd_nonneg hx0
  obtain ⟨hsl, hsu⟩ := hacc.bounds hx0
  have hp10 : 0 ≤ fm.rnd (a * fm.rnd (1 - tf)) := hf.rnd_nonneg (mul_nonneg ha0 hs0)
  obtain ⟨hp1l, hp1u⟩ := hacc.bounds (mul_nonneg ha0 hs0)
  have hp20 : 0 ≤ fm.rnd (b * tf) := hf.rnd_nonneg (mul_nonneg hb0 h0)
  obtain ⟨hp2l, hp2u⟩ := hacc.bounds (mul_nonneg hb0 h0)
  have hr0 : 0 ≤ fm.rnd (fm.rnd (a * fm.rnd (1 - tf)) + fm.rnd (b * tf)) :=
    hf.rnd_nonneg (add_nonneg hp10 hp20)
  obtain ⟨hrl, hru⟩ := hacc.bounds (add_nonneg hp10 hp20)
  generalize fm.rnd (fm.rnd (a * fm.rnd (1 - tf)) + fm.rnd (b * tf)) = r at hr0 hrl hru ⊢
  generalize fm.rnd (a * fm.rnd (1 - tf)) = p1 at hp10 hp1l hp1u hrl hru
  generalize fm.rnd (b * tf) = p2 at hp20 hp2l hp2u hrl hru
  generalize fm.rnd (1 - tf) = s at hs0 hsl hsu hp1l hp1u
  have A1 : a * s ≤ a * ((1 - tf) * (1 + 1 / 16777216) + 1 / 2 ^ 150) :=
    mul_le_mul_of_nonneg_left hsu ha0
  have A2 : a * ((1 - tf) * (1 - 1 / 16777216) - 1 / 2 ^ 150) ≤ a * s :=
    mul_le_mul_of_nonneg_left hsl ha0
  have hbt : 0 ≤ b * tf := mul_nonneg hb0 h0
  have hax : 0 ≤ a * (1 - tf) := mul_nonneg ha0 hx0
  rcases le_total a b with hab | hab
  · rw [min_eq_left hab, max_eq_right hab] at *
    have F1 : a * (1 - tf) ≤ b * (1 - tf) := mul_le_mul_of_nonneg_right hab hx0
    have F2 : a * tf ≤ b * tf := mul_le_mul_of_nonneg_right hab h0
    have hup : r - (a * (1 - tf) + b * tf) ≤ b / 4194304 := by
      norm_num at hru hp1u hp2u A1 ⊢
      linarith
    have hlo : (a * (1 - tf) + b * tf) - r ≤ b / 4194304 := by
      norm_num at hrl hp1l hp2l A2 ⊢
      linarith
    refine ⟨?_, ?_, abs_le.2 ⟨by linarith, hup⟩⟩
    · rcases ha with h | h
      · rw [h, mul_zero]
        exact hr0
      · norm_num at hrl hp1l hp2l A2 ⊢
        linarith
    · linarith
  · rw [min_eq_right hab, max_eq_left hab] at *
    have F1 : b * (1 - tf) ≤ a * (1 - tf) := mul_le_mul_of_nonneg_right hab hx0
    have F2 : b * tf ≤ a * tf := mul_le_mul_of_nonneg_right hab h0
    have hup : r - (a * (1 - tf) + b * tf) ≤ a / 4194304 := by
      norm_num at hru hp1u hp2u A1 ⊢
      linarith
    have hlo : (a * (1 - tf) + b * tf) - r ≤ a / 4194304 := by
      norm_num at hrl hp1l hp2l A2 ⊢
      linarith
    refine ⟨?_, ?_, abs_le.2 ⟨by linarith, hup⟩⟩
    · rcases hb with h | h
      · rw [h, mul_zero]
        exact hr0
      · norm_num at hrl hp1l hp2l A2 ⊢
        linarith
    · linarith

/-- An entry of the illumination tables, the conversion of an integer between 0 and `2 ^ 17`, is
zero or at least 1, and at most `2 ^ 17`. -/
theorem ofInt_level (fm : Rounding) (hf : fm.Faithful) (n : Int) (hn : 0 ≤ n)
    (hn2 : n ≤ 131072) : (fm.ofInt n = 0 ∨ 1 ≤ fm.ofInt n) ∧ fm.ofInt n ≤ 131072 := by
  unfold Rounding.ofInt
  constructor
  · rcases eq_or_lt_of_le hn with h | h
    · left
      rw [← h, Int.cast_zero]
      exact hf.rnd_zero
    · right
      have h1 : (1 : ℚ) ≤ (n : ℚ) := by exact_mod_cast (by omega : (1 : Int) ≤ n)
      have := hf.rnd_mono h1
      rwa [hf.rnd_one] at this
  · have h1 : (n : ℚ) ≤ (2 : ℚ) ^ (17 : Int) := by
      have : (n : ℚ) ≤ 131072 := by exact_mod_cast hn2
      norm_num
      exact this
    have := hf.rnd_mono h1
    rw [hf.rnd_zpow 17 (by norm_num) (by norm_num)] at this
    norm_num at this
    exact this

theorem kSunlight_level (fm : Rounding) (hf : fm.Faithful) (i : Int) (h0 : 0 ≤ i) (h1 : i < 12) :
    ((kSunlight fm).getD i.toNat 0 = 0 ∨ 1 ≤ (kSunlight fm).getD i.toNat 0) ∧
      (kSunlight fm).getD i.toNat 0 ≤ 131072 := by
  have e0 := ofInt_level fm hf 0 (by norm_num) (by norm_num)
  have e4 := ofInt_level fm hf 4 (by norm_num) (by norm_num)
  have e400 := ofInt_level fm hf 400 (by norm_num) (by norm_num)
  have e5 := ofInt_level fm hf 100000 (by norm_num) (by norm_num)
  obtain ⟨n, rfl⟩ := Int.eq_ofNat_of_zero_le h0
  have hn : n < 12 := by omega
  rw [Int.toNat_ofNat]
  interval_cases n <;> assumption

theorem kMoonlight_level (fm : Rounding) (hf : fm.Faithful) (i : Int) (h0 : 0 ≤ i) (h1 : i < 12) :
    ((kMoonlight fm).getD i.toNat 0 = 0 ∨ 1 ≤ (kMoonlight fm).getD i.toNat 0) ∧
      (kMoonlight fm).getD i.toNat 0 ≤ 131072 := by
  have e0 := ofInt_level fm hf 0 (by norm_num) (by norm_num)
  have e1 := ofInt_level fm hf 1 (by norm_num) (by norm_num)
  obtain ⟨n, rfl⟩ := Int.eq_ofNat_of_zero_le h0
  have hn : n < 12 := by omega
  rw [Int.toNat_ofNat]
  interval_cases n <;> assumption

/-- On `float`, `time_frac` does not decrease when `time_since_idx` grows. -/
theorem time_frac_mono (fm : Rounding) (hf : fm.Faithful) (x y : Int) (hxy : x ≤ y) :
    time_frac fm x ≤ time_frac fm y := by
  unfold time_frac Rounding.div Rounding.ofInt
  have hden : 1 ≤ fm.rnd ((kOneHourInNsec * kTimeStep : Int) : ℚ) := by
    have h := hf.rnd_mono (show (1 : ℚ) ≤ ((kOneHourInNsec * kTimeStep : Int) : ℚ) by
      unfold kOneHourInNsec kTimeStep; norm_num)
    rwa [hf.rnd_one] at h
  apply hf.rnd_mono
  apply div_le_div_of_nonneg_right _ (by linarith)
  exact hf.rnd_mono (by exact_mod_cast hxy)

/-- The interpolation in exact arithmetic.  For every hour `h` in 0..23 and intra-hour offsets
`0 ≤ t ≤ t' <` one hour, the illumination is computed from the buckets `h / 2` and
`(h / 2 + 1) mod 12`, both valid indices of the 12-entry tables, with
`time_frac = (h mod 2 * one hour + t) / two hours` in `[0, 1)`; the sun illuminance is
`a * (1 - time_frac) + b * time_frac` for the entries `a`, `b` of `kSunlight` at the two buckets,
lies between their minimum and their maximum, and at the later offset `t'` it is no smaller when
`a ≤ b` and no larger when `b ≤ a`; the same holds for the moon illuminance and `kMoonlight`. -/
theorem illumination_interpolates_exact (h t t' : Int) (hh0 : 0 ≤ h) (hh1 : h < 24)
    (ht0 : 0 ≤ t) (htt : t ≤ t') (ht1 : t' < kOneHourInNsec) :
    ∃ il il' a b ma mb,
      illumination exactRounding h t = some il ∧ illumination exactRounding h t' = some il' ∧
      il.time_idx = h / 2 ∧ il.next_time_idx = (h / 2 + 1) % 12 ∧
      0 ≤ il.time_idx ∧ il.time_idx < 12 ∧ 0 ≤ il.next_time_idx ∧ il.next_time_idx < 12 ∧
      readTable (kSunlight exactRounding) il.time_idx = some a ∧
      readTable (kSunlight exactRounding) il.next_time_idx = some b ∧
      readTable (kMoonlight exactRounding) il.time_idx = some ma ∧
      readTable (kMoonlight exactRounding) il.next_time_idx = some mb ∧
      il.time_frac = ((h % 2 * kOneHourInNsec + t : Int) : ℚ) / ((2 * kOneHourInNsec : Int) : ℚ) ∧
      0 ≤ il.time_frac ∧ il.time_frac < 1 ∧ il.time_frac ≤ il'.time_frac ∧
      il.sun_lux = a * (1 - il.time_frac) + b * il.time_frac ∧
      min a b ≤ il.sun_lux ∧ il.sun_lux ≤ max a b ∧
      (a ≤ b → il.sun_lux ≤ il'.sun_lux) ∧ (b ≤ a → il'.sun_lux ≤ il.sun_lux) ∧
      il.moon_lux = ma * (1 - il.time_frac) + mb * il.time_frac ∧
      min ma mb ≤ il.moon_lux ∧ il.moon_lux ≤ max ma mb ∧
      (ma ≤ mb → il.moon_lux ≤ il'.moon_lux) ∧ (mb ≤ ma → il'.moon_lux ≤ il.moon_lux) := by
  have hk : kOneHourInNsec = 3600000000000 := rfl
  rw [hk] at ht1
  have hr : InRange h t := by unfold InRange; rw [hk]; omega
  have hr' : InRange h t' := by unfold InRange; rw [hk]; omega
  have hf0 : (0 : ℚ) ≤ ((h % 2 * 3600000000000 + t : Int) : ℚ) / 7200000000000 := by
    apply div_nonneg _ (by norm_num)
    exact_mod_cast (by omega : 0 ≤ h % 2 * 3600000000000 + t)
  have hf1 : ((h % 2 * 3600000000000 + t : Int) : ℚ) / 7200000000000 < 1 := by
    rw [div_lt_one (by norm_num)]
    exact_mod_cast (by omega : h % 2 * 3600000000000 + t < 7200000000000)
  have hfm : ((h % 2 * 3600000000000 + t : Int) : ℚ) / 7200000000000
      ≤ ((h % 2 * 3600000000000 + t' : Int) : ℚ) / 7200000000000 := by
    apply div_le_div_of_nonneg_right _ (by norm_num)
    exact_mod_cast (by omega : h % 2 * 3600000000000 + t ≤ h % 2 * 3600000000000 + t')
  refine ⟨_, _, (kSunlight exactRounding).getD (h / 2).toNat 0,
    (kSunlight exactRounding).getD ((h / 2 + 1) % 12).toNat 0,
    (kMoonlight exactRounding).getD (h / 2).toNat 0,
    (kMoonlight exactRounding).getD ((h / 2 + 1) % 12).toNat 0,
    illumination_eq exactRounding h t hr,
    illumination_eq exactRounding h t' hr', time_idx_eq h hh0, next_time_idx_eq h hh0, ?_, ?_, ?_,
    ?_, ?_, ?_, ?_, ?_, ?_, ?_, ?_, ?_, ?_, ?_, ?_, ?_, ?_, ?_, ?_, ?_, ?_, ?_⟩
  · show 0 ≤ time_idx h
    rw [time_idx_eq h hh0]; omega
  · show time_idx h < 12
    rw [time_idx_eq h hh0]; omega
  · show 0 ≤ next_time_idx h
    rw [next_time_idx_eq h hh0]; omega
  · show next_time_idx h < 12
    rw [next_time_idx_eq h hh0]; omega
  · show readTable _ (time_idx h) = _
    rw [time_idx_eq h hh0]
    exact readTable_some _ _ (by omega) (by rw [kSunlight_length]; omega)
  · show readTable _ (next_time_idx h) = _
    rw [next_time_idx_eq h hh0]
    exact readTable_some _ _ (by omega) (by rw [kSunlight_length]; omega)
  · show readTable _ (time_idx h) = _
    rw [time_idx_eq h hh0]
    exact readTable_some _ _ (by omega) (by rw [kMoonlight_length]; omega)
  · show readTable _ (next_time_idx h) = _
    rw [next_time_idx_eq h hh0]
    exact readTable_some _ _ (by omega) (by rw [kMoonlight_length]; omega)
  · show time_frac exactRounding _ = _
    rw [time_frac_exact, hk]
    norm_num
  · show 0 ≤ time_frac exactRounding _
    rw [time_frac_exact, hk]; exact hf0
  · show time_frac exactRounding _ < 1
    rw [time_frac_exact, hk]; exact hf1
  · show time_frac exactRounding _ ≤ time_frac exactRounding _
    rw [time_frac_exact, time_frac_exact, hk]; exact hfm
  · show interpolate exactRounding _ _ (time_frac exactRounding _) = _
    rw [interpolate_exact]
    rfl
  · show min _ _ ≤ interpolate exactRounding _ _ (time_frac exactRounding _)
    rw [interpolate_exact, time_frac_exact, hk]
    exact (lerp_between _ _ _ hf0 hf1.le).1
  · show interpolate exactRounding _ _ (time_frac exactRounding _) ≤ max _ _
    rw [interpolate_exact, time_frac_exact, hk]
    exact (lerp_between _ _ _ hf0 hf1.le).2
  · show _ → interpolate exactRounding _ _ (time_frac exactRounding _)
      ≤ interpolate exactRounding _ _ (time_frac exactRounding _)
    rw [interpolate_exact, interpolate_exact, time_frac_exact, time_frac_exact, hk]
    exact (lerp_mono _ _ _ _ hfm).1
  · show _ → interpolate exactRounding _ _ (time_frac exactRounding _)
      ≤ interpolate exactRounding _ _ (time_frac exactRounding _)
    rw [interpolate_exact, interpolate_exact, time_frac_exact, time_frac_exact, hk]
    exact (lerp_mono _ _ _ _ hfm).2
  · show interpolate exactRounding _ _ (time_frac exactRounding _) = _
    rw [interpolate_exact]
    rfl
  · show min _ _ ≤ interpolate exactRounding _ _ (time_frac exactRounding _)
    rw [interpolate_exact, time_frac_exact, hk]
    exact (lerp_between _ _ _ hf0 hf1.le).1
  · show interpolate exactRounding _ _ (time_frac exactRounding _) ≤ max _ _
    rw [interpolate_exact, time_frac_exact, hk]
    exact (lerp_between _ _ _ hf0 hf1.le).2
  · show _ → interpolate exactRounding _ _ (time_frac exactRounding _)
      ≤ interpolate exactRounding _ _ (time_frac exactRounding _)
    rw [interpolate_exact, interpolate_exact, time_frac_exact, time_frac_exact, hk]
    exact (lerp_mono _ _ _ _ hfm).1
  · show _ → interpolate exactRounding _ _ (time_frac exactRounding _)
      ≤ interpolate exactRounding _ _ (time_frac exactRounding _)
    rw [interpolate_exact, interpolate_exact, time_frac_exact, time_frac_exact, hk]
    exact (lerp_mono _ _ _ _ hfm).2

/-- C9 (amended).  Let the rounding of `float` be monotone, keep zero and the powers of two, and
be accurate to half a unit in the last place of binary32; exact arithmetic and IEEE 754 binary32
are such roundings.  For every hour `h` in 0..23 and intra-hour offsets `0 ≤ t ≤ t' <` one hour,
`CalculateScene` computes its illumination from the buckets `h / 2` and `(h / 2 + 1) mod 12`, both
valid indices of the 12-entry tables.  Its `time_frac` is the `float` quotient of
`h mod 2 * one hour + t` by two hours, lies in the closed interval from 0 to 1 and does not
decrease from `t` to `t'`.  The sun illuminance is the `float` value of
`a * (1 - time_frac) + b * time_frac` for the entries `a`, `b` of `kSunlight` at the two buckets;
it differs from that expression evaluated without rounding, at the same `time_frac`, by at most
`2 ^ -22` of the larger entry and lies between `(1 - 2 ^ -22)` times the smaller entry and
`(1 + 2 ^ -22)` times the larger one; the same holds for the moon illuminance and `kMoonlight`.
In exact arithmetic `time_frac` is `(h mod 2 * one hour + t) / two hours` and is below 1, the
illuminances lie between the smaller and the larger entry, and at the later offset `t'` they are
no smaller when the first entry is at most the second and no larger when it is at least the
second. -/
theorem illumination_interpolates (fm : Rounding) (hf : fm.Faithful) (hacc : fm.Accurate)
    (h t t' : Int) (hh0 : 0 ≤ h) (hh1 : h < 24) (ht0 : 0 ≤ t) (htt : t ≤ t')
    (ht1 : t' < kOneHourInNsec) :
    (∃ il il' a b ma mb,
      illumination fm h t = some il ∧ illumination fm h t' = some il' ∧
      il.time_idx = h / 2 ∧ il.next_time_idx = (h / 2 + 1) % 12 ∧
      0 ≤ il.time_idx ∧ il.time_idx < 12 ∧ 0 ≤ il.next_time_idx ∧ il.next_time_idx < 12 ∧
      readTable (kSunlight fm) il.time_idx = some a ∧
      readTable (kSunlight fm) il.next_time_idx = some b ∧
      readTable (kMoonlight fm) il.time_idx = some ma ∧
      readTable (kMoonlight fm) il.next_time_idx = some mb ∧
      il.time_frac
        = fm.div (fm.ofInt (h % 2 * kOneHourInNsec + t)) (fm.ofInt (kOneHourInNsec * kTimeStep)) ∧
      0 ≤ il.time_frac ∧ il.time_frac ≤ 1 ∧ il.time_frac ≤ il'.time_frac ∧
      il.sun_lux
        = fm.add (fm.mul a (fm.sub (fm.ofInt 1) il.time_frac)) (fm.mul b il.time_frac) ∧
      |il.sun_lux - (a * (1 - il.time_frac) + b * il.time_frac)| ≤ max a b / 4194304 ∧
      (1 - 1 / 4194304) * min a b ≤ il.sun_lux ∧ il.sun_lux ≤ (1 + 1 / 4194304) * max a b ∧
      il.moon_lux
        = fm.add (fm.mul ma (fm.sub (fm.ofInt 1) il.time_frac)) (fm.mul mb il.time_frac) ∧
      |il.moon_lux - (ma * (1 - il.time_frac) + mb * il.time_frac)| ≤ max ma mb / 4194304 ∧
      (1 - 1 / 4194304) * min ma mb ≤ il.moon_lux ∧
      il.moon_lux ≤ (1 + 1 / 4194304) * max ma mb) ∧
    (∃ il il' a b ma mb,
      illumination exactRounding h t = some il ∧ illumination exactRounding h t' = some il' ∧
      il.time_idx = h / 2 ∧ il.next_time_idx = (h / 2 + 1) % 12 ∧
      0 ≤ il.time_idx ∧ il.time_idx < 12 ∧ 0 ≤ il.next_time_idx ∧ il.next_time_idx < 12 ∧
      readTable (kSunlight exactRounding) il.time_idx = some a ∧
      readTable (kSunlight exactRounding) il.next_time_idx = some b ∧
      readTable (kMoonlight exactRounding) il.time_idx = some ma ∧
      readTable (kMoonlight exactRounding) il.next_time_idx = some mb ∧
      il.time_frac = ((h % 2 * kOneHourInNsec + t : Int) : ℚ) / ((2 * kOneHourInNsec : Int) : ℚ) ∧
      0 ≤ il.time_frac ∧ il.time_frac < 1 ∧ il.time_frac ≤ il'.time_frac ∧
      il.sun_lux = a * (1 - il.time_frac) + b * il.time_frac ∧
      min a b ≤ il.sun_lux ∧ il.sun_lux ≤ max a b ∧
      (a ≤ b → il.sun_lux ≤ il'.sun_lux) ∧ (b ≤ a → il'.sun_lux ≤ il.sun_lux) ∧
      il.moon_lux = ma * (1 - il.time_frac) + mb * il.time_frac ∧
      min ma mb ≤ il.moon_lux ∧ il.moon_lux ≤ max ma mb ∧
      (ma ≤ mb → il.moon_lux ≤ il'.moon_lux) ∧ (mb ≤ ma → il'.moon_lux ≤ il.moon_lux)) := by
  have hk : kOneHourInNsec = 3600000000000 := rfl
  have ht1' : t' < 3600000000000 := ht1
  have hr : InRange h t := by unfold InRange; rw [hk]; omega
  have hr' : InRange h t' := by unfold InRange; rw [hk]; omega
  have hi0 : 0 ≤ h / 2 ∧ h / 2 < 12 := by omega
  have hi1 : 0 ≤ (h / 2 + 1) % 12 ∧ (h / 2 + 1) % 12 < 12 := by omega
  obtain ⟨sa, sa2⟩ := kSunlight_level fm hf (h / 2) hi0.1 hi0.2
  obtain ⟨sb, sb2⟩ := kSunlight_level fm hf ((h / 2 + 1) % 12) hi1.1 hi1.2
  obtain ⟨ma, ma2⟩ := kMoonlight_level fm hf (h / 2) hi0.1 hi0.2
  obtain ⟨mb, mb2⟩ := kMoonlight_level fm hf ((h / 2 + 1) % 12) hi1.1 hi1.2
  obtain ⟨tf0, tf1⟩ := time_frac_mem fm hf (h % 2 * kOneHourInNsec + t)
    (by rw [hk]; omega) (by rw [hk]; unfold kTimeStep; omega)
  obtain ⟨s1, s2, s3⟩ := interpolate_near fm hf hacc _ _ _ sa sb sa2 sb2 tf0 tf1
  obtain ⟨m1, m2, m3⟩ := interpolate_near fm hf hacc _ _ _ ma mb ma2 mb2 tf0 tf1
  refine ⟨⟨_, _, (kSunlight fm).getD (h / 2).toNat 0,
    (kSunlight fm).getD ((h / 2 + 1) % 12).toNat 0,
    (kMoonlight fm).getD (h / 2).toNat 0,
    (kMoonlight fm).getD ((h / 2 + 1) % 12).toNat 0,
    illumination_eq fm h t hr, illumination_eq fm h t' hr', time_idx_eq h hh0,
    next_time_idx_eq h hh0, ?_, ?_, ?_, ?_, ?_, ?_, ?_, ?_, rfl, tf0, tf1, ?_, rfl, s3, s1, s2,
    rfl, m3, m1, m2⟩, illumination_interpolates_exact h t t' hh0 hh1 ht0 htt ht1⟩
  · show 0 ≤ time_idx h
    rw [time_idx_eq h hh0]; exact hi0.1
  · show time_idx h < 12
    rw [time_idx_eq h hh0]; exact hi0.2
  · show 0 ≤ next_time_idx h
    rw [next_time_idx_eq h hh0]; exact hi1.1
  · show next_time_idx h < 12
    rw [next_time_idx_eq h hh0]; exact hi1.2
  · show readTable _ (time_idx h) = _
    rw [time_idx_eq h hh0]
    exact readTable_some _ _ (by omega) (by rw [kSunlight_length]; omega)
  · show readTable _ (next_time_idx h) = _
    rw [next_time_idx_eq h hh0]
    exact readTable_some _ _ (by omega) (by rw [kSunlight_length]; omega)
  · show readTable _ (time_idx h) = _
    rw [time_idx_eq h hh0]
    exact readTable_some _ _ (by omega) (by rw [kMoonlight_length]; omega)
  · show readTable _ (next_time_idx h) = _
    rw [next_time_idx_eq h hh0]
    exact readTable_some _ _ (by omega) (by rw [kMoonlight_length]; omega)
  · exact time_frac_mono fm hf _ _ (by omega)

theorem illumination_interpolates_witness :
    (∃ il il' a b ma mb,
      illumination ieeeRounding 7 1000000000 = some il ∧
      illumination ieeeRounding 7 2000000000 = some il' ∧
      il.time_idx = 7 / 2 ∧ il.next_time_idx = (7 / 2 + 1) % 12 ∧
      0 ≤ il.time_idx ∧ il.time_idx < 12 ∧ 0 ≤ il.next_time_idx ∧ il.next_time_idx < 12 ∧
      readTable (kSunlight ieeeRounding) il.time_idx = some a ∧
      readTable (kSunlight ieeeRounding) il.next_time_idx = some b ∧
      readTable (kMoonlight ieeeRounding) il.time_idx = some ma ∧
      readTable (kMoonlight ieeeRounding) il.next_time_idx = some mb ∧
      il.time_frac
        = ieeeRounding.div (ieeeRounding.ofInt (7 % 2 * kOneHourInNsec + 1000000000))
          (ieeeRounding.ofInt (kOneHourInNsec * kTimeStep)) ∧
      0 ≤ il.time_frac ∧ il.time_frac ≤ 1 ∧ il.time_frac ≤ il'.time_frac ∧
      il.sun_lux
        = ieeeRounding.add
          (ieeeRounding.mul a (ieeeRounding.sub (ieeeRounding.ofInt 1) il.time_frac))
          (ieeeRounding.mul b il.time_frac) ∧
      |il.sun_lux - (a * (1 - il.time_frac) + b * il.time_frac)| ≤ max a b / 4194304 ∧
      (1 - 1 / 4194304) * min a b ≤ il.sun_lux ∧ il.sun_lux ≤ (1 + 1 / 4194304) * max a b ∧
      il.moon_lux
        = ieeeRounding.add
          (ieeeRounding.mul ma (ieeeRounding.sub (ieeeRounding.ofInt 1) il.time_frac))
          (ieeeRounding.mul mb il.time_frac) ∧
      |il.moon_lux - (ma * (1 - il.time_frac) + mb * il.time_frac)| ≤ max ma mb / 4194304 ∧
      (1 - 1 / 4194304) * min ma mb ≤ il.moon_lux ∧
      il.moon_lux ≤ (1 + 1 / 4194304) * max ma mb) ∧
    (∃ il il' a b ma mb,
      illumination exactRounding 7 1000000000 = some il ∧
      illumination exactRounding 7 2000000000 = some il' ∧
      il.time_idx = 7 / 2 ∧ il.next_time_idx = (7 / 2 + 1) % 12 ∧
      0 ≤ il.time_idx ∧ il.time_idx < 12 ∧ 0 ≤ il.next_time_idx ∧ il.next_time_idx < 12 ∧
      readTable (kSunlight exactRounding) il.time_idx = some a ∧
      readTable (kSunlight exactRounding) il.next_time_idx = some b ∧
      readTable (kMoonlight exactRounding) il.time_idx = some ma ∧
      readTable (kMoonlight exactRounding) il.next_time_idx = some mb ∧
      il.time_frac
        = ((7 % 2 * kOneHourInNsec + 1000000000 : Int) : ℚ) / ((2 * kOneHourInNsec : Int) : ℚ) ∧
      0 ≤ il.time_frac ∧ il.time_frac < 1 ∧ il.time_frac ≤ il'.time_frac ∧
      il.sun_lux = a * (1 - il.time_frac) + b * il.time_frac ∧
      min a b ≤ il.sun_lux ∧ il.sun_lux ≤ max a b ∧
      (a ≤ b → il.sun_lux ≤ il'.sun_lux) ∧ (b ≤ a → il'.sun_lux ≤ il.sun_lux) ∧
      il.moon_lux = ma * (1 - il.time_frac) + mb * il.time_frac ∧
      min ma mb ≤ il.moon_lux ∧ il.moon_lux ≤ max ma mb ∧
      (ma ≤ mb → il.moon_lux ≤ il'.moon_lux) ∧ (mb ≤ ma → il'.moon_lux ≤ il.moon_lux)) :=
  illumination_interpolates ieeeRounding ieeeRounding_faithful ieeeRounding_accurate 7 1000000000
    2000000000 (by decide) (by decide) (by decide) (by decide) (by decide)

/-- Evaluation of `roundF32` at a rational `q` with `2 ^ e ≤ |q| < 2 ^ (e + 1)` whose quotient by
the spacing `2 ^ (e - 23)` is strictly nearest to the integer `m`. -/
theorem roundF32_eq (q : ℚ) (e m : Int) (r : ℚ) (he : -126 ≤ e)
    (h1 : (2 : ℚ) ^ e ≤ |q|) (h2 : |q| < (2 : ℚ) ^ (e + 1))
    (h3 : (m : ℚ) - 1 / 2 < q / 2 ^ (e - 23)) (h4 : q / 2 ^ (e - 23) < m + 1 / 2)
    (hr : (m : ℚ) * 2 ^ (e - 23) = r) : roundF32 q = r := by
  unfold roundF32
  rw [roundBinary_eq 24 (-126) q e m he h1 h2 (by norm_num; exact h3) (by norm_num; exact h4)]
  norm_num
  exact hr

/-- Evaluation of `roundF32` at a rational half way between two neighbours of the grid: the
neighbour with the even significand `m` is taken. -/
theorem roundF32_eq_tie (q : ℚ) (e m : Int) (r : ℚ) (he : -126 ≤ e)
    (h1 : (2 : ℚ) ^ e ≤ |q|) (h2 : |q| < (2 : ℚ) ^ (e + 1))
    (h3 : |q / 2 ^ (e - 23) - m| = 1 / 2) (h4 : m % 2 = 0)
    (hr : (m : ℚ) * 2 ^ (e - 23) = r) : roundF32 q = r := by
  have hq : q ≠ 0 := by
    intro h
    rw [h, abs_zero] at h1
    exact absurd h1 (not_le.2 (by positivity))
  unfold roundF32
  rw [roundBinary_def 24 (-126) q hq]
  unfold binaryExponent
  rw [log2_eq |q| e h1 h2, max_eq_left he]
  norm_num
  rw [roundNearestEven_eq_of _ m ⟨le_of_eq h3, fun _ => h4⟩]
  exact hr

theorem roundF32_one : roundF32 1 = 1 :=
  roundF32_eq 1 0 8388608 1 (by norm_num) (by norm_num) (by norm_num) (by norm_num)
    (by norm_num) (by norm_num)

theorem roundF32_two_hours : roundF32 7200000000000 = 7199999918080 :=
  roundF32_eq 7200000000000 42 13732910 7199999918080 (by norm_num) (by norm_num [abs_of_pos])
    (by norm_num [abs_of_pos]) (by norm_num) (by norm_num) (by norm_num)

theorem roundF32_two_hours_less_one : roundF32 7199999999999 = 7199999918080 :=
  roundF32_eq 7199999999999 42 13732910 7199999918080 (by norm_num) (by norm_num [abs_of_pos])
    (by norm_num [abs_of_pos]) (by norm_num) (by norm_num) (by norm_num)

/-- In binary32 the last nanosecond of an odd hour has `time_frac = 1`. -/
theorem time_frac_binary32_one : time_frac ieeeRounding 7199999999999 = 1 := by
  have hden : (kOneHourInNsec * kTimeStep : Int) = 7200000000000 := rfl
  unfold time_frac Rounding.div Rounding.ofInt
  rw [hden]
  show roundF32 (roundF32 ((7199999999999 : Int) : ℚ) / roundF32 ((7200000000000 : Int) : ℚ)) = 1
  rw [Int.cast_ofNat, Int.cast_ofNat, roundF32_two_hours, roundF32_two_hours_less_one,
    div_self (by norm_num), roundF32_one]

theorem roundF32_hundred_thousand : roundF32 100000 = 100000 :=
  roundF32_eq 100000 16 12800000 100000 (by norm_num) (by norm_num [abs_of_pos])
    (by norm_num [abs_of_pos]) (by norm_num) (by norm_num) (by norm_num)

theorem roundF32_sample_time : roundF32 507820912699 = 507820900352 :=
  roundF32_eq 507820912699 38 15497464 507820900352 (by norm_num) (by norm_num [abs_of_pos])
    (by norm_num [abs_of_pos]) (by norm_num) (by norm_num) (by norm_num)

theorem roundF32_sample_frac :
    roundF32 (507820900352 / 7199999918080) = 2366617 / 33554432 :=
  roundF32_eq (507820900352 / 7199999918080) (-4) 9466468 (2366617 / 33554432) (by norm_num)
    (by norm_num [abs_of_pos]) (by norm_num [abs_of_pos]) (by norm_num) (by norm_num)
    (by norm_num)

theorem roundF32_sample_rest :
    roundF32 (1 - 2366617 / 33554432) = 3898477 / 4194304 :=
  roundF32_eq_tie (1 - 2366617 / 33554432) (-1) 15593908 (3898477 / 4194304) (by norm_num)
    (by norm_num [abs_of_pos]) (by norm_num [abs_of_pos]) (by norm_num [abs_of_neg])
    (by decide) (by norm_num)

theorem roundF32_sample_left :
    roundF32 (100000 * (3898477 / 4194304)) = 1487151 / 16 :=
  roundF32_eq (100000 * (3898477 / 4194304)) 16 11897208 (1487151 / 16) (by norm_num)
    (by norm_num [abs_of_pos]) (by norm_num [abs_of_pos]) (by norm_num) (by norm_num)
    (by norm_num)

theorem roundF32_sample_right :
    roundF32 (100000 * (2366617 / 33554432)) = 3611171 / 512 :=
  roundF32_eq (100000 * (2366617 / 33554432)) 12 14444684 (3611171 / 512) (by norm_num)
    (by norm_num [abs_of_pos]) (by norm_num [abs_of_pos]) (by norm_num) (by norm_num)
    (by norm_num)

theorem roundF32_sample_sum :
    roundF32 (1487151 / 16 + 3611171 / 512) = 12800001 / 128 :=
  roundF32_eq (1487151 / 16 + 3611171 / 512) 16 12800001 (12800001 / 128) (by norm_num)
    (by norm_num [abs_of_pos]) (by norm_num [abs_of_pos]) (by norm_num) (by norm_num)
    (by norm_num)

theorem time_frac_binary32_sample :
    time_frac ieeeRounding 507820912699 = 2366617 / 33554432 := by
  have hden : (kOneHourInNsec * kTimeStep : Int) = 7200000000000 := rfl
  unfold time_frac Rounding.div Rounding.ofInt
  rw [hden]
  show roundF32 (roundF32 ((507820912699 : Int) : ℚ) / roundF32 ((7200000000000 : Int) : ℚ)) = _
  rw [Int.cast_ofNat, Int.cast_ofNat, roundF32_two_hours, roundF32_sample_time,
    roundF32_sample_frac]

/-- In binary32 the interpolation between 100000 and 100000 at the sample `time_frac` is
100000.0078125. -/
theorem interpolate_binary32_sample :
    interpolate ieeeRounding 100000 100000 (2366617 / 33554432) = 12800001 / 128 := by
  unfold interpolate Rounding.add Rounding.mul Rounding.sub Rounding.ofInt
  show roundF32 (roundF32 (100000 * roundF32 (roundF32 ((1 : Int) : ℚ) - 2366617 / 33554432))
    + roundF32 (100000 * (2366617 / 33554432))) = _
  rw [Int.cast_one, roundF32_one, roundF32_sample_rest, roundF32_sample_left,
    roundF32_sample_right, roundF32_sample_sum]

/-- Two departures from exact arithmetic in IEEE 754 binary32: at hour 1 and offset 3599999999999
ns (one nanosecond before the end of the hour) `time_frac` is exactly 1; and at hour 8 and offset
507820912699 ns, between two buckets that both hold 100000 lux, the sun illuminance is
100000.0078125. -/
theorem binary32_interpolation_overshoots :
    (3599999999999 : Int) < kOneHourInNsec ∧
    (∃ il, illumination ieeeRounding 1 3599999999999 = some il ∧ il.time_frac = 1) ∧
    (∃ il, illumination ieeeRounding 8 507820912699 = some il ∧
      readTable (kSunlight ieeeRounding) il.time_idx = some 100000 ∧
      readTable (kSunlight ieeeRounding) il.next_time_idx = some 100000 ∧
      il.sun_lux = 12800001 / 128 ∧ max (100000 : ℚ) 100000 < 12800001 / 128) := by
  have hS4 : (kSunlight ieeeRounding).getD 4 0 = 100000 := by
    show roundF32 ((100000 : Int) : ℚ) = 100000
    rw [Int.cast_ofNat, roundF32_hundred_thousand]
  have hS5 : (kSunlight ieeeRounding).getD 5 0 = 100000 := by
    show roundF32 ((100000 : Int) : ℚ) = 100000
    rw [Int.cast_ofNat, roundF32_hundred_thousand]
  refine ⟨by decide, ⟨_, illumination_eq ieeeRounding 1 3599999999999 (by decide), ?_⟩,
    ⟨_, illumination_eq ieeeRounding 8 507820912699 (by decide), ?_, ?_, ?_, by norm_num⟩⟩
  · show time_frac ieeeRounding 7199999999999 = 1
    exact time_frac_binary32_one
  · show readTable (kSunlight ieeeRounding) (time_idx 8) = _
    rw [readTable_some _ _ (by decide) (by decide)]
    exact congrArg some hS4
  · show readTable (kSunlight ieeeRounding) (next_time_idx 8) = _
    rw [readTable_some _ _ (by decide) (by decide)]
    exact congrArg some hS5
  · show interpolate ieeeRounding ((kSunlight ieeeRounding).getD 4 0)
      ((kSunlight ieeeRounding).getD 5 0) (time_frac ieeeRounding 507820912699) = _
    rw [hS4, hS5, time_frac_binary32_sample, interpolate_binary32_sample]

/-! ## C11: the handshake divider -/

theorem sceneAfter_handshake_x (fm : FloatModel) (hd : Header) (s : Scene) (il : Illumination)
    (d : Int) :
    (sceneAfter fm hd s il d).handshake_x_ =
      handshake fm (kHorizShakeFreq1 fm.toRounding) (kHorizShakeFreq2 fm.toRounding)
        il.time_since_idx s.map_div_ d := by
  simp only [sceneAfter, SetReadoutPixel]

theorem sceneAfter_handshake_y (fm : FloatModel) (hd : Header) (s : Scene) (il : Illumination)
    (d : Int) :
    (sceneAfter fm hd s il d).handshake_y_ =
      handshake fm (kVertShakeFreq1 fm.toRounding) (kVertShakeFreq2 fm.toRounding)
        il.time_since_idx s.map_div_ d := by
  simp only [sceneAfter, SetReadoutPixel]

theorem handshake_pos (fm : FloatModel) (f1 f2 : ℚ) (tsi md d : Int) (hd : 0 < d) :
    handshake fm f1 f2 tsi md d = fm.div (handshake fm f1 f2 tsi md 0) (fm.ofInt d) := by
  unfold handshake
  simp only [gt_iff_lt, if_pos hd, lt_self_iff_false, if_false]

theorem handshake_nonpos (fm : FloatModel) (f1 f2 : ℚ) (tsi md d : Int) (hd : d ≤ 0) :
    handshake fm f1 f2 tsi md d = handshake fm f1 f2 tsi md 0 := by
  unfold handshake
  simp only [gt_iff_lt, if_neg (not_lt.mpr hd), lt_self_iff_false, if_false]

/-- C11.  Without a live source, for every configuration, time and handshake divider `d`:
`CalculateScene` returns for `d` and for 0 when the hour is in 0..23 and nothing overflows, and
whenever both calls return, for `d > 0` each of the two handshake offsets of the call with `d` is
the offset of the call with 0 divided by `d` (the division `handshake_x_ /= handshake_divider` of
the code, on `float`; in exact arithmetic the quotient itself), and for `d ≤ 0` it is the offset
of the call with 0. -/
theorem handshake_divider_scales (fm : FloatModel) (hd : Header) (s : Scene) (time d : Int) :
    (InRange s.hour_ time →
      (-2147483648 ≤ signedOrientation s ∧ signedOrientation s < 2147483648) →
      ∃ sd s0, CalculateScene fm hd none s time d = some sd ∧
        CalculateScene fm hd none s time 0 = some s0) ∧
    ∀ sd s0, CalculateScene fm hd none s time d = some sd →
      CalculateScene fm hd none s time 0 = some s0 →
      (0 < d → sd.handshake_x_ = fm.div s0.handshake_x_ (fm.ofInt d) ∧
        sd.handshake_y_ = fm.div s0.handshake_y_ (fm.ofInt d)) ∧
      (0 < d → fm.toRounding = exactRounding →
        sd.handshake_x_ = s0.handshake_x_ / d ∧ sd.handshake_y_ = s0.handshake_y_ / d) ∧
      (d ≤ 0 → sd.handshake_x_ = s0.handshake_x_ ∧ sd.handshake_y_ = s0.handshake_y_) := by
  constructor
  · intro hr ho
    obtain ⟨il, -, h1⟩ := CalculateScene_none_eq fm hd s time d hr ho
    obtain ⟨il0, -, h0⟩ := CalculateScene_none_eq fm hd s time 0 hr ho
    exact ⟨_, _, h1, h0⟩
  · intro sd s0 h1 h0
    obtain ⟨il, hil, -, rfl⟩ := CalculateScene_none_inv fm hd s sd time d h1
    obtain ⟨il0, hil0, -, rfl⟩ := CalculateScene_none_inv fm hd s s0 time 0 h0
    have e : il0 = il := Option.some.inj (hil0.symm.trans hil)
    subst e
    simp only [sceneAfter_handshake_x, sceneAfter_handshake_y]
    refine ⟨fun hpos => ⟨handshake_pos fm _ _ _ _ d hpos, handshake_pos fm _ _ _ _ d hpos⟩,
      fun hpos he => ?_,
      fun hle => ⟨handshake_nonpos fm _ _ _ _ d hle, handshake_nonpos fm _ _ _ _ d hle⟩⟩
    rw [handshake_pos fm _ _ _ _ d hpos, handshake_pos fm _ _ _ _ d hpos]
    unfold Rounding.div Rounding.ofInt
    rw [he]
    exact ⟨rfl, rfl⟩

theorem handshake_divider_scales_witness :
    ∃ sd s0, CalculateScene (exactArith id) sampleHeader none sampleScene 1000000 3 = some sd ∧
      CalculateScene (exactArith id) sampleHeader none sampleScene 1000000 0 = some s0 ∧
      sd.handshake_x_ = s0.handshake_x_ / 3 ∧ sd.handshake_y_ = s0.handshake_y_ / 3 := by
  obtain ⟨h1, h2⟩ := handshake_divider_scales (exactArith id) sampleHeader sampleScene 1000000 3
  obtain ⟨sd, s0, hsd, hs0⟩ := h1 (by rw [sampleScene_hour]; unfold InRange kOneHourInNsec; omega)
    (by rw [sampleScene_signedOrientation]; omega)
  obtain ⟨-, hq, -⟩ := h2 sd s0 hsd hs0
  exact ⟨sd, s0, hsd, hs0, by exact_mod_cast hq (by norm_num) rfl⟩

/-! ## C12, C13: the entries of the colour table -/

theorem storeMaterial_length (fm : Rounding) (hd : Header) (s : Scene) (il : Illumination)
    (T : List ℚ) (i : Nat) : (storeMaterial fm hd s il T i).length = T.length := by
  simp only [storeMaterial, List.length_set]

theorem colorFold_length (fm : Rounding) (hd : Header) (s : Scene) (il : Illumination)
    (l : List Nat) (T : List ℚ) : (l.foldl (storeMaterial fm hd s il) T).length = T.length := by
  induction l generalizing T with
  | nil => rfl
  | cons i l ih => rw [List.foldl_cons, ih, storeMaterial_length]

/-- An iteration leaves every entry outside its four stores as it was. -/
theorem storeMaterial_getElem?_other (fm : Rounding) (hd : Header) (s : Scene)
    (il : Illumination) (T : List ℚ) (i k : Nat)
    (h0 : k ≠ i * hd.NUM_CHANNELS + 0) (h1 : k ≠ i * hd.NUM_CHANNELS + 1)
    (h2 : k ≠ i * hd.NUM_CHANNELS + 2) (h3 : k ≠ i * hd.NUM_CHANNELS + 3) :
    (storeMaterial fm hd s il T i)[k]? = T[k]? := by
  unfold storeMaterial
  rw [List.getElem?_set, if_neg (Ne.symm h3), List.getElem?_set, if_neg (Ne.symm h2),
    List.getElem?_set, if_neg (Ne.symm h1), List.getElem?_set, if_neg (Ne.symm h0)]

/-- An iteration stores the count of its material at each of the offsets 0, 1, 2, 3. -/
theorem storeMaterial_getElem?_chan (fm : Rounding) (hd : Header) (s : Scene)
    (il : Illumination) (T : List ℚ) (i c : Nat) (hc : c < 4)
    (hlt : i * hd.NUM_CHANNELS + c < T.length) :
    (storeMaterial fm hd s il T i)[i * hd.NUM_CHANNELS + c]? = some (storedCount fm hd s il i c) := by
  unfold storeMaterial storedCount
  interval_cases c
  · rw [List.getElem?_set, if_neg (by omega), List.getElem?_set, if_neg (by omega),
      List.getElem?_set, if_neg (by omega), List.getElem?_set, if_pos rfl, if_pos hlt]
    rfl
  · rw [List.getElem?_set, if_neg (by omega), List.getElem?_set, if_neg (by omega),
      List.getElem?_set, if_pos rfl, if_pos (by simpa only [List.length_set] using hlt)]
    rfl
  · rw [List.getElem?_set, if_neg (by omega), List.getElem?_set, if_pos rfl,
      if_pos (by simpa only [List.length_set] using hlt)]
    rfl
  · rw [List.getElem?_set, if_pos rfl, if_pos (by simpa only [List.length_set] using hlt)]
    rfl

/-- After the first `n` iterations of the loop of line 273, with rows of at least four entries,
the entry of material `i < n` and channel `c < 4` is the count stored for it. -/
theorem colorFold_getElem? (fm : Rounding) (hd : Header) (s : Scene) (il : Illumination)
    (hNC : 4 ≤ hd.NUM_CHANNELS) (n : Nat) (T : List ℚ) (i c : Nat) (hi : i < n) (hc : c < 4)
    (hlt : i * hd.NUM_CHANNELS + c < T.length) :
    ((List.range n).foldl (storeMaterial fm hd s il) T)[i * hd.NUM_CHANNELS + c]?
      = some (storedCount fm hd s il i c) := by
  induction n with
  | zero => omega
  | succ n ih =>
    rw [List.range_succ, List.foldl_append, List.foldl_cons, List.foldl_nil]
    by_cases hin : i = n
    · subst hin
      exact storeMaterial_getElem?_chan fm hd s il _ i c hc (by rwa [colorFold_length])
    · have hlt' : i < n := by omega
      have hrow : (i + 1) * hd.NUM_CHANNELS ≤ n * hd.NUM_CHANNELS :=
        Nat.mul_le_mul_right _ hlt'
      rw [Nat.succ_mul] at hrow
      rw [storeMaterial_getElem?_other fm hd s il _ n _ (by omega) (by omega) (by omega)
        (by omega)]
      exact ih hlt'

theorem calculateColors_getElem? (fm : Rounding) (hd : Header) (s : Scene) (il : Illumination)
    (hNC : 4 ≤ hd.NUM_CHANNELS)
    (hl : NUM_MATERIALS * hd.NUM_CHANNELS ≤ s.current_colors_.length) (i c : Nat)
    (hi : i < NUM_MATERIALS) (hc : c < 4) :
    (calculateColors fm hd s il)[i * hd.NUM_CHANNELS + c]? = some (storedCount fm hd s il i c) := by
  unfold calculateColors colorLoop
  apply colorFold_getElem? fm hd s il hNC NUM_MATERIALS _ i c hi hc
  have hrow : (i + 1) * hd.NUM_CHANNELS ≤ NUM_MATERIALS * hd.NUM_CHANNELS :=
    Nat.mul_le_mul_right _ hi
  rw [Nat.succ_mul] at hrow
  omega

theorem sceneAfter_current_colors (fm : FloatModel) (hd : Header) (s : Scene)
    (il : Illumination) (d : Int) :
    (sceneAfter fm hd s il d).current_colors_ = calculateColors fm.toRounding hd s il := by
  simp only [sceneAfter, SetReadoutPixel]

theorem selfLit_iff (i : Nat) (hi : i < NUM_MATERIALS) :
    kMaterialsFlags.getD i 0 = kSelfLit ↔ i = 7 ∨ i = 8 ∨ i = 10 := by
  unfold NUM_MATERIALS at hi
  interval_cases i <;> decide

/-- A self-lit material is left unscaled: its XYZ does not depend on the illumination. -/
theorem mat_xyz_selfLit (fm : Rounding) (il il' : Illumination) (i : Nat)
    (h : kMaterialsFlags.getD i 0 = kSelfLit) : mat_xyz fm il i = mat_xyz fm il' i := by
  unfold mat_xyz
  simp only [h]
  rw [if_neg (by decide), if_neg (by decide), if_neg (by decide), if_neg (by decide)]

theorem storedCount_congr (fm : Rounding) (hd : Header) (s1 s2 : Scene) (il1 il2 : Illumination)
    (i c : Nat) (hm : mat_xyz fm il1 i = mat_xyz fm il2 i)
    (hfr : s2.filter_r_ = s1.filter_r_) (hfgr : s2.filter_gr_ = s1.filter_gr_)
    (hfgb : s2.filter_gb_ = s1.filter_gb_) (hfb : s2.filter_b_ = s1.filter_b_)
    (hs : s2.sensor_sensitivity_ = s1.sensor_sensitivity_)
    (he : s2.exposure_duration_ = s1.exposure_duration_) :
    storedCount fm hd s2 il2 i c = storedCount fm hd s1 il1 i c := by
  have hf : channelFilter s2 c = channelFilter s1 c := by
    unfold channelFilter
    split <;> assumption
  unfold storedCount lux_to_electrons
  rw [hm, hf, hs, he]

/-- C12.  Take two runs of `CalculateScene` without a live source, on scenes that share the four
filters, the sensitivity and the exposure duration and may differ in everything else (hour, time,
handshake divider).  The self-lit materials, those whose flag is `kSelfLit`, are the materials
7, 8 and 10 (WINDOW, SUN, MOON), and for each of them and each of the four channels the two runs
store the same value in the colour table.  The rows of the table have at least four entries and
the table holds `NUM_MATERIALS` rows. -/
theorem selfLit_counts_independent (fm : FloatModel) (hd : Header) (s1 s2 s1' s2' : Scene)
    (t1 t2 d1 d2 : Int) (hNC : 4 ≤ hd.NUM_CHANNELS)
    (hl1 : NUM_MATERIALS * hd.NUM_CHANNELS ≤ s1.current_colors_.length)
    (hl2 : NUM_MATERIALS * hd.NUM_CHANNELS ≤ s2.current_colors_.length)
    (hfr : s2.filter_r_ = s1.filter_r_) (hfgr : s2.filter_gr_ = s1.filter_gr_)
    (hfgb : s2.filter_gb_ = s1.filter_gb_) (hfb : s2.filter_b_ = s1.filter_b_)
    (hs : s2.sensor_sensitivity_ = s1.sensor_sensitivity_)
    (he : s2.exposure_duration_ = s1.exposure_duration_)
    (h1 : CalculateScene fm hd none s1 t1 d1 = some s1')
    (h2 : CalculateScene fm hd none s2 t2 d2 = some s2') :
    (∀ i, i < NUM_MATERIALS → (kMaterialsFlags.getD i 0 = kSelfLit ↔ i = 7 ∨ i = 8 ∨ i = 10)) ∧
    ∀ i c, i < NUM_MATERIALS → kMaterialsFlags.getD i 0 = kSelfLit → c < 4 →
      ∃ v, s1'.current_colors_[i * hd.NUM_CHANNELS + c]? = some v ∧
        s2'.current_colors_[i * hd.NUM_CHANNELS + c]? = some v := by
  refine ⟨selfLit_iff, ?_⟩
  intro i c hi hflag hc
  obtain ⟨il1, -, -, rfl⟩ := CalculateScene_none_inv fm hd s1 s1' t1 d1 h1
  obtain ⟨il2, -, -, rfl⟩ := CalculateScene_none_inv fm hd s2 s2' t2 d2 h2
  refine ⟨storedCount fm.toRounding hd s1 il1 i c, ?_, ?_⟩
  · rw [sceneAfter_current_colors]
    exact calculateColors_getElem? fm.toRounding hd s1 il1 hNC hl1 i c hi hc
  · rw [sceneAfter_current_colors, calculateColors_getElem? fm.toRounding hd s2 il2 hNC hl2 i c hi hc,
      storedCount_congr fm.toRounding hd s1 s2 il1 il2 i c
        (mat_xyz_selfLit fm.toRounding il1 il2 i hflag) hfr hfgr hfgb hfb hs he]

theorem sampleScene_table : sampleScene.current_colors_.length = 44 := rfl

theorem sampleScene_at_three :
    (SetHour sampleScene 3).hour_ = 3 ∧ signedOrientation (SetHour sampleScene 3) = 90 ∧
      (SetHour sampleScene 3).current_colors_.length = 44 :=
  ⟨rfl, rfl, rfl⟩

theorem selfLit_counts_independent_witness :
    ∃ s1' s2', CalculateScene (exactArith id) sampleHeader none sampleScene 0 0 = some s1' ∧
      CalculateScene (exactArith id) sampleHeader none (SetHour sampleScene 3)
        1000000000 2 = some s2' ∧
      ∀ i c, i < NUM_MATERIALS → kMaterialsFlags.getD i 0 = kSelfLit → c < 4 →
        ∃ v, s1'.current_colors_[i * sampleHeader.NUM_CHANNELS + c]? = some v ∧
          s2'.current_colors_[i * sampleHeader.NUM_CHANNELS + c]? = some v := by
  obtain ⟨il1, -, h1⟩ := CalculateScene_none_eq (exactArith id) sampleHeader sampleScene 0 0
    (by rw [sampleScene_hour]; unfold InRange kOneHourInNsec; omega)
    (by rw [sampleScene_signedOrientation]; omega)
  obtain ⟨il2, -, h2⟩ := CalculateScene_none_eq (exactArith id) sampleHeader
    (SetHour sampleScene 3) 1000000000 2
    (by rw [sampleScene_at_three.1]; unfold InRange kOneHourInNsec; omega)
    (by rw [sampleScene_at_three.2.1]; omega)
  exact ⟨_, _, h1, h2,
    (selfLit_counts_independent (exactArith id) sampleHeader sampleScene
      (SetHour sampleScene 3) _ _ 0 1000000000 0 2 (by decide)
      (by rw [sampleScene_table]; decide) (by rw [sampleScene_at_three.2.2]; decide)
      rfl rfl rfl rfl rfl rfl h1 h2).2⟩

theorem channelFilter_congr (s1 s2 : Scene) (c : Nat)
    (hfr : s2.filter_r_ = s1.filter_r_) (hfgr : s2.filter_gr_ = s1.filter_gr_)
    (hfgb : s2.filter_gb_ = s1.filter_gb_) (hfb : s2.filter_b_ = s1.filter_b_) :
    channelFilter s2 c = channelFilter s1 c := by
  unfold channelFilter
  split <;> assumption

theorem storedCount_eq (fm : Rounding) (hd : Header) (s : Scene) (il : Illumination) (i c : Nat) :
    storedCount fm hd s il i c = hd.storeColor (floatCount fm s il i c) :=
  rfl

/-- In exact arithmetic, scaling the product of sensitivity and exposure duration by `k` scales
the value computed for the store by `k`. -/
theorem floatCount_scale (s sk : Scene) (il : Illumination) (i c : Nat) (k : ℚ)
    (hfr : sk.filter_r_ = s.filter_r_) (hfgr : sk.filter_gr_ = s.filter_gr_)
    (hfgb : sk.filter_gb_ = s.filter_gb_) (hfb : sk.filter_b_ = s.filter_b_)
    (hprod : sk.sensor_sensitivity_ * sk.exposure_duration_
      = k * (s.sensor_sensitivity_ * s.exposure_duration_)) :
    floatCount exactRounding sk il i c = k * floatCount exactRounding s il i c := by
  unfold floatCount channel lux_to_electrons Rounding.mul Rounding.add Rounding.div
  rw [channelFilter_congr s sk c hfr hfgr hfgb hfb]
  simp only [exactRounding, id]
  rw [hprod]
  ring

/-- C13 (amended).  Without a live source, with rows of at least four entries in a table of
`NUM_MATERIALS` rows, whenever `CalculateScene` returns: for every material `i` and channel `c`
the `float` value `floatCount` computed for the store is the projection of the illuminated XYZ of
the material through the filter of the channel, multiplied by `sensor_sensitivity_ *
exposure_duration_ / (kAperture * kAperture)`, each operation on `float`, and the entry stored is
its conversion `storeColor` to the element type of the table.  In exact arithmetic, the same call
after the exposure duration has been multiplied by `k`, or after the sensitivity has been
multiplied by `k`, returns as well, the value computed for the store is `k` times the former one,
and the entry stored is the conversion of that product. -/
theorem electron_count_scales (fm : FloatModel) (hd : Header) (s s' : Scene) (time d : Int)
    (hNC : 4 ≤ hd.NUM_CHANNELS)
    (hl : NUM_MATERIALS * hd.NUM_CHANNELS ≤ s.current_colors_.length)
    (h : CalculateScene fm hd none s time d = some s') :
    ∃ il, illumination fm.toRounding s.hour_ time = some il ∧
      (∀ i c, i < NUM_MATERIALS → c < 4 →
        floatCount fm.toRounding s il i c
          = fm.mul
            (fm.add
              (fm.add (fm.mul (channelFilter s c).e0 (mat_xyz fm.toRounding il i).e0)
                (fm.mul (channelFilter s c).e1 (mat_xyz fm.toRounding il i).e1))
              (fm.mul (channelFilter s c).e2 (mat_xyz fm.toRounding il i).e2))
            (fm.div (fm.mul s.sensor_sensitivity_ s.exposure_duration_)
              (fm.mul (kAperture fm.toRounding) (kAperture fm.toRounding))) ∧
        s'.current_colors_[i * hd.NUM_CHANNELS + c]?
          = some (hd.storeColor (floatCount fm.toRounding s il i c))) ∧
      (fm.toRounding = exactRounding → ∀ k : ℚ,
        (∃ sk, CalculateScene fm hd none (SetExposureDuration s (k * s.exposure_duration_))
            time d = some sk ∧
          ∀ i c, i < NUM_MATERIALS → c < 4 →
            floatCount fm.toRounding (SetExposureDuration s (k * s.exposure_duration_)) il i c
              = k * floatCount fm.toRounding s il i c ∧
            sk.current_colors_[i * hd.NUM_CHANNELS + c]?
              = some (hd.storeColor (k * floatCount fm.toRounding s il i c))) ∧
        (∃ sk, CalculateScene fm hd none
            { s with sensor_sensitivity_ := k * s.sensor_sensitivity_ } time d = some sk ∧
          ∀ i c, i < NUM_MATERIALS → c < 4 →
            floatCount fm.toRounding { s with sensor_sensitivity_ := k * s.sensor_sensitivity_ }
                il i c
              = k * floatCount fm.toRounding s il i c ∧
            sk.current_colors_[i * hd.NUM_CHANNELS + c]?
              = some (hd.storeColor (k * floatCount fm.toRounding s il i c)))) := by
  obtain ⟨il, hil, ho, rfl⟩ := CalculateScene_none_inv fm hd s s' time d h
  have hentry : ∀ (t : Scene), t.current_colors_ = s.current_colors_ → ∀ i c,
      i < NUM_MATERIALS → c < 4 →
      (sceneAfter fm hd t il d).current_colors_[i * hd.NUM_CHANNELS + c]?
        = some (hd.storeColor (floatCount fm.toRounding t il i c)) := by
    intro t ht i c hi hc
    rw [sceneAfter_current_colors]
    exact calculateColors_getElem? fm.toRounding hd t il hNC (by rw [ht]; exact hl) i c hi hc
  refine ⟨il, hil, fun i c hi hc => ⟨rfl, hentry s rfl i c hi hc⟩, ?_⟩
  intro hex k
  constructor
  · refine ⟨_, CalculateScene_none_of fm hd (SetExposureDuration s (k * s.exposure_duration_))
      time d il hil ho, ?_⟩
    intro i c hi hc
    have hsc : floatCount fm.toRounding (SetExposureDuration s (k * s.exposure_duration_)) il i c
        = k * floatCount fm.toRounding s il i c := by
      rw [hex]
      exact floatCount_scale s _ il i c k rfl rfl rfl rfl
        (by simp only [SetExposureDuration]; ring)
    refine ⟨hsc, ?_⟩
    rw [hentry (SetExposureDuration s (k * s.exposure_duration_)) rfl i c hi hc, hsc]
  · refine ⟨_, CalculateScene_none_of fm hd
      { s with sensor_sensitivity_ := k * s.sensor_sensitivity_ } time d il hil ho, ?_⟩
    intro i c hi hc
    have hsc : floatCount fm.toRounding { s with sensor_sensitivity_ := k * s.sensor_sensitivity_ }
        il i c = k * floatCount fm.toRounding s il i c := by
      rw [hex]
      exact floatCount_scale s _ il i c k rfl rfl rfl rfl (by simp only; ring)
    refine ⟨hsc, ?_⟩
    rw [hentry { s with sensor_sensitivity_ := k * s.sensor_sensitivity_ } rfl i c hi hc, hsc]

theorem electron_count_scales_witness :
    ∃ s' il, CalculateScene (exactArith id) integerHeader none sampleScene 0 0 = some s' ∧
      illumination exactRounding sampleScene.hour_ 0 = some il ∧
      ∃ sk, CalculateScene (exactArith id) integerHeader none
          (SetExposureDuration sampleScene (2 * sampleScene.exposure_duration_)) 0 0 = some sk ∧
        ∀ i c, i < NUM_MATERIALS → c < 4 →
          s'.current_colors_[i * integerHeader.NUM_CHANNELS + c]?
            = some (truncStore (floatCount exactRounding sampleScene il i c)) ∧
          sk.current_colors_[i * integerHeader.NUM_CHANNELS + c]?
            = some (truncStore (2 * floatCount exactRounding sampleScene il i c)) := by
  obtain ⟨il1, -, h1⟩ := CalculateScene_none_eq (exactArith id) integerHeader sampleScene 0 0
    (by rw [sampleScene_hour]; unfold InRange kOneHourInNsec; omega)
    (by rw [sampleScene_signedOrientation]; omega)
  obtain ⟨il, hil, hent, hk⟩ := electron_count_scales (exactArith id) integerHeader sampleScene
    _ 0 0 (by decide) (by rw [sampleScene_table]; decide) h1
  obtain ⟨sk, hsk, hs⟩ := (hk rfl 2).1
  exact ⟨_, il, h1, hil, sk, hsk, fun i c hi hc => ⟨(hent i c hi hc).2, (hs i c hi hc).2⟩⟩

/-! ## C14, C15: the setters of the hour and of the test-pattern data -/

/-- What `SetHour` stores: the remainder of the truncating division by 24, which has the sign
of `hour`. -/
theorem getHour_setHour (s : Scene) (hour : Int) :
    GetHour (SetHour s hour) = Int.tmod hour 24 ∧
    (0 ≤ hour → GetHour (SetHour s hour) = hour % 24 ∧ 0 ≤ GetHour (SetHour s hour) ∧
      GetHour (SetHour s hour) < 24) ∧
    (hour < 0 → GetHour (SetHour s hour) = -((-hour) % 24) ∧ GetHour (SetHour s hour) ≤ 0) := by
  refine ⟨rfl, fun h => ?_, fun h => ?_⟩
  · show Int.tmod hour 24 = hour % 24 ∧ 0 ≤ Int.tmod hour 24 ∧ Int.tmod hour 24 < 24
    rw [Int.tmod_eq_emod h (by norm_num)]
    omega
  · show Int.tmod hour 24 = -((-hour) % 24) ∧ Int.tmod hour 24 ≤ 0
    have h2 : Int.tmod hour 24 = -Int.tmod (-hour) 24 := by
      rw [Int.tmod_def, Int.tmod_def, Int.neg_tdiv]
      ring
    rw [h2, Int.tmod_eq_emod (by omega) (by norm_num)]
    omega

/-- A call of `CalculateScene` without a live source that returns has read `kSunlight[time_idx]`
inside the table. -/
theorem CalculateScene_reads_table (fm : FloatModel) (hd : Header) (s s' : Scene) (time d : Int)
    (h : CalculateScene fm hd none s time d = some s') :
    ∃ a, readTable (kSunlight fm.toRounding) (time_idx s.hour_) = some a := by
  obtain ⟨il, hil, -, -⟩ := CalculateScene_none_inv fm hd s s' time d h
  unfold illumination at hil
  cases h1 : time_since_idx s.hour_ time with
  | none => simp [h1] at hil
  | some tsi =>
    cases h2 : readTable (kSunlight fm.toRounding) (time_idx s.hour_) with
    | none => simp [h1, h2] at hil
    | some a => exact ⟨a, rfl⟩

/-- C14 (failing input).  After `SetHour(-1)`, `GetHour` returns -1, which is not in 0..23 and
is not the hour wrapped modulo 24, namely 23.  After `SetHour(-2)` the stored hour is -2 and
`CalculateScene` reads `kSunlight[-1]`, outside the table. -/
theorem setHour_negative :
    GetHour (SetHour sampleScene (-1)) = -1 ∧ ¬ (0 ≤ GetHour (SetHour sampleScene (-1))) ∧
    (-1 : Int) % 24 = 23 ∧
    GetHour (SetHour sampleScene (-2)) = -2 ∧ time_idx (GetHour (SetHour sampleScene (-2))) = -1 ∧
    CalculateScene (exactArith id) sampleHeader none (SetHour sampleScene (-2)) 0 0 = none := by
  refine ⟨rfl, by decide, by decide, rfl, by decide, ?_⟩
  cases h : CalculateScene (exactArith id) sampleHeader none (SetHour sampleScene (-2)) 0 0 with
  | none => rfl
  | some s' =>
    obtain ⟨a, ha⟩ := CalculateScene_reads_table _ _ _ _ _ _ h
    have h1 : (SetHour sampleScene (-2)).hour_ = -2 := rfl
    rw [h1] at ha
    unfold readTable at ha
    rw [if_neg (by decide)] at ha
    exact absurd ha (by simp)

theorem bytesWords_wordBytes (w : Nat) (rest : List Nat) (hw : w < 4294967296) :
    bytesWords (wordBytes w ++ rest) = w :: bytesWords rest := by
  unfold wordBytes
  simp only [List.cons_append, List.nil_append, bytesWords]
  congr 1
  omega

/-- What `SetTestPatternData` stores: the first word of `data`, followed by the three words the
array held before. -/
theorem setTestPatternData_first_word (s : Scene) (d0 d1 d2 d3 t0 t1 t2 t3 : Nat)
    (hd0 : d0 < 4294967296) (ht1 : t1 < 4294967296) (ht2 : t2 < 4294967296)
    (ht3 : t3 < 4294967296) (hs : s.test_pattern_data_ = [t0, t1, t2, t3]) :
    (SetTestPatternData s [d0, d1, d2, d3]).test_pattern_data_ = [d0, t1, t2, t3] := by
  have e : memcpy (wordsBytes [t0, t1, t2, t3]) (wordsBytes [d0, d1, d2, d3]) 4
      = wordBytes d0 ++ (wordBytes t1 ++ (wordBytes t2 ++ (wordBytes t3 ++ []))) := by
    simp [memcpy, wordsBytes, wordBytes]
  show bytesWords (memcpy (wordsBytes s.test_pattern_data_) (wordsBytes [d0, d1, d2, d3]) 4) = _
  rw [hs, e, bytesWords_wordBytes _ _ hd0, bytesWords_wordBytes _ _ ht1,
    bytesWords_wordBytes _ _ ht2, bytesWords_wordBytes _ _ ht3]
  rfl

/-- C15 (failing input).  The sample scene holds the test-pattern data 0, 0, 0, 0.  After
`SetTestPatternData` with the payload 1, 2, 3, 4 it holds 1, 0, 0, 0: the `memcpy` of line 138
copies 4 bytes, one word, not the four words of the payload. -/
theorem setTestPatternData_copies_four_bytes :
    sampleScene.test_pattern_data_ = [0, 0, 0, 0] ∧
    (SetTestPatternData sampleScene [1, 2, 3, 4]).test_pattern_data_ = [1, 0, 0, 0] ∧
    (SetTestPatternData sampleScene [1, 2, 3, 4]).test_pattern_data_ ≠ [1, 2, 3, 4] := by
  have h : (SetTestPatternData sampleScene [1, 2, 3, 4]).test_pattern_data_ = [1, 0, 0, 0] :=
    setTestPatternData_first_word sampleScene 1 2 3 4 0 0 0 0 (by norm_num) (by norm_num)
      (by norm_num) (by norm_num) rfl
  refine ⟨rfl, h, ?_⟩
  rw [h]
  decide

/-! ## C17: the shaded illumination -/

/-- C17 (amended).  For every rounding behaviour, every hour in 0..23 and every time in range,
`shade_illum_xyz` is the starlight triple plus one sun term and one moon term, added in this
order.  The sun term is the direct triple `sun_xyz` when `hour < kSunOverhead` and the shaded
triple `sun_shade_xyz` otherwise; the moon term is the direct triple `moon_xyz` when
`(hour + 12) mod 24 < (kMoonOverhead + 12) mod 24` and the shaded triple `moon_shade_xyz`
otherwise.  The first condition holds exactly when the second fails, so exactly one of the two
bodies contributes its shaded triple. -/
theorem shade_illum_terms (fm : Rounding) (h t : Int) (hr : InRange h t) :
    ∃ il, illumination fm h t = some il ∧
      il.shade_illum_xyz =
        ⟨fm.add (fm.add il.kClearNightXYZ.e0 (if h < kSunOverhead then il.sun_xyz else il.sun_shade_xyz).e0)
            (if (h + 12) % 24 < (kMoonOverhead + 12) % 24 then il.moon_xyz
              else il.moon_shade_xyz).e0,
          fm.add (fm.add il.kClearNightXYZ.e1 (if h < kSunOverhead then il.sun_xyz else il.sun_shade_xyz).e1)
            (if (h + 12) % 24 < (kMoonOverhead + 12) % 24 then il.moon_xyz
              else il.moon_shade_xyz).e1,
          fm.add (fm.add il.kClearNightXYZ.e2 (if h < kSunOverhead then il.sun_xyz else il.sun_shade_xyz).e2)
            (if (h + 12) % 24 < (kMoonOverhead + 12) % 24 then il.moon_xyz
              else il.moon_shade_xyz).e2⟩ ∧
      (h < kSunOverhead ↔ ¬ (h + 12) % 24 < (kMoonOverhead + 12) % 24) := by
  have h0 := hr.1
  have h1 := hr.2.1
  refine ⟨_, illumination_eq fm h t hr, ?_, ?_⟩
  · have e1 : Int.tmod (h + 12) 24 = (h + 12) % 24 := Int.tmod_eq_emod (by omega) (by norm_num)
    have e2 : Int.tmod (kMoonOverhead + 12) 24 = (kMoonOverhead + 12) % 24 := by decide
    simp only [illuminate, e1, e2]
  · unfold kSunOverhead kMoonOverhead
    omega

theorem shade_illum_terms_witness :
    ∃ il, illumination exactRounding 21 0 = some il ∧
      il.shade_illum_xyz =
        ⟨exactRounding.add (exactRounding.add il.kClearNightXYZ.e0
            (if (21 : Int) < kSunOverhead then il.sun_xyz else il.sun_shade_xyz).e0)
            (if ((21 : Int) + 12) % 24 < (kMoonOverhead + 12) % 24 then il.moon_xyz
              else il.moon_shade_xyz).e0,
          exactRounding.add (exactRounding.add il.kClearNightXYZ.e1
            (if (21 : Int) < kSunOverhead then il.sun_xyz else il.sun_shade_xyz).e1)
            (if ((21 : Int) + 12) % 24 < (kMoonOverhead + 12) % 24 then il.moon_xyz
              else il.moon_shade_xyz).e1,
          exactRounding.add (exactRounding.add il.kClearNightXYZ.e2
            (if (21 : Int) < kSunOverhead then il.sun_xyz else il.sun_shade_xyz).e2)
            (if ((21 : Int) + 12) % 24 < (kMoonOverhead + 12) % 24 then il.moon_xyz
              else il.moon_shade_xyz).e2⟩ ∧
      ((21 : Int) < kSunOverhead ↔ ¬ ((21 : Int) + 12) % 24 < (kMoonOverhead + 12) % 24) :=
  shade_illum_terms exactRounding 21 0 (by decide)

/-- The Y components of the illumination at 21 o'clock in exact arithmetic. -/
theorem illuminate_evening_exact :
    (illuminate exactRounding 21 3600000000000 4 0 0 1).kClearNightXYZ.e1 = 1 / 500 ∧
    (illuminate exactRounding 21 3600000000000 4 0 0 1).sun_xyz.e1 = 2 ∧
    (illuminate exactRounding 21 3600000000000 4 0 0 1).sun_shade_xyz.e1 = 2 / 5 ∧
    (illuminate exactRounding 21 3600000000000 4 0 0 1).moon_xyz.e1 = 1 / 2 ∧
    (illuminate exactRounding 21 3600000000000 4 0 0 1).moon_shade_xyz.e1 = 1 / 10 ∧
    (illuminate exactRounding 21 3600000000000 4 0 0 1).shade_illum_xyz.e1 = 451 / 500 := by
  have hs : ¬ ((21 : Int) < kSunOverhead) := by decide
  have hm : Int.tmod (21 + 12) 24 < Int.tmod (kMoonOverhead + 12) 24 := by decide
  have htf : time_frac exactRounding 3600000000000 = 1 / 2 := by
    rw [time_frac_exact]
    norm_num [kOneHourInNsec, kTimeStep]
  simp only [illuminate, xyY_to_XYZ, if_neg hs, if_pos hm, htf, interpolate_exact]
  simp only [kClearNightIllum, kDaylightShadeIllum, kDirectSunIllum, Rounding.litD,
    Rounding.ofInt, Rounding.add, Rounding.mul, Rounding.div, exactRounding, id]
  norm_num

/-! ## C18: the bytes read at a cursor inside the extents -/

theorem startPos_lt_of_le (W H x y : Nat) (hWH : W ≤ H) (hx : x < W) (hy : y < H) :
    54 + W * x * 3 + y + 2 < 54 + W * H * 3 := by
  obtain ⟨k, rfl⟩ := Nat.exists_eq_add_of_le hWH
  have h1 : W * (x + 1) ≤ W * W := Nat.mul_le_mul_left W hx
  have h2 : k ≤ W * k := Nat.le_mul_of_pos_left k (by omega)
  rw [Nat.mul_add, Nat.mul_one] at h1
  rw [Nat.mul_add]
  omega

theorem startPos_ge_of_lt (W H : Nat) (hWH : H < W) :
    54 + W * H * 3 ≤ 54 + W * (W - 1) * 3 + (H - 1) + 2 := by
  have h1 : W * H ≤ W * (W - 1) := Nat.mul_le_mul_left W (by omega)
  omega

/-- The condition on the header is needed.  For a scene of positive width and height, the three
byte indices `start_pos`, `start_pos + 1`, `start_pos + 2` with
`start_pos = 54 + kSceneWidth * x * 3 + y` lie inside the bitmap of
`54 + kSceneWidth * kSceneHeight * 3` bytes for every cursor with `x < kSceneWidth` and
`y < kSceneHeight` exactly when `kSceneWidth ≤ kSceneHeight`.  In that case, with a bitmap of its
declared size, below `2 ^ 31` bytes, `GetPixelElectrons` after `SetReadoutPixel(x, y)` returns,
having read the three bytes at these indices. -/
theorem readout_inside_bitmap (hd : Header) (hW : 0 < hd.kSceneWidth) (hH : 0 < hd.kSceneHeight) :
    ((∀ x y, x < hd.kSceneWidth → y < hd.kSceneHeight →
        startPos hd x y + 2 < sizeofkScene hd) ↔ hd.kSceneWidth ≤ hd.kSceneHeight) ∧
    (hd.kSceneWidth ≤ hd.kSceneHeight → ∀ (s : Scene) (x y : Nat),
      x < hd.kSceneWidth → y < hd.kSceneHeight → s.kScene.length = sizeofkScene hd →
      sizeofkScene hd < 2147483648 →
      ∃ s', GetPixelElectrons hd (SetReadoutPixel s x y) = some s' ∧
        s'.pixel = ((s.pixel.set hd.R (s.kScene.getD (startPos hd x y + 2) 0)).set hd.Gr
          (s.kScene.getD (startPos hd x y + 1) 0)).set hd.B (s.kScene.getD (startPos hd x y) 0)) := by
  constructor
  · constructor
    · intro h
      by_contra hlt
      have hlt' : hd.kSceneHeight < hd.kSceneWidth := Nat.lt_of_not_le hlt
      have := h (hd.kSceneWidth - 1) (hd.kSceneHeight - 1) (by omega) (by omega)
      have h2 := startPos_ge_of_lt hd.kSceneWidth hd.kSceneHeight hlt'
      unfold startPos sizeofkScene at this
      omega
    · intro hWH x y hx hy
      exact startPos_lt_of_le _ _ x y hWH hx hy
  · intro hWH s x y hx hy hlen hsz
    have hb : 54 + hd.kSceneWidth * x * 3 + y + 2 < s.kScene.length := by
      rw [hlen]
      exact startPos_lt_of_le _ _ x y hWH hx hy
    have hp := readPixel_eq hd s.kScene s.pixel x y hb (by rw [hlen]; exact hsz)
    refine ⟨{ SetReadoutPixel s x y with pixel := _ }, ?_, rfl⟩
    unfold GetPixelElectrons
    show Option.map _ (readPixel hd s.kScene s.pixel x y) = _
    rw [hp]
    rfl

theorem readout_inside_bitmap_witness :
    ((∀ x y, x < sampleHeader.kSceneWidth → y < sampleHeader.kSceneHeight →
        startPos sampleHeader x y + 2 < sizeofkScene sampleHeader) ↔
      sampleHeader.kSceneWidth ≤ sampleHeader.kSceneHeight) ∧
    (sampleHeader.kSceneWidth ≤ sampleHeader.kSceneHeight → ∀ (s : Scene) (x y : Nat),
      x < sampleHeader.kSceneWidth → y < sampleHeader.kSceneHeight →
      s.kScene.length = sizeofkScene sampleHeader → sizeofkScene sampleHeader < 2147483648 →
      ∃ s', GetPixelElectrons sampleHeader (SetReadoutPixel s x y) = some s' ∧
        s'.pixel = ((s.pixel.set sampleHeader.R (s.kScene.getD (startPos sampleHeader x y + 2) 0)).set
          sampleHeader.Gr (s.kScene.getD (startPos sampleHeader x y + 1) 0)).set sampleHeader.B
            (s.kScene.getD (startPos sampleHeader x y) 0)) :=
  readout_inside_bitmap sampleHeader (by decide) (by decide)

/-! ## C19: the direction flag of `InitiliazeSceneRotation` -/

/-- The samples of lines 361-366 are the first `W * H` bytes of `kScene` in reverse order. -/
theorem rot180Samples_eq_reverse (W H : Nat) (src : List Nat) (h : W * H ≤ src.length) :
    rot180Samples W H src = (src.take (W * H)).reverse := by
  apply ext_getD
  · rw [rot180Samples_length, List.length_reverse, List.length_take, Nat.min_eq_left h,
      Nat.mul_comm]
  · intro c hc
    rw [rot180Samples_length] at hc
    obtain ⟨k, j, hk, hj, rfl⟩ := split_index H W c hc
    rw [rot180Samples_getD W H src k j hk hj, mirror_index W H k j hk hj]
    have hlt : k * W + j < W * H := by rw [Nat.mul_comm W H]; exact hc
    have hlen : (src.take (W * H)).length = W * H := by
      rw [List.length_take, Nat.min_eq_left h]
    rw [List.getD_eq_getElem _ _ (by omega : W * H - 1 - (k * W + j) < src.length),
      List.getD_eq_getElem _ _ (by rw [List.length_reverse, hlen]; exact hlt),
      List.getElem_reverse, List.getElem_take]
    congr 1
    rw [hlen]

/-- C19.  For every state, so for every canonical bitmap, with `W = kSceneWidth` and
`H = kSceneHeight`: the samples `InitiliazeSceneRotation(false)` stores into the 90 degree buffer
are the samples `InitiliazeSceneRotation(true)` stores into the 270 degree buffer, and the other
way round; so the first `W * H` entries of these buffers agree, and the whole buffers agree when
the two buffers held the same bytes from index `W * H` on before the call (the function does not
write there).  The 0 degree and the 180 degree buffers are the same for both values of the flag.
With a bitmap of at least `W * H` bytes, the samples stored into the 180 degree buffer are the
first `W * H` bytes of `kScene` in reverse order. -/
theorem clock_wise_swaps_buffers (hd : Header) (s : Scene) :
    construct90 hd.kSceneWidth hd.kSceneHeight false s.kScene
      = construct270 hd.kSceneWidth hd.kSceneHeight true s.kScene ∧
    construct270 hd.kSceneWidth hd.kSceneHeight false s.kScene
      = construct90 hd.kSceneWidth hd.kSceneHeight true s.kScene ∧
    (InitiliazeSceneRotation hd false s).scene_rot90_.take (hd.kSceneWidth * hd.kSceneHeight)
      = (InitiliazeSceneRotation hd true s).scene_rot270_.take
          (hd.kSceneWidth * hd.kSceneHeight) ∧
    (InitiliazeSceneRotation hd false s).scene_rot270_.take (hd.kSceneWidth * hd.kSceneHeight)
      = (InitiliazeSceneRotation hd true s).scene_rot90_.take
          (hd.kSceneWidth * hd.kSceneHeight) ∧
    (s.scene_rot90_.drop (hd.kSceneWidth * hd.kSceneHeight)
        = s.scene_rot270_.drop (hd.kSceneWidth * hd.kSceneHeight) →
      (InitiliazeSceneRotation hd false s).scene_rot90_
        = (InitiliazeSceneRotation hd true s).scene_rot270_ ∧
      (InitiliazeSceneRotation hd false s).scene_rot270_
        = (InitiliazeSceneRotation hd true s).scene_rot90_) ∧
    (InitiliazeSceneRotation hd false s).scene_rot0_
      = (InitiliazeSceneRotation hd true s).scene_rot0_ ∧
    (InitiliazeSceneRotation hd false s).scene_rot180_
      = (InitiliazeSceneRotation hd true s).scene_rot180_ ∧
    (hd.kSceneWidth * hd.kSceneHeight ≤ s.kScene.length →
      ∀ cw, (InitiliazeSceneRotation hd cw s).scene_rot180_.take
          (hd.kSceneWidth * hd.kSceneHeight)
        = (s.kScene.take (hd.kSceneWidth * hd.kSceneHeight)).reverse) := by
  have lud : (transposeUpDown hd.kSceneWidth hd.kSceneHeight s.kScene).length
      = hd.kSceneWidth * hd.kSceneHeight := transposeUpDown_length _ _ _
  have ldu : (transposeDownUp hd.kSceneWidth hd.kSceneHeight s.kScene).length
      = hd.kSceneWidth * hd.kSceneHeight := transposeDownUp_length _ _ _
  have a90 : (InitiliazeSceneRotation hd false s).scene_rot90_
      = storeFromStart s.scene_rot90_
          (transposeUpDown hd.kSceneWidth hd.kSceneHeight s.kScene) := rfl
  have b270 : (InitiliazeSceneRotation hd true s).scene_rot270_
      = storeFromStart s.scene_rot270_
          (transposeUpDown hd.kSceneWidth hd.kSceneHeight s.kScene) := rfl
  have a270 : (InitiliazeSceneRotation hd false s).scene_rot270_
      = storeFromStart s.scene_rot270_
          (transposeDownUp hd.kSceneWidth hd.kSceneHeight s.kScene) := rfl
  have b90 : (InitiliazeSceneRotation hd true s).scene_rot90_
      = storeFromStart s.scene_rot90_
          (transposeDownUp hd.kSceneWidth hd.kSceneHeight s.kScene) := rfl
  have tk : ∀ (buf vs : List Nat), vs.length = hd.kSceneWidth * hd.kSceneHeight →
      (storeFromStart buf vs).take (hd.kSceneWidth * hd.kSceneHeight) = vs := by
    intro buf vs hl
    rw [← hl]
    exact storeFromStart_take buf vs
  refine ⟨rfl, rfl, ?_, ?_, ?_, rfl, rfl, ?_⟩
  · rw [a90, b270, tk _ _ lud, tk _ _ lud]
  · rw [a270, b90, tk _ _ ldu, tk _ _ ldu]
  · intro htail
    rw [a90, b270, a270, b90]
    unfold storeFromStart
    rw [lud, ldu, htail]
    exact ⟨rfl, rfl⟩
  · intro hk cw
    have e : (InitiliazeSceneRotation hd cw s).scene_rot180_
        = storeFromStart s.scene_rot180_
            (rot180Samples hd.kSceneWidth hd.kSceneHeight s.kScene) := rfl
    rw [e, tk _ _ (by rw [rot180Samples_length, Nat.mul_comm]),
      rot180Samples_eq_reverse _ _ _ hk]

/-! ## C20: a bound on the handshake offsets -/

/-- In exact arithmetic `handshake` is the expression `handshakeOver` on the rational numbers. -/
theorem handshake_exact (sin : ℚ → ℚ) (freq1 freq2 : ℚ) (tsi md d : Int) :
    handshake (exactArith sin) freq1 freq2 tsi md d
      = handshakeOver sin 5 1 freq1 freq2 (3 / 100) tsi md d := by
  unfold handshake handshakeOver
  simp only [kFreq1Magnitude, kFreq2Magnitude, kShakeFraction, Rounding.litD, Rounding.ofInt,
    Rounding.add, Rounding.mul, Rounding.div, exactArith, exactRounding, id, Int.cast_ofNat,
    Int.cast_one]

/-- The bound on `handshakeOver` for a sine with values in `[-1, 1]`. -/
theorem handshakeOver_bound {K : Type} [LinearOrderedField K] (sin : K → K)
    (hsin : ∀ x, |sin x| ≤ 1) (freq1 freq2 : K) (tsi md d : Int) (hmd : 0 ≤ md) :
    |handshakeOver sin 5 1 freq1 freq2 (3 / 100) tsi md d| ≤ 18 / 100 * (md : K) ∧
    (0 < d → |handshakeOver sin 5 1 freq1 freq2 (3 / 100) tsi md d|
      ≤ 18 / 100 * (md : K) / (d : K)) := by
  have hmdK : (0 : K) ≤ (md : K) := by exact_mod_cast hmd
  have h1 := abs_le.1 (hsin (freq1 * (tsi : K)))
  have h2 := abs_le.1 (hsin (freq2 * (tsi : K)))
  have hs : |(5 * sin (freq1 * (tsi : K)) + 1 * sin (freq2 * (tsi : K))) * (md : K) * (3 / 100)|
      ≤ 18 / 100 * (md : K) := by
    rw [abs_mul, abs_mul, abs_of_nonneg hmdK, abs_of_nonneg (by norm_num : (0 : K) ≤ 3 / 100)]
    have h6 : |5 * sin (freq1 * (tsi : K)) + 1 * sin (freq2 * (tsi : K))| ≤ 6 := by
      rw [abs_le]
      constructor <;> linarith [h1.1, h1.2, h2.1, h2.2]
    have := mul_le_mul_of_nonneg_right h6 hmdK
    linarith
  have hpos : ∀ hd : 0 < d,
      |handshakeOver sin 5 1 freq1 freq2 (3 / 100) tsi md d| ≤ 18 / 100 * (md : K) / (d : K) := by
    intro hd
    have hdK : (0 : K) < (d : K) := by exact_mod_cast hd
    unfold handshakeOver
    simp only [gt_iff_lt, if_pos hd]
    rw [abs_div, abs_of_pos hdK]
    exact div_le_div_of_nonneg_right hs hdK.le
  refine ⟨?_, hpos⟩
  by_cases hd : 0 < d
  · have hdK : (1 : K) ≤ (d : K) := by exact_mod_cast hd
    refine le_trans (hpos hd) ?_
    apply div_le_self _ hdK
    exact mul_nonneg (by norm_num) hmdK
  · unfold handshakeOver
    simp only [gt_iff_lt, if_neg hd]
    exact hs

/-- C20.  Without a live source, for every time, every handshake divider `d` and every
`map_div_ ≥ 0`, without rounding: with the sine of the real numbers, and for every frequency
pair and every elapsed time, the absolute value of the handshake expression of lines 322-335 is
at most `(5 + 1) * map_div_ * 0.03 = 0.18 * map_div_`, and at most `0.18 * map_div_ / d` when
`d > 0`.  The same bounds hold for the two offsets `CalculateScene` stores when it computes in
exact arithmetic with any rational-valued sine whose values lie in `[-1, 1]`. -/
theorem handshake_offsets_bounded (sin : ℚ → ℚ) (hsin : ∀ x, |sin x| ≤ 1) (hd : Header)
    (s s' : Scene) (time d : Int) (hmd : 0 ≤ s.map_div_)
    (h : CalculateScene (exactArith sin) hd none s time d = some s') :
    (∀ (freq1 freq2 : ℝ) (tsi : Int),
      |handshakeOver Real.sin 5 1 freq1 freq2 (3 / 100) tsi s.map_div_ d|
        ≤ 18 / 100 * (s.map_div_ : ℝ) ∧
      (0 < d → |handshakeOver Real.sin 5 1 freq1 freq2 (3 / 100) tsi s.map_div_ d|
        ≤ 18 / 100 * (s.map_div_ : ℝ) / (d : ℝ))) ∧
    (∃ il, illumination exactRounding s.hour_ time = some il ∧
      s'.handshake_x_ = handshakeOver sin 5 1 (kHorizShakeFreq1 exactRounding)
        (kHorizShakeFreq2 exactRounding) (3 / 100) il.time_since_idx s.map_div_ d ∧
      s'.handshake_y_ = handshakeOver sin 5 1 (kVertShakeFreq1 exactRounding)
        (kVertShakeFreq2 exactRounding) (3 / 100) il.time_since_idx s.map_div_ d) ∧
    |s'.handshake_x_| ≤ 18 / 100 * (s.map_div_ : ℚ) ∧
    |s'.handshake_y_| ≤ 18 / 100 * (s.map_div_ : ℚ) ∧
    (0 < d → |s'.handshake_x_| ≤ 18 / 100 * (s.map_div_ : ℚ) / (d : ℚ) ∧
      |s'.handshake_y_| ≤ 18 / 100 * (s.map_div_ : ℚ) / (d : ℚ)) := by
  obtain ⟨il, hil, -, rfl⟩ := CalculateScene_none_inv (exactArith sin) hd s s' time d h
  have hx : (sceneAfter (exactArith sin) hd s il d).handshake_x_
      = handshakeOver sin 5 1 (kHorizShakeFreq1 exactRounding) (kHorizShakeFreq2 exactRounding)
          (3 / 100) il.time_since_idx s.map_div_ d := by
    rw [sceneAfter_handshake_x]
    exact handshake_exact sin _ _ _ _ _
  have hy : (sceneAfter (exactArith sin) hd s il d).handshake_y_
      = handshakeOver sin 5 1 (kVertShakeFreq1 exactRounding) (kVertShakeFreq2 exactRounding)
          (3 / 100) il.time_since_idx s.map_div_ d := by
    rw [sceneAfter_handshake_y]
    exact handshake_exact sin _ _ _ _ _
  have hbx := handshakeOver_bound sin hsin (kHorizShakeFreq1 exactRounding)
    (kHorizShakeFreq2 exactRounding) il.time_since_idx s.map_div_ d hmd
  have hby := handshakeOver_bound sin hsin (kVertShakeFreq1 exactRounding)
    (kVertShakeFreq2 exactRounding) il.time_since_idx s.map_div_ d hmd
  refine ⟨fun freq1 freq2 tsi =>
      handshakeOver_bound Real.sin Real.abs_sin_le_one freq1 freq2 tsi s.map_div_ d hmd,
    ⟨il, hil, hx, hy⟩, ?_, ?_, ?_⟩
  · rw [hx]; exact hbx.1
  · rw [hy]; exact hby.1
  · intro hpos
    rw [hx, hy]
    exact ⟨hbx.2 hpos, hby.2 hpos⟩

/-- A square wave, a rational-valued stand-in for the sine with values in `[-1, 1]`. -/
theorem squareWave_bounded (x : ℚ) : |(if 0 ≤ x then (1 : ℚ) else -1)| ≤ 1 := by
  split <;> simp

theorem sampleScene_map_div : sampleScene.map_div_ = 214 := rfl

theorem handshake_offsets_bounded_witness :
    ∃ s', CalculateScene (exactArith fun x => if 0 ≤ x then 1 else -1) sampleHeader none
        sampleScene 1000000 3 = some s' ∧
      |s'.handshake_x_| ≤ 18 / 100 * (sampleScene.map_div_ : ℚ) / ((3 : Int) : ℚ) ∧
      |s'.handshake_y_| ≤ 18 / 100 * (sampleScene.map_div_ : ℚ) / ((3 : Int) : ℚ) := by
  obtain ⟨il, -, h⟩ := CalculateScene_none_eq (exactArith fun x => if 0 ≤ x then 1 else -1)
    sampleHeader sampleScene 1000000 3
    (by rw [sampleScene_hour]; unfold InRange kOneHourInNsec; omega)
    (by rw [sampleScene_signedOrientation]; omega)
  exact ⟨_, h, (handshake_offsets_bounded _ squareWave_bounded sampleHeader sampleScene _
    1000000 3 (by rw [sampleScene_map_div]; omega) h).2.2.2.2 (by norm_num)⟩

/-! ## C16: the grass material at noon -/

/-- The direct illumination at noon (hour 12, time 0) in exact arithmetic. -/
theorem noon_direct_exact :
    (noonIllumination exactRounding).direct_illum_xyz
      = ⟨871050017421 / 8790250, 50000001 / 500, 1499850029997 / 17580500⟩ := by
  have hs : isSunsetLevel exactRounding (kDirectSunIllum exactRounding) = false := by decide
  have htf : time_frac exactRounding 0 = 0 := by
    rw [time_frac_exact]
    norm_num
  simp only [noonIllumination, illuminate, hs, htf, interpolate_exact, xyY_to_XYZ]
  simp only [kDirectSunIllum, kDirectSunlightXY, kMoonlightXY, kClearNightIllum, Rounding.lit,
    Rounding.litD, Rounding.ofInt, Rounding.add, Rounding.sub, Rounding.mul, Rounding.div,
    exactRounding, id]
  norm_num

/-- Material 0 (GRASS) has no flag: its XYZ is scaled by the direct illumination. -/
theorem mat_xyz_grass (fm : Rounding) (il : Illumination) :
    mat_xyz fm il 0
      = ⟨fm.mul (xyY_to_XYZ fm (fm.lit (3688 / 10000)) (fm.lit (4501 / 10000))
            (fm.lit (1329 / 10000))).e0 il.direct_illum_xyz.e0,
          fm.mul (xyY_to_XYZ fm (fm.lit (3688 / 10000)) (fm.lit (4501 / 10000))
            (fm.lit (1329 / 10000))).e1 il.direct_illum_xyz.e1,
          fm.mul (xyY_to_XYZ fm (fm.lit (3688 / 10000)) (fm.lit (4501 / 10000))
            (fm.lit (1329 / 10000))).e2 il.direct_illum_xyz.e2⟩ :=
  rfl

/-- The four counts of the grass material at noon in exact arithmetic. -/
theorem grassCount_exact :
    grassCount exactRounding (defaultFilterR exactRounding)
      = 1601277842141912552327127 / 310188935560000000000 ∧
    grassCount exactRounding (defaultFilterGr exactRounding)
      = 3829087021284436044053943 / 620377871120000000000 ∧
    grassCount exactRounding (defaultFilterGb exactRounding)
      = 3829087021284436044053943 / 620377871120000000000 ∧
    grassCount exactRounding (defaultFilterB exactRounding)
      = 354072872663583661642527 / 310188935560000000000 := by
  simp only [grassCount, mat_xyz_grass, noon_direct_exact, channel, xyY_to_XYZ, defaultFilterR,
    defaultFilterGr, defaultFilterGb, defaultFilterB, kAperture]
  simp only [Rounding.lit, Rounding.litD, Rounding.ofInt, Rounding.add, Rounding.sub,
    Rounding.mul, Rounding.div, exactRounding, id]
  norm_num

/-! ### Evaluation in binary32

The operations of `ieeeRounding` written with `roundF32`, as rewriting rules. -/

theorem ieee_add (a b : ℚ) : ieeeRounding.add a b = roundF32 (a + b) := Eq.trans rfl rfl
theorem ieee_sub (a b : ℚ) : ieeeRounding.sub a b = roundF32 (a - b) := Eq.trans rfl rfl
theorem ieee_mul (a b : ℚ) : ieeeRounding.mul a b = roundF32 (a * b) := Eq.trans rfl rfl
theorem ieee_div (a b : ℚ) : ieeeRounding.div a b = roundF32 (a / b) := Eq.trans rfl rfl
theorem ieee_ofInt (n : Int) : ieeeRounding.ofInt n = roundF32 n := Eq.trans rfl rfl
theorem ieee_lit (q : ℚ) : ieeeRounding.lit q = roundF32 q := Eq.trans rfl rfl
theorem ieee_litD (q : ℚ) : ieeeRounding.litD q = roundF32 (roundF64 q) := Eq.trans rfl rfl

/-- Evaluation of `roundF64` at a rational that is not half way between two neighbours of the
grid: `e` is the binary exponent of `q` and `m` the nearest multiple of `2 ^ (e - 52)`. -/
theorem roundF64_eq (q : ℚ) (e m : Int) (r : ℚ) (he : -1022 ≤ e)
    (h1 : (2 : ℚ) ^ e ≤ |q|) (h2 : |q| < (2 : ℚ) ^ (e + 1))
    (h3 : (m : ℚ) - 1 / 2 < q / 2 ^ (e - 52)) (h4 : q / 2 ^ (e - 52) < m + 1 / 2)
    (hr : (m : ℚ) * 2 ^ (e - 52) = r) : roundF64 q = r := by
  unfold roundF64
  rw [roundBinary_eq 53 (-1022) q e m he h1 h2 (by norm_num; exact h3) (by norm_num; exact h4)]
  norm_num
  exact hr

/-! ### The roundings of the computation in binary32

Each of the following lemmas evaluates one rounding of the computation of the colour-table row of
material 0 at hour 12 and time 0, in the order of the computation: the argument is the exact
result of the operation on the operands already rounded, the value is the nearest binary32
number. -/

theorem noon32_1 :
    roundF32 100000 = 100000 :=
  roundF32_eq (100000) (16) (12800000) (100000)
    (by norm_num) (by norm_num [abs_of_pos, abs_of_neg, abs_mul, abs_div])
    (by norm_num [abs_of_pos, abs_of_neg, abs_mul, abs_div])
    (by norm_num) (by norm_num) (by norm_num)

theorem noon32_2 :
    roundF32 400 = 400 :=
  roundF32_eq (400) (8) (13107200) (400)
    (by norm_num) (by norm_num [abs_of_pos, abs_of_neg, abs_mul, abs_div])
    (by norm_num [abs_of_pos, abs_of_neg, abs_mul, abs_div])
    (by norm_num) (by norm_num) (by norm_num)

theorem noon32_3 :
    roundF32 4 = 4 :=
  roundF32_eq (4) (2) (8388608) (4)
    (by norm_num) (by norm_num [abs_of_pos, abs_of_neg, abs_mul, abs_div])
    (by norm_num [abs_of_pos, abs_of_neg, abs_mul, abs_div])
    (by norm_num) (by norm_num) (by norm_num)

theorem noon32_4 : roundF32 0 = 0 :=
  roundBinary_zero _ _

theorem noon32_5 :
    roundF32 7200000000000 = 7199999918080 :=
  roundF32_eq (7200000000000) (42) (13732910) (7199999918080)
    (by norm_num) (by norm_num [abs_of_pos, abs_of_neg, abs_mul, abs_div])
    (by norm_num [abs_of_pos, abs_of_neg, abs_mul, abs_div])
    (by norm_num) (by norm_num) (by norm_num)

theorem noon32_6 : roundF32 (0 / 7199999918080) = 0 := by
  rw [show (0 / 7199999918080 : ℚ) = 0 by norm_num]
  exact roundBinary_zero _ _

theorem noon32_7 :
    roundF32 (34842 / 100000) = 11691035 / 33554432 :=
  roundF32_eq (34842 / 100000) (-2) (11691035) (11691035 / 33554432)
    (by norm_num) (by norm_num [abs_of_pos, abs_of_neg, abs_mul, abs_div])
    (by norm_num [abs_of_pos, abs_of_neg, abs_mul, abs_div])
    (by norm_num) (by norm_num) (by norm_num)

theorem noon32_8 :
    roundF32 (35161 / 100000) = 5899037 / 16777216 :=
  roundF32_eq (35161 / 100000) (-2) (11798074) (5899037 / 16777216)
    (by norm_num) (by norm_num [abs_of_pos, abs_of_neg, abs_mul, abs_div])
    (by norm_num [abs_of_pos, abs_of_neg, abs_mul, abs_div])
    (by norm_num) (by norm_num) (by norm_num)

theorem noon32_9 :
    roundF32 1 = 1 :=
  roundF32_eq (1) (0) (8388608) (1)
    (by norm_num) (by norm_num [abs_of_pos, abs_of_neg, abs_mul, abs_div])
    (by norm_num [abs_of_pos, abs_of_neg, abs_mul, abs_div])
    (by norm_num) (by norm_num) (by norm_num)

theorem noon32_10 :
    roundF32 (1 - 0) = 1 :=
  roundF32_eq (1 - 0) (0) (8388608) (1)
    (by norm_num) (by norm_num [abs_of_pos, abs_of_neg, abs_mul, abs_div])
    (by norm_num [abs_of_pos, abs_of_neg, abs_mul, abs_div])
    (by norm_num) (by norm_num) (by norm_num)

theorem noon32_11 :
    roundF32 (100000 * 1) = 100000 :=
  roundF32_eq (100000 * 1) (16) (12800000) (100000)
    (by norm_num) (by norm_num [abs_of_pos, abs_of_neg, abs_mul, abs_div])
    (by norm_num [abs_of_pos, abs_of_neg, abs_mul, abs_div])
    (by norm_num) (by norm_num) (by norm_num)

theorem noon32_12 : roundF32 (100000 * 0) = 0 := by
  rw [show (100000 * 0 : ℚ) = 0 by norm_num]
  exact roundBinary_zero _ _

theorem noon32_13 :
    roundF32 (100000 + 0) = 100000 :=
  roundF32_eq (100000 + 0) (16) (12800000) (100000)
    (by norm_num) (by norm_num [abs_of_pos, abs_of_neg, abs_mul, abs_div])
    (by norm_num [abs_of_pos, abs_of_neg, abs_mul, abs_div])
    (by norm_num) (by norm_num) (by norm_num)

theorem noon32_14 :
    roundF32 ((11691035 / 33554432) * 1) = 11691035 / 33554432 :=
  roundF32_eq ((11691035 / 33554432) * 1) (-2) (11691035) (11691035 / 33554432)
    (by norm_num) (by norm_num [abs_of_pos, abs_of_neg, abs_mul, abs_div])
    (by norm_num [abs_of_pos, abs_of_neg, abs_mul, abs_div])
    (by norm_num) (by norm_num) (by norm_num)

theorem noon32_15 : roundF32 ((11691035 / 33554432) * 0) = 0 := by
  rw [show ((11691035 / 33554432) * 0 : ℚ) = 0 by norm_num]
  exact roundBinary_zero _ _

theorem noon32_16 :
    roundF32 ((11691035 / 33554432) + 0) = 11691035 / 33554432 :=
  roundF32_eq ((11691035 / 33554432) + 0) (-2) (11691035) (11691035 / 33554432)
    (by norm_num) (by norm_num [abs_of_pos, abs_of_neg, abs_mul, abs_div])
    (by norm_num [abs_of_pos, abs_of_neg, abs_mul, abs_div])
    (by norm_num) (by norm_num) (by norm_num)

theorem noon32_17 :
    roundF32 ((5899037 / 16777216) * 1) = 5899037 / 16777216 :=
  roundF32_eq ((5899037 / 16777216) * 1) (-2) (11798074) (5899037 / 16777216)
    (by norm_num) (by norm_num [abs_of_pos, abs_of_neg, abs_mul, abs_div])
    (by norm_num [abs_of_pos, abs_of_neg, abs_mul, abs_div])
    (by norm_num) (by norm_num) (by norm_num)

theorem noon32_18 : roundF32 ((5899037 / 16777216) * 0) = 0 := by
  rw [show ((5899037 / 16777216) * 0 : ℚ) = 0 by norm_num]
  exact roundBinary_zero _ _

theorem noon32_19 :
    roundF32 ((5899037 / 16777216) + 0) = 5899037 / 16777216 :=
  roundF32_eq ((5899037 / 16777216) + 0) (-2) (11798074) (5899037 / 16777216)
    (by norm_num) (by norm_num [abs_of_pos, abs_of_neg, abs_mul, abs_div])
    (by norm_num [abs_of_pos, abs_of_neg, abs_mul, abs_div])
    (by norm_num) (by norm_num) (by norm_num)

theorem noon32_20 : roundF32 (0 * 1) = 0 := by
  rw [show (0 * 1 : ℚ) = 0 by norm_num]
  exact roundBinary_zero _ _

theorem noon32_21 : roundF32 (0 * 0) = 0 := by
  rw [show (0 * 0 : ℚ) = 0 by norm_num]
  exact roundBinary_zero _ _

theorem noon32_22 : roundF32 (0 + 0) = 0 := by
  rw [show (0 + 0 : ℚ) = 0 by norm_num]
  exact roundBinary_zero _ _

theorem noon32_23 :
    roundF32 (100000 / (5899037 / 16777216)) = 284406 :=
  roundF32_eq (100000 / (5899037 / 16777216)) (18) (9100992) (284406)
    (by norm_num) (by norm_num [abs_of_pos, abs_of_neg, abs_mul, abs_div])
    (by norm_num [abs_of_pos, abs_of_neg, abs_mul, abs_div])
    (by norm_num) (by norm_num) (by norm_num)

theorem noon32_24 :
    roundF32 (284406 * (11691035 / 33554432)) = 6341935 / 64 :=
  roundF32_eq (284406 * (11691035 / 33554432)) (16) (12683870) (6341935 / 64)
    (by norm_num) (by norm_num [abs_of_pos, abs_of_neg, abs_mul, abs_div])
    (by norm_num [abs_of_pos, abs_of_neg, abs_mul, abs_div])
    (by norm_num) (by norm_num) (by norm_num)

theorem noon32_25 :
    roundF32 (1 - (11691035 / 33554432)) = 5465849 / 8388608 :=
  roundF32_eq_tie (1 - (11691035 / 33554432)) (-1) 10931698 (5465849 / 8388608)
    (by norm_num) (by norm_num [abs_of_pos, abs_of_neg, abs_mul, abs_div])
    (by norm_num [abs_of_pos, abs_of_neg, abs_mul, abs_div])
    (by norm_num [abs_of_pos, abs_of_neg]) (by decide) (by norm_num)

theorem noon32_26 :
    roundF32 ((5465849 / 8388608) - (5899037 / 16777216)) = 5032661 / 16777216 :=
  roundF32_eq ((5465849 / 8388608) - (5899037 / 16777216)) (-2) (10065322) (5032661 / 16777216)
    (by norm_num) (by norm_num [abs_of_pos, abs_of_neg, abs_mul, abs_div])
    (by norm_num [abs_of_pos, abs_of_neg, abs_mul, abs_div])
    (by norm_num) (by norm_num) (by norm_num)

theorem noon32_27 :
    roundF32 (284406 * (5032661 / 16777216)) = 10920097 / 128 :=
  roundF32_eq (284406 * (5032661 / 16777216)) (16) (10920097) (10920097 / 128)
    (by norm_num) (by norm_num [abs_of_pos, abs_of_neg, abs_mul, abs_div])
    (by norm_num [abs_of_pos, abs_of_neg, abs_mul, abs_div])
    (by norm_num) (by norm_num) (by norm_num)

theorem noon32_28 : roundF32 (0 / (5899037 / 16777216)) = 0 := by
  rw [show (0 / (5899037 / 16777216) : ℚ) = 0 by norm_num]
  exact roundBinary_zero _ _

theorem noon32_29 : roundF32 (0 * (11691035 / 33554432)) = 0 := by
  rw [show (0 * (11691035 / 33554432) : ℚ) = 0 by norm_num]
  exact roundBinary_zero _ _

theorem noon32_30 : roundF32 (0 * (5032661 / 16777216)) = 0 := by
  rw [show (0 * (5032661 / 16777216) : ℚ) = 0 by norm_num]
  exact roundBinary_zero _ _

theorem noon32_31 :
    roundF64 (2 / 1000) = 1152921504606847 / 576460752303423488 :=
  roundF64_eq (2 / 1000) (-9) (4611686018427388) (1152921504606847 / 576460752303423488)
    (by norm_num) (by norm_num [abs_of_pos, abs_of_neg, abs_mul, abs_div])
    (by norm_num [abs_of_pos, abs_of_neg, abs_mul, abs_div])
    (by norm_num) (by norm_num) (by norm_num)

theorem noon32_32 :
    roundF32 (1152921504606847 / 576460752303423488) = 8589935 / 4294967296 :=
  roundF32_eq (1152921504606847 / 576460752303423488) (-9) (8589935) (8589935 / 4294967296)
    (by norm_num) (by norm_num [abs_of_pos, abs_of_neg, abs_mul, abs_div])
    (by norm_num [abs_of_pos, abs_of_neg, abs_mul, abs_div])
    (by norm_num) (by norm_num) (by norm_num)

theorem noon32_33 :
    roundF32 ((8589935 / 4294967296) / (5899037 / 16777216)) = 6107573 / 1073741824 :=
  roundF32_eq ((8589935 / 4294967296) / (5899037 / 16777216)) (-8) (12215146) (6107573 / 1073741824)
    (by norm_num) (by norm_num [abs_of_pos, abs_of_neg, abs_mul, abs_div])
    (by norm_num [abs_of_pos, abs_of_neg, abs_mul, abs_div])
    (by norm_num) (by norm_num) (by norm_num)

theorem noon32_34 :
    roundF32 ((6107573 / 1073741824) * (11691035 / 33554432)) = 4256001 / 2147483648 :=
  roundF32_eq ((6107573 / 1073741824) * (11691035 / 33554432)) (-9) (8512002) (4256001 / 2147483648)
    (by norm_num) (by norm_num [abs_of_pos, abs_of_neg, abs_mul, abs_div])
    (by norm_num [abs_of_pos, abs_of_neg, abs_mul, abs_div])
    (by norm_num) (by norm_num) (by norm_num)

theorem noon32_35 :
    roundF32 ((6107573 / 1073741824) * (5032661 / 16777216)) = 3664177 / 2147483648 :=
  roundF32_eq ((6107573 / 1073741824) * (5032661 / 16777216)) (-10) (14656708) (3664177 / 2147483648)
    (by norm_num) (by norm_num [abs_of_pos, abs_of_neg, abs_mul, abs_div])
    (by norm_num [abs_of_pos, abs_of_neg, abs_mul, abs_div])
    (by norm_num) (by norm_num) (by norm_num)

theorem noon32_36 :
    roundF32 ((6341935 / 64) + 0) = 6341935 / 64 :=
  roundF32_eq ((6341935 / 64) + 0) (16) (12683870) (6341935 / 64)
    (by norm_num) (by norm_num [abs_of_pos, abs_of_neg, abs_mul, abs_div])
    (by norm_num [abs_of_pos, abs_of_neg, abs_mul, abs_div])
    (by norm_num) (by norm_num) (by norm_num)

theorem noon32_37 :
    roundF32 ((6341935 / 64) + (4256001 / 2147483648)) = 6341935 / 64 :=
  roundF32_eq ((6341935 / 64) + (4256001 / 2147483648)) (16) (12683870) (6341935 / 64)
    (by norm_num) (by norm_num [abs_of_pos, abs_of_neg, abs_mul, abs_div])
    (by norm_num [abs_of_pos, abs_of_neg, abs_mul, abs_div])
    (by norm_num) (by norm_num) (by norm_num)

theorem noon32_38 :
    roundF32 (100000 + (8589935 / 4294967296)) = 100000 :=
  roundF32_eq (100000 + (8589935 / 4294967296)) (16) (12800000) (100000)
    (by norm_num) (by norm_num [abs_of_pos, abs_of_neg, abs_mul, abs_div])
    (by norm_num [abs_of_pos, abs_of_neg, abs_mul, abs_div])
    (by norm_num) (by norm_num) (by norm_num)

theorem noon32_39 :
    roundF32 ((10920097 / 128) + 0) = 10920097 / 128 :=
  roundF32_eq ((10920097 / 128) + 0) (16) (10920097) (10920097 / 128)
    (by norm_num) (by norm_num [abs_of_pos, abs_of_neg, abs_mul, abs_div])
    (by norm_num [abs_of_pos, abs_of_neg, abs_mul, abs_div])
    (by norm_num) (by norm_num) (by norm_num)

theorem noon32_40 :
    roundF32 ((10920097 / 128) + (3664177 / 2147483648)) = 10920097 / 128 :=
  roundF32_eq ((10920097 / 128) + (3664177 / 2147483648)) (16) (10920097) (10920097 / 128)
    (by norm_num) (by norm_num [abs_of_pos, abs_of_neg, abs_mul, abs_div])
    (by norm_num [abs_of_pos, abs_of_neg, abs_mul, abs_div])
    (by norm_num) (by norm_num) (by norm_num)

theorem noon32_41 :
    roundF32 (3688 / 10000) = 12374875 / 33554432 :=
  roundF32_eq (3688 / 10000) (-2) (12374875) (12374875 / 33554432)
    (by norm_num) (by norm_num [abs_of_pos, abs_of_neg, abs_mul, abs_div])
    (by norm_num [abs_of_pos, abs_of_neg, abs_mul, abs_div])
    (by norm_num) (by norm_num) (by norm_num)

theorem noon32_42 :
    roundF32 (4501 / 10000) = 7551425 / 16777216 :=
  roundF32_eq (4501 / 10000) (-2) (15102850) (7551425 / 16777216)
    (by norm_num) (by norm_num [abs_of_pos, abs_of_neg, abs_mul, abs_div])
    (by norm_num [abs_of_pos, abs_of_neg, abs_mul, abs_div])
    (by norm_num) (by norm_num) (by norm_num)

theorem noon32_43 :
    roundF32 (1329 / 10000) = 557423 / 4194304 :=
  roundF32_eq (1329 / 10000) (-3) (8918768) (557423 / 4194304)
    (by norm_num) (by norm_num [abs_of_pos, abs_of_neg, abs_mul, abs_div])
    (by norm_num [abs_of_pos, abs_of_neg, abs_mul, abs_div])
    (by norm_num) (by norm_num) (by norm_num)

theorem noon32_44 :
    roundF32 ((557423 / 4194304) / (7551425 / 16777216)) = 2476885 / 8388608 :=
  roundF32_eq ((557423 / 4194304) / (7551425 / 16777216)) (-2) (9907540) (2476885 / 8388608)
    (by norm_num) (by norm_num [abs_of_pos, abs_of_neg, abs_mul, abs_div])
    (by norm_num [abs_of_pos, abs_of_neg, abs_mul, abs_div])
    (by norm_num) (by norm_num) (by norm_num)

theorem noon32_45 :
    roundF32 ((2476885 / 8388608) * (12374875 / 33554432)) = 3653901 / 33554432 :=
  roundF32_eq ((2476885 / 8388608) * (12374875 / 33554432)) (-4) (14615604) (3653901 / 33554432)
    (by norm_num) (by norm_num [abs_of_pos, abs_of_neg, abs_mul, abs_div])
    (by norm_num [abs_of_pos, abs_of_neg, abs_mul, abs_div])
    (by norm_num) (by norm_num) (by norm_num)

theorem noon32_46 :
    roundF32 (1 - (12374875 / 33554432)) = 5294889 / 8388608 :=
  roundF32_eq_tie (1 - (12374875 / 33554432)) (-1) 10589778 (5294889 / 8388608)
    (by norm_num) (by norm_num [abs_of_pos, abs_of_neg, abs_mul, abs_div])
    (by norm_num [abs_of_pos, abs_of_neg, abs_mul, abs_div])
    (by norm_num [abs_of_pos, abs_of_neg]) (by decide) (by norm_num)

theorem noon32_47 :
    roundF32 ((5294889 / 8388608) - (7551425 / 16777216)) = 3038353 / 16777216 :=
  roundF32_eq ((5294889 / 8388608) - (7551425 / 16777216)) (-3) (12153412) (3038353 / 16777216)
    (by norm_num) (by norm_num [abs_of_pos, abs_of_neg, abs_mul, abs_div])
    (by norm_num [abs_of_pos, abs_of_neg, abs_mul, abs_div])
    (by norm_num) (by norm_num) (by norm_num)

theorem noon32_48 :
    roundF32 ((2476885 / 8388608) * (3038353 / 16777216)) = 1794255 / 33554432 :=
  roundF32_eq ((2476885 / 8388608) * (3038353 / 16777216)) (-5) (14354040) (1794255 / 33554432)
    (by norm_num) (by norm_num [abs_of_pos, abs_of_neg, abs_mul, abs_div])
    (by norm_num [abs_of_pos, abs_of_neg, abs_mul, abs_div])
    (by norm_num) (by norm_num) (by norm_num)

theorem noon32_49 :
    roundF32 ((3653901 / 33554432) * (6341935 / 64)) = 11049653 / 1024 :=
  roundF32_eq ((3653901 / 33554432) * (6341935 / 64)) (13) (11049653) (11049653 / 1024)
    (by norm_num) (by norm_num [abs_of_pos, abs_of_neg, abs_mul, abs_div])
    (by norm_num [abs_of_pos, abs_of_neg, abs_mul, abs_div])
    (by norm_num) (by norm_num) (by norm_num)

theorem noon32_50 :
    roundF32 ((557423 / 4194304) * 100000) = 13290 :=
  roundF32_eq ((557423 / 4194304) * 100000) (13) (13608960) (13290)
    (by norm_num) (by norm_num [abs_of_pos, abs_of_neg, abs_mul, abs_div])
    (by norm_num [abs_of_pos, abs_of_neg, abs_mul, abs_div])
    (by norm_num) (by norm_num) (by norm_num)

theorem noon32_51 :
    roundF32 ((1794255 / 33554432) * (10920097 / 128)) = 291965 / 64 :=
  roundF32_eq ((1794255 / 33554432) * (10920097 / 128)) (12) (9342880) (291965 / 64)
    (by norm_num) (by norm_num [abs_of_pos, abs_of_neg, abs_mul, abs_div])
    (by norm_num [abs_of_pos, abs_of_neg, abs_mul, abs_div])
    (by norm_num) (by norm_num) (by norm_num)

theorem noon32_52 :
    roundF64 (28 / 10) = 3152519739159347 / 1125899906842624 :=
  roundF64_eq (28 / 10) (1) (6305039478318694) (3152519739159347 / 1125899906842624)
    (by norm_num) (by norm_num [abs_of_pos, abs_of_neg, abs_mul, abs_div])
    (by norm_num [abs_of_pos, abs_of_neg, abs_mul, abs_div])
    (by norm_num) (by norm_num) (by norm_num)

theorem noon32_53 :
    roundF32 (3152519739159347 / 1125899906842624) = 11744051 / 4194304 :=
  roundF32_eq (3152519739159347 / 1125899906842624) (1) (11744051) (11744051 / 4194304)
    (by norm_num) (by norm_num [abs_of_pos, abs_of_neg, abs_mul, abs_div])
    (by norm_num [abs_of_pos, abs_of_neg, abs_mul, abs_div])
    (by norm_num) (by norm_num) (by norm_num)

theorem noon32_54 :
    roundF32 100 = 100 :=
  roundF32_eq (100) (6) (13107200) (100)
    (by norm_num) (by norm_num [abs_of_pos, abs_of_neg, abs_mul, abs_div])
    (by norm_num [abs_of_pos, abs_of_neg, abs_mul, abs_div])
    (by norm_num) (by norm_num) (by norm_num)

theorem noon32_55 :
    roundF32 (33 / 1000) = 4429185 / 134217728 :=
  roundF32_eq (33 / 1000) (-5) (8858370) (4429185 / 134217728)
    (by norm_num) (by norm_num [abs_of_pos, abs_of_neg, abs_mul, abs_div])
    (by norm_num [abs_of_pos, abs_of_neg, abs_mul, abs_div])
    (by norm_num) (by norm_num) (by norm_num)

theorem noon32_56 :
    roundF32 (100 * (4429185 / 134217728)) = 13841203 / 4194304 :=
  roundF32_eq (100 * (4429185 / 134217728)) (1) (13841203) (13841203 / 4194304)
    (by norm_num) (by norm_num [abs_of_pos, abs_of_neg, abs_mul, abs_div])
    (by norm_num [abs_of_pos, abs_of_neg, abs_mul, abs_div])
    (by norm_num) (by norm_num) (by norm_num)

theorem noon32_57 :
    roundF32 ((11744051 / 4194304) * (11744051 / 4194304)) = 16441671 / 2097152 :=
  roundF32_eq ((11744051 / 4194304) * (11744051 / 4194304)) (2) (16441671) (16441671 / 2097152)
    (by norm_num) (by norm_num [abs_of_pos, abs_of_neg, abs_mul, abs_div])
    (by norm_num [abs_of_pos, abs_of_neg, abs_mul, abs_div])
    (by norm_num) (by norm_num) (by norm_num)

theorem noon32_58 :
    roundF32 ((13841203 / 4194304) / (16441671 / 2097152)) = 14123677 / 33554432 :=
  roundF32_eq ((13841203 / 4194304) / (16441671 / 2097152)) (-2) (14123677) (14123677 / 33554432)
    (by norm_num) (by norm_num [abs_of_pos, abs_of_neg, abs_mul, abs_div])
    (by norm_num [abs_of_pos, abs_of_neg, abs_mul, abs_div])
    (by norm_num) (by norm_num) (by norm_num)

theorem noon32_59 :
    roundF32 (32406 / 10000) = 6796031 / 2097152 :=
  roundF32_eq (32406 / 10000) (1) (13592062) (6796031 / 2097152)
    (by norm_num) (by norm_num [abs_of_pos, abs_of_neg, abs_mul, abs_div])
    (by norm_num [abs_of_pos, abs_of_neg, abs_mul, abs_div])
    (by norm_num) (by norm_num) (by norm_num)

theorem noon32_60 :
    roundF32 (15372 / 10000) = 1611871 / 1048576 :=
  roundF32_eq (15372 / 10000) (0) (12894968) (1611871 / 1048576)
    (by norm_num) (by norm_num [abs_of_pos, abs_of_neg, abs_mul, abs_div])
    (by norm_num [abs_of_pos, abs_of_neg, abs_mul, abs_div])
    (by norm_num) (by norm_num) (by norm_num)

theorem noon32_61 :
    roundF32 (4986 / 10000) = 130705 / 262144 :=
  roundF32_eq (4986 / 10000) (-2) (16730240) (130705 / 262144)
    (by norm_num) (by norm_num [abs_of_pos, abs_of_neg, abs_mul, abs_div])
    (by norm_num [abs_of_pos, abs_of_neg, abs_mul, abs_div])
    (by norm_num) (by norm_num) (by norm_num)

theorem noon32_62 :
    roundF32 (9689 / 10000) = 16255445 / 16777216 :=
  roundF32_eq (9689 / 10000) (-1) (16255445) (16255445 / 16777216)
    (by norm_num) (by norm_num [abs_of_pos, abs_of_neg, abs_mul, abs_div])
    (by norm_num [abs_of_pos, abs_of_neg, abs_mul, abs_div])
    (by norm_num) (by norm_num) (by norm_num)

theorem noon32_63 :
    roundF32 (18758 / 10000) = 15735351 / 8388608 :=
  roundF32_eq (18758 / 10000) (0) (15735351) (15735351 / 8388608)
    (by norm_num) (by norm_num [abs_of_pos, abs_of_neg, abs_mul, abs_div])
    (by norm_num [abs_of_pos, abs_of_neg, abs_mul, abs_div])
    (by norm_num) (by norm_num) (by norm_num)

theorem noon32_64 :
    roundF32 (415 / 10000) = 11140071 / 268435456 :=
  roundF32_eq (415 / 10000) (-5) (11140071) (11140071 / 268435456)
    (by norm_num) (by norm_num [abs_of_pos, abs_of_neg, abs_mul, abs_div])
    (by norm_num [abs_of_pos, abs_of_neg, abs_mul, abs_div])
    (by norm_num) (by norm_num) (by norm_num)

theorem noon32_65 :
    roundF32 (557 / 10000) = 14951855 / 268435456 :=
  roundF32_eq (557 / 10000) (-5) (14951855) (14951855 / 268435456)
    (by norm_num) (by norm_num [abs_of_pos, abs_of_neg, abs_mul, abs_div])
    (by norm_num [abs_of_pos, abs_of_neg, abs_mul, abs_div])
    (by norm_num) (by norm_num) (by norm_num)

theorem noon32_66 :
    roundF32 (2040 / 10000) = 427819 / 2097152 :=
  roundF32_eq (2040 / 10000) (-3) (13690208) (427819 / 2097152)
    (by norm_num) (by norm_num [abs_of_pos, abs_of_neg, abs_mul, abs_div])
    (by norm_num [abs_of_pos, abs_of_neg, abs_mul, abs_div])
    (by norm_num) (by norm_num) (by norm_num)

theorem noon32_67 :
    roundF32 (10570 / 10000) = 8866759 / 8388608 :=
  roundF32_eq (10570 / 10000) (0) (8866759) (8866759 / 8388608)
    (by norm_num) (by norm_num [abs_of_pos, abs_of_neg, abs_mul, abs_div])
    (by norm_num [abs_of_pos, abs_of_neg, abs_mul, abs_div])
    (by norm_num) (by norm_num) (by norm_num)

theorem noon32_68 :
    roundF32 ((6796031 / 2097152) * (11049653 / 1024)) = 8951877 / 256 :=
  roundF32_eq ((6796031 / 2097152) * (11049653 / 1024)) (15) (8951877) (8951877 / 256)
    (by norm_num) (by norm_num [abs_of_pos, abs_of_neg, abs_mul, abs_div])
    (by norm_num [abs_of_pos, abs_of_neg, abs_mul, abs_div])
    (by norm_num) (by norm_num) (by norm_num)

theorem noon32_69 :
    roundF32 (-(1611871 / 1048576) * 13290) = -(5229923 / 256) :=
  roundF32_eq (-(1611871 / 1048576) * 13290) (14) (-10459846) (-(5229923 / 256))
    (by norm_num) (by norm_num [abs_of_pos, abs_of_neg, abs_mul, abs_div])
    (by norm_num [abs_of_pos, abs_of_neg, abs_mul, abs_div])
    (by norm_num) (by norm_num) (by norm_num)

theorem noon32_70 :
    roundF32 ((8951877 / 256) + -(5229923 / 256)) = 1860977 / 128 :=
  roundF32_eq ((8951877 / 256) + -(5229923 / 256)) (13) (14887816) (1860977 / 128)
    (by norm_num) (by norm_num [abs_of_pos, abs_of_neg, abs_mul, abs_div])
    (by norm_num [abs_of_pos, abs_of_neg, abs_mul, abs_div])
    (by norm_num) (by norm_num) (by norm_num)

theorem noon32_71 :
    roundF32 (-(130705 / 262144) * (291965 / 64)) = -(582295 / 256) :=
  roundF32_eq (-(130705 / 262144) * (291965 / 64)) (11) (-9316720) (-(582295 / 256))
    (by norm_num) (by norm_num [abs_of_pos, abs_of_neg, abs_mul, abs_div])
    (by norm_num [abs_of_pos, abs_of_neg, abs_mul, abs_div])
    (by norm_num) (by norm_num) (by norm_num)

theorem noon32_72 :
    roundF32 ((1860977 / 128) + -(582295 / 256)) = 3139659 / 256 :=
  roundF32_eq ((1860977 / 128) + -(582295 / 256)) (13) (12558636) (3139659 / 256)
    (by norm_num) (by norm_num [abs_of_pos, abs_of_neg, abs_mul, abs_div])
    (by norm_num [abs_of_pos, abs_of_neg, abs_mul, abs_div])
    (by norm_num) (by norm_num) (by norm_num)

theorem noon32_73 :
    roundF32 ((3139659 / 256) * (14123677 / 33554432)) = 10572321 / 2048 :=
  roundF32_eq ((3139659 / 256) * (14123677 / 33554432)) (12) (10572321) (10572321 / 2048)
    (by norm_num) (by norm_num [abs_of_pos, abs_of_neg, abs_mul, abs_div])
    (by norm_num [abs_of_pos, abs_of_neg, abs_mul, abs_div])
    (by norm_num) (by norm_num) (by norm_num)

theorem noon32_74 :
    roundF32 (-(16255445 / 16777216) * (11049653 / 1024)) = -(10706009 / 1024) :=
  roundF32_eq (-(16255445 / 16777216) * (11049653 / 1024)) (13) (-10706009) (-(10706009 / 1024))
    (by norm_num) (by norm_num [abs_of_pos, abs_of_neg, abs_mul, abs_div])
    (by norm_num [abs_of_pos, abs_of_neg, abs_mul, abs_div])
    (by norm_num) (by norm_num) (by norm_num)

theorem noon32_75 :
    roundF32 ((15735351 / 8388608) * 13290) = 3190961 / 128 :=
  roundF32_eq ((15735351 / 8388608) * 13290) (14) (12763844) (3190961 / 128)
    (by norm_num) (by norm_num [abs_of_pos, abs_of_neg, abs_mul, abs_div])
    (by norm_num [abs_of_pos, abs_of_neg, abs_mul, abs_div])
    (by norm_num) (by norm_num) (by norm_num)

theorem noon32_76 :
    roundF32 (-(10706009 / 1024) + (3190961 / 128)) = 14821679 / 1024 :=
  roundF32_eq (-(10706009 / 1024) + (3190961 / 128)) (13) (14821679) (14821679 / 1024)
    (by norm_num) (by norm_num [abs_of_pos, abs_of_neg, abs_mul, abs_div])
    (by norm_num [abs_of_pos, abs_of_neg, abs_mul, abs_div])
    (by norm_num) (by norm_num) (by norm_num)

theorem noon32_77 :
    roundF32 ((11140071 / 268435456) * (291965 / 64)) = 775459 / 4096 :=
  roundF32_eq ((11140071 / 268435456) * (291965 / 64)) (7) (12407344) (775459 / 4096)
    (by norm_num) (by norm_num [abs_of_pos, abs_of_neg, abs_mul, abs_div])
    (by norm_num [abs_of_pos, abs_of_neg, abs_mul, abs_div])
    (by norm_num) (by norm_num) (by norm_num)

theorem noon32_78 :
    roundF32 ((14821679 / 1024) + (775459 / 4096)) = 1876943 / 128 :=
  roundF32_eq ((14821679 / 1024) + (775459 / 4096)) (13) (15015544) (1876943 / 128)
    (by norm_num) (by norm_num [abs_of_pos, abs_of_neg, abs_mul, abs_div])
    (by norm_num [abs_of_pos, abs_of_neg, abs_mul, abs_div])
    (by norm_num) (by norm_num) (by norm_num)

theorem noon32_79 :
    roundF32 ((1876943 / 128) * (14123677 / 33554432)) = 12640637 / 2048 :=
  roundF32_eq ((1876943 / 128) * (14123677 / 33554432)) (12) (12640637) (12640637 / 2048)
    (by norm_num) (by norm_num [abs_of_pos, abs_of_neg, abs_mul, abs_div])
    (by norm_num [abs_of_pos, abs_of_neg, abs_mul, abs_div])
    (by norm_num) (by norm_num) (by norm_num)

theorem noon32_80 :
    roundF32 ((14951855 / 268435456) * (11049653 / 1024)) = 9847451 / 16384 :=
  roundF32_eq ((14951855 / 268435456) * (11049653 / 1024)) (9) (9847451) (9847451 / 16384)
    (by norm_num) (by norm_num [abs_of_pos, abs_of_neg, abs_mul, abs_div])
    (by norm_num [abs_of_pos, abs_of_neg, abs_mul, abs_div])
    (by norm_num) (by norm_num) (by norm_num)

theorem noon32_81 :
    roundF32 (-(427819 / 2097152) * 13290) = -(11104911 / 4096) :=
  roundF32_eq (-(427819 / 2097152) * 13290) (11) (-11104911) (-(11104911 / 4096))
    (by norm_num) (by norm_num [abs_of_pos, abs_of_neg, abs_mul, abs_div])
    (by norm_num [abs_of_pos, abs_of_neg, abs_mul, abs_div])
    (by norm_num) (by norm_num) (by norm_num)

theorem noon32_82 :
    roundF32 ((9847451 / 16384) + -(11104911 / 4096)) = -(1080381 / 512) :=
  roundF32_eq ((9847451 / 16384) + -(11104911 / 4096)) (11) (-8643048) (-(1080381 / 512))
    (by norm_num) (by norm_num [abs_of_pos, abs_of_neg, abs_mul, abs_div])
    (by norm_num [abs_of_pos, abs_of_neg, abs_mul, abs_div])
    (by norm_num) (by norm_num) (by norm_num)

theorem noon32_83 :
    roundF32 ((8866759 / 8388608) * (291965 / 64)) = 9875425 / 2048 :=
  roundF32_eq ((8866759 / 8388608) * (291965 / 64)) (12) (9875425) (9875425 / 2048)
    (by norm_num) (by norm_num [abs_of_pos, abs_of_neg, abs_mul, abs_div])
    (by norm_num [abs_of_pos, abs_of_neg, abs_mul, abs_div])
    (by norm_num) (by norm_num) (by norm_num)

theorem noon32_84 :
    roundF32 (-(1080381 / 512) + (9875425 / 2048)) = 5553901 / 2048 :=
  roundF32_eq (-(1080381 / 512) + (9875425 / 2048)) (11) (11107802) (5553901 / 2048)
    (by norm_num) (by norm_num [abs_of_pos, abs_of_neg, abs_mul, abs_div])
    (by norm_num [abs_of_pos, abs_of_neg, abs_mul, abs_div])
    (by norm_num) (by norm_num) (by norm_num)

theorem noon32_85 :
    roundF32 ((5553901 / 2048) * (14123677 / 33554432)) = 2337739 / 2048 :=
  roundF32_eq ((5553901 / 2048) * (14123677 / 33554432)) (10) (9350956) (2337739 / 2048)
    (by norm_num) (by norm_num [abs_of_pos, abs_of_neg, abs_mul, abs_div])
    (by norm_num [abs_of_pos, abs_of_neg, abs_mul, abs_div])
    (by norm_num) (by norm_num) (by norm_num)

theorem isSunsetLevel_direct_ieee :
    isSunsetLevel ieeeRounding (kDirectSunIllum ieeeRounding) = false := by
  simp only [isSunsetLevel, kDirectSunIllum, kSunsetIllum, kTwilightIllum, ieee_add, ieee_sub,
    ieee_mul, ieee_div, ieee_ofInt, ieee_lit, ieee_litD, Int.cast_ofNat, Int.cast_zero,
    Int.cast_one, noon32_1, noon32_2, noon32_3, Bool.or_eq_false_iff, beq_eq_false_iff_ne]
  norm_num

theorem time_frac_zero_ieee : time_frac ieeeRounding 0 = 0 := by
  have hden : (kOneHourInNsec * kTimeStep : Int) = 7200000000000 := rfl
  simp only [time_frac, hden, ieee_add, ieee_sub, ieee_mul, ieee_div, ieee_ofInt, ieee_lit,
    ieee_litD, Int.cast_ofNat, Int.cast_zero, Int.cast_one, noon32_4, noon32_5, noon32_6]

theorem interpolate_noon_ieee :
    interpolate ieeeRounding (kDirectSunIllum ieeeRounding) (kDirectSunIllum ieeeRounding) 0
      = 100000 ∧
    interpolate ieeeRounding (kDirectSunlightXY ieeeRounding).x (kDirectSunlightXY ieeeRounding).x 0
      = 11691035 / 33554432 ∧
    interpolate ieeeRounding (kDirectSunlightXY ieeeRounding).y (kDirectSunlightXY ieeeRounding).y 0
      = 5899037 / 16777216 ∧
    interpolate ieeeRounding (ieeeRounding.ofInt 0) (ieeeRounding.ofInt 0) 0 = 0 := by
  simp only [interpolate, kDirectSunIllum, kDirectSunlightXY, ieee_add, ieee_sub, ieee_mul,
    ieee_div, ieee_ofInt, ieee_lit, ieee_litD, Int.cast_ofNat, Int.cast_zero, Int.cast_one,
    noon32_1, noon32_4, noon32_7, noon32_8, noon32_9, noon32_10, noon32_11, noon32_12, noon32_13,
    noon32_14, noon32_15, noon32_16, noon32_17, noon32_18, noon32_19, noon32_20, noon32_21,
    noon32_22, and_self]

/-- The direct illumination at noon (hour 12, time 0) in binary32. -/
theorem noon_direct_ieee :
    (noonIllumination ieeeRounding).direct_illum_xyz
      = ⟨6341935 / 64, 100000, 10920097 / 128⟩ := by
  simp only [noonIllumination, illuminate, isSunsetLevel_direct_ieee, Bool.false_eq_true,
    if_false, time_frac_zero_ieee, interpolate_noon_ieee.1, interpolate_noon_ieee.2.1,
    interpolate_noon_ieee.2.2.1, interpolate_noon_ieee.2.2.2, xyY_to_XYZ]
  simp only [kMoonlightXY, kClearNightIllum, ieee_add, ieee_sub, ieee_mul, ieee_div, ieee_ofInt,
    ieee_lit, ieee_litD, Int.cast_ofNat, Int.cast_zero, Int.cast_one, noon32_23, noon32_24,
    noon32_9, noon32_25, noon32_26, noon32_27, noon32_7, noon32_8, noon32_28, noon32_29,
    noon32_30, noon32_31, noon32_32, noon32_33, noon32_34, noon32_35, noon32_36, noon32_37,
    noon32_13, noon32_38, noon32_39, noon32_40]

/-- The four counts of the grass material at noon in binary32. -/
theorem grassCount_ieee :
    grassCount ieeeRounding (defaultFilterR ieeeRounding) = 10572321 / 2048 ∧
    grassCount ieeeRounding (defaultFilterGr ieeeRounding) = 12640637 / 2048 ∧
    grassCount ieeeRounding (defaultFilterGb ieeeRounding) = 12640637 / 2048 ∧
    grassCount ieeeRounding (defaultFilterB ieeeRounding) = 2337739 / 2048 := by
  simp only [grassCount, mat_xyz_grass, noon_direct_ieee, channel, xyY_to_XYZ, defaultFilterR,
    defaultFilterGr, defaultFilterGb, defaultFilterB, kAperture, ieee_add, ieee_sub, ieee_mul,
    ieee_div, ieee_ofInt, ieee_lit, ieee_litD, Int.cast_ofNat, Int.cast_zero, Int.cast_one,
    noon32_41, noon32_42, noon32_43, noon32_44, noon32_45, noon32_9, noon32_46, noon32_47,
    noon32_48, noon32_49, noon32_50, noon32_51, noon32_52, noon32_53, noon32_54, noon32_55,
    noon32_56, noon32_57, noon32_58, noon32_59, noon32_60, noon32_61, noon32_62, noon32_63,
    noon32_64, noon32_65, noon32_66, noon32_67, noon32_68, noon32_69, noon32_70, noon32_71,
    noon32_72, noon32_73, noon32_74, noon32_75, noon32_76, noon32_77, noon32_78, noon32_79,
    noon32_80, noon32_81, noon32_82, noon32_83, noon32_84, noon32_85, and_self]

theorem illumination_noon (fm : Rounding) : illumination fm 12 0 = some (noonIllumination fm) :=
  illumination_eq fm 12 0 (by decide)

/-- At hour 12 and time 0, with sensitivity 100 and exposure duration `0.033f`, `CalculateScene`
returns and the entries of material 0 are the values `grassCount` of the four filters. -/
theorem grass_entries (fm : FloatModel) (hd : Header) (s : Scene) (d : Int)
    (hNC : 4 ≤ hd.NUM_CHANNELS)
    (hl : NUM_MATERIALS * hd.NUM_CHANNELS ≤ s.current_colors_.length)
    (hh : s.hour_ = 12) (hs : s.sensor_sensitivity_ = fm.ofInt 100)
    (he : s.exposure_duration_ = fm.lit (33 / 1000))
    (ho : -2147483648 ≤ signedOrientation s ∧ signedOrientation s < 2147483648) :
    ∃ s', CalculateScene fm hd none s 0 d = some s' ∧
      ∀ c, c < 4 → s'.current_colors_[0 * hd.NUM_CHANNELS + c]?
        = some (hd.storeColor (grassCount fm.toRounding (channelFilter s c))) := by
  have hil : illumination fm.toRounding s.hour_ 0 = some (noonIllumination fm.toRounding) := by
    rw [hh]
    exact illumination_noon fm.toRounding
  refine ⟨_, CalculateScene_none_of fm hd s 0 d _ hil ho, ?_⟩
  intro c hc
  rw [sceneAfter_current_colors, calculateColors_getElem? fm.toRounding hd s _ hNC hl 0 c
    (by decide) hc]
  unfold storedCount grassCount lux_to_electrons
  rw [hs, he]

theorem constructedScene_fields (fm : Rounding) :
    EmulatedScene fm sampleHeader sampleMemory 640 480 (fm.ofInt 100) 90 false
      = some (constructedScene fm) ∧
    (constructedScene fm).hour_ = 12 ∧ (constructedScene fm).sensor_sensitivity_ = fm.ofInt 100 ∧
    (constructedScene fm).exposure_duration_ = fm.lit (33 / 1000) ∧
    (constructedScene fm).filter_r_ = defaultFilterR fm ∧
    (constructedScene fm).filter_gr_ = defaultFilterGr fm ∧
    (constructedScene fm).filter_gb_ = defaultFilterGb fm ∧
    (constructedScene fm).filter_b_ = defaultFilterB fm ∧
    (constructedScene fm).current_colors_.length = 44 ∧
    signedOrientation (constructedScene fm) = 90 :=
  ⟨rfl, rfl, rfl, rfl, rfl, rfl, rfl, rfl, rfl, rfl⟩

/-- C16 (amended).  In exact arithmetic and in IEEE 754 binary32: with hour 12, time 0,
exposure duration `0.033f`, sensitivity 100, the filters the constructor stores and no live
source, `CalculateScene` returns, and the values it stores for material 0 (GRASS) at the offsets
0, 1, 2, 3 (R, Gr, Gb, B) of its row are the stored forms of four `float` values `r`, `gr`, `gb`,
`b` that are strictly positive and satisfy `b < r`: the B count is below the R count.  The rows
of the table have at least four entries and the table holds `NUM_MATERIALS` rows. -/
theorem grass_counts_at_noon (fm : FloatModel)
    (hfm : fm.toRounding = exactRounding ∨ fm.toRounding = ieeeRounding) (hd : Header)
    (s : Scene) (d : Int) (hNC : 4 ≤ hd.NUM_CHANNELS)
    (hl : NUM_MATERIALS * hd.NUM_CHANNELS ≤ s.current_colors_.length)
    (hh : s.hour_ = 12) (hs : s.sensor_sensitivity_ = fm.ofInt 100)
    (he : s.exposure_duration_ = fm.lit (33 / 1000))
    (hfr : s.filter_r_ = defaultFilterR fm.toRounding)
    (hfgr : s.filter_gr_ = defaultFilterGr fm.toRounding)
    (hfgb : s.filter_gb_ = defaultFilterGb fm.toRounding)
    (hfb : s.filter_b_ = defaultFilterB fm.toRounding)
    (ho : -2147483648 ≤ signedOrientation s ∧ signedOrientation s < 2147483648) :
    ∃ s' r gr gb b, CalculateScene fm hd none s 0 d = some s' ∧
      s'.current_colors_[0 * hd.NUM_CHANNELS + 0]? = some (hd.storeColor r) ∧
      s'.current_colors_[0 * hd.NUM_CHANNELS + 1]? = some (hd.storeColor gr) ∧
      s'.current_colors_[0 * hd.NUM_CHANNELS + 2]? = some (hd.storeColor gb) ∧
      s'.current_colors_[0 * hd.NUM_CHANNELS + 3]? = some (hd.storeColor b) ∧
      0 < r ∧ 0 < gr ∧ 0 < gb ∧ 0 < b ∧ b < r := by
  obtain ⟨s', hs', hent⟩ := grass_entries fm hd s d hNC hl hh hs he ho
  have h0 := hent 0 (by decide)
  have h1 := hent 1 (by decide)
  have h2 := hent 2 (by decide)
  have h3 := hent 3 (by decide)
  have f0 : channelFilter s 0 = defaultFilterR fm.toRounding := hfr
  have f1 : channelFilter s 1 = defaultFilterGr fm.toRounding := hfgr
  have f2 : channelFilter s 2 = defaultFilterGb fm.toRounding := hfgb
  have f3 : channelFilter s 3 = defaultFilterB fm.toRounding := hfb
  rw [f0] at h0
  rw [f1] at h1
  rw [f2] at h2
  rw [f3] at h3
  refine ⟨s', _, _, _, _, hs', h0, h1, h2, h3, ?_⟩
  rcases hfm with hfm | hfm
  · rw [hfm]
    obtain ⟨e0, e1, e2, e3⟩ := grassCount_exact
    rw [e0, e1, e2, e3]
    norm_num
  · rw [hfm]
    obtain ⟨e0, e1, e2, e3⟩ := grassCount_ieee
    rw [e0, e1, e2, e3]
    norm_num

theorem grass_counts_at_noon_witness :
    ∃ s' r gr gb b, CalculateScene (exactArith id) sampleHeader none
        (constructedScene exactRounding) 0 0 = some s' ∧
      s'.current_colors_[0 * sampleHeader.NUM_CHANNELS + 0]? = some (sampleHeader.storeColor r) ∧
      s'.current_colors_[0 * sampleHeader.NUM_CHANNELS + 1]? = some (sampleHeader.storeColor gr) ∧
      s'.current_colors_[0 * sampleHeader.NUM_CHANNELS + 2]? = some (sampleHeader.storeColor gb) ∧
      s'.current_colors_[0 * sampleHeader.NUM_CHANNELS + 3]? = some (sampleHeader.storeColor b) ∧
      0 < r ∧ 0 < gr ∧ 0 < gb ∧ 0 < b ∧ b < r :=
  grass_counts_at_noon (exactArith id) (Or.inl rfl) sampleHeader (constructedScene exactRounding) 0
    (by decide) (by rw [(constructedScene_fields exactRounding).2.2.2.2.2.2.2.2.1]; decide)
    (constructedScene_fields exactRounding).2.1 (constructedScene_fields exactRounding).2.2.1
    (constructedScene_fields exactRounding).2.2.2.1 (constructedScene_fields exactRounding).2.2.2.2.1
    (constructedScene_fields exactRounding).2.2.2.2.2.1
    (constructedScene_fields exactRounding).2.2.2.2.2.2.1
    (constructedScene_fields exactRounding).2.2.2.2.2.2.2.1
    (by rw [(constructedScene_fields exactRounding).2.2.2.2.2.2.2.2.2]; omega)

/-- C16 (counterexample).  The scene the constructor builds in binary32 for sensitivity 100 has
hour 12, exposure duration `0.033f` and the default filters.  `CalculateScene` at time 0 stores
for GRASS the R count 10572321 / 2048 (about 5162.27) and the B count 2337739 / 2048 (about
1141.47): the R count is not below the B count. -/
theorem grass_red_exceeds_blue :
    EmulatedScene ieeeRounding sampleHeader sampleMemory 640 480 (ieeeRounding.ofInt 100) 90 false
      = some (constructedScene ieeeRounding) ∧
    ∃ s', CalculateScene ⟨ieeeRounding, id⟩ sampleHeader none (constructedScene ieeeRounding) 0 0
        = some s' ∧
      s'.current_colors_[0]? = some (10572321 / 2048) ∧
      s'.current_colors_[3]? = some (2337739 / 2048) ∧
      ¬ ((10572321 : ℚ) / 2048 < 2337739 / 2048) := by
  have hf := constructedScene_fields ieeeRounding
  obtain ⟨s', hs', hent⟩ := grass_entries ⟨ieeeRounding, id⟩ sampleHeader
    (constructedScene ieeeRounding) 0 (by decide) (by rw [hf.2.2.2.2.2.2.2.2.1]; decide)
    hf.2.1 hf.2.2.1 hf.2.2.2.1 (by rw [hf.2.2.2.2.2.2.2.2.2]; omega)
  have h0 := hent 0 (by decide)
  have h3 := hent 3 (by decide)
  have f0 : channelFilter (constructedScene ieeeRounding) 0 = defaultFilterR ieeeRounding :=
    hf.2.2.2.2.1
  have f3 : channelFilter (constructedScene ieeeRounding) 3 = defaultFilterB ieeeRounding :=
    hf.2.2.2.2.2.2.2.1
  rw [f0, grassCount_ieee.1] at h0
  rw [f3, grassCount_ieee.2.2.2] at h3
  exact ⟨hf.1, s', hs', h0, h3, by norm_num⟩

/-! ## C9: the interpolation in binary32

Each lemma `interp32_n` evaluates one rounding of the computation of `time_frac` and of the sun
illuminance at three instants, in the order of the computation. -/

theorem interp32_1 :
    roundF32 516491588668 = 516491575296 :=
  roundF32_eq (516491588668) (38) (15762072) (516491575296)
    (by norm_num) (by norm_num [abs_of_pos, abs_of_neg, abs_mul, abs_div])
    (by norm_num [abs_of_pos, abs_of_neg, abs_mul, abs_div])
    (by norm_num) (by norm_num) (by norm_num)

theorem interp32_2 :
    roundF32 7200000000000 = 7199999918080 :=
  roundF32_eq (7200000000000) (42) (13732910) (7199999918080)
    (by norm_num) (by norm_num [abs_of_pos, abs_of_neg, abs_mul, abs_div])
    (by norm_num [abs_of_pos, abs_of_neg, abs_mul, abs_div])
    (by norm_num) (by norm_num) (by norm_num)

theorem interp32_3 :
    roundF32 (516491575296 / 7199999918080) = 9628101 / 134217728 :=
  roundF32_eq (516491575296 / 7199999918080) (-4) (9628101) (9628101 / 134217728)
    (by norm_num) (by norm_num [abs_of_pos, abs_of_neg, abs_mul, abs_div])
    (by norm_num [abs_of_pos, abs_of_neg, abs_mul, abs_div])
    (by norm_num) (by norm_num) (by norm_num)

theorem interp32_4 :
    roundF32 100000 = 100000 :=
  roundF32_eq (100000) (16) (12800000) (100000)
    (by norm_num) (by norm_num [abs_of_pos, abs_of_neg, abs_mul, abs_div])
    (by norm_num [abs_of_pos, abs_of_neg, abs_mul, abs_div])
    (by norm_num) (by norm_num) (by norm_num)

theorem interp32_5 :
    roundF32 1 = 1 :=
  roundF32_eq (1) (0) (8388608) (1)
    (by norm_num) (by norm_num [abs_of_pos, abs_of_neg, abs_mul, abs_div])
    (by norm_num [abs_of_pos, abs_of_neg, abs_mul, abs_div])
    (by norm_num) (by norm_num) (by norm_num)

theorem interp32_6 :
    roundF32 (1 - (9628101 / 134217728)) = 15573703 / 16777216 :=
  roundF32_eq (1 - (9628101 / 134217728)) (-1) (15573703) (15573703 / 16777216)
    (by norm_num) (by norm_num [abs_of_pos, abs_of_neg, abs_mul, abs_div])
    (by norm_num [abs_of_pos, abs_of_neg, abs_mul, abs_div])
    (by norm_num) (by norm_num) (by norm_num)

theorem interp32_7 :
    roundF32 (100000 * (15573703 / 16777216)) = 185653 / 2 :=
  roundF32_eq (100000 * (15573703 / 16777216)) (16) (11881792) (185653 / 2)
    (by norm_num) (by norm_num [abs_of_pos, abs_of_neg, abs_mul, abs_div])
    (by norm_num [abs_of_pos, abs_of_neg, abs_mul, abs_div])
    (by norm_num) (by norm_num) (by norm_num)

theorem interp32_8 :
    roundF32 (100000 * (9628101 / 134217728)) = 3672829 / 512 :=
  roundF32_eq (100000 * (9628101 / 134217728)) (12) (14691316) (3672829 / 512)
    (by norm_num) (by norm_num [abs_of_pos, abs_of_neg, abs_mul, abs_div])
    (by norm_num [abs_of_pos, abs_of_neg, abs_mul, abs_div])
    (by norm_num) (by norm_num) (by norm_num)

theorem interp32_9 :
    roundF32 ((185653 / 2) + (3672829 / 512)) = 12799999 / 128 :=
  roundF32_eq ((185653 / 2) + (3672829 / 512)) (16) (12799999) (12799999 / 128)
    (by norm_num) (by norm_num [abs_of_pos, abs_of_neg, abs_mul, abs_div])
    (by norm_num [abs_of_pos, abs_of_neg, abs_mul, abs_div])
    (by norm_num) (by norm_num) (by norm_num)

theorem interp32_10 :
    roundF32 2556667987836 = 2556667887616 :=
  roundF32_eq (2556667987836) (41) (9752914) (2556667887616)
    (by norm_num) (by norm_num [abs_of_pos, abs_of_neg, abs_mul, abs_div])
    (by norm_num [abs_of_pos, abs_of_neg, abs_mul, abs_div])
    (by norm_num) (by norm_num) (by norm_num)

theorem interp32_11 :
    roundF32 (2556667887616 / 7199999918080) = 1489367 / 4194304 :=
  roundF32_eq (2556667887616 / 7199999918080) (-2) (11914936) (1489367 / 4194304)
    (by norm_num) (by norm_num [abs_of_pos, abs_of_neg, abs_mul, abs_div])
    (by norm_num [abs_of_pos, abs_of_neg, abs_mul, abs_div])
    (by norm_num) (by norm_num) (by norm_num)

theorem interp32_12 :
    roundF32 400 = 400 :=
  roundF32_eq (400) (8) (13107200) (400)
    (by norm_num) (by norm_num [abs_of_pos, abs_of_neg, abs_mul, abs_div])
    (by norm_num [abs_of_pos, abs_of_neg, abs_mul, abs_div])
    (by norm_num) (by norm_num) (by norm_num)

theorem interp32_13 :
    roundF32 (1 - (1489367 / 4194304)) = 2704937 / 4194304 :=
  roundF32_eq (1 - (1489367 / 4194304)) (-1) (10819748) (2704937 / 4194304)
    (by norm_num) (by norm_num [abs_of_pos, abs_of_neg, abs_mul, abs_div])
    (by norm_num [abs_of_pos, abs_of_neg, abs_mul, abs_div])
    (by norm_num) (by norm_num) (by norm_num)

theorem interp32_14 :
    roundF32 (100000 * (2704937 / 4194304)) = 16509625 / 256 :=
  roundF32_eq (100000 * (2704937 / 4194304)) (15) (16509625) (16509625 / 256)
    (by norm_num) (by norm_num [abs_of_pos, abs_of_neg, abs_mul, abs_div])
    (by norm_num [abs_of_pos, abs_of_neg, abs_mul, abs_div])
    (by norm_num) (by norm_num) (by norm_num)

theorem interp32_15 :
    roundF32 (400 * (1489367 / 4194304)) = 72723 / 512 :=
  roundF32_eq (400 * (1489367 / 4194304)) (7) (9308544) (72723 / 512)
    (by norm_num) (by norm_num [abs_of_pos, abs_of_neg, abs_mul, abs_div])
    (by norm_num [abs_of_pos, abs_of_neg, abs_mul, abs_div])
    (by norm_num) (by norm_num) (by norm_num)

theorem interp32_16 :
    roundF32 ((16509625 / 256) + (72723 / 512)) = 8272993 / 128 :=
  roundF32_eq_tie ((16509625 / 256) + (72723 / 512)) (15) 16545986 (8272993 / 128)
    (by norm_num) (by norm_num [abs_of_pos, abs_of_neg, abs_mul, abs_div])
    (by norm_num [abs_of_pos, abs_of_neg, abs_mul, abs_div])
    (by norm_num [abs_of_pos, abs_of_neg]) (by decide) (by norm_num)

theorem interp32_17 :
    roundF32 2556668020604 = 2556668149760 :=
  roundF32_eq (2556668020604) (41) (9752915) (2556668149760)
    (by norm_num) (by norm_num [abs_of_pos, abs_of_neg, abs_mul, abs_div])
    (by norm_num [abs_of_pos, abs_of_neg, abs_mul, abs_div])
    (by norm_num) (by norm_num) (by norm_num)

theorem interp32_18 :
    roundF32 (2556668149760 / 7199999918080) = 11914937 / 33554432 :=
  roundF32_eq (2556668149760 / 7199999918080) (-2) (11914937) (11914937 / 33554432)
    (by norm_num) (by norm_num [abs_of_pos, abs_of_neg, abs_mul, abs_div])
    (by norm_num [abs_of_pos, abs_of_neg, abs_mul, abs_div])
    (by norm_num) (by norm_num) (by norm_num)

theorem interp32_19 :
    roundF32 (1 - (11914937 / 33554432)) = 2704937 / 4194304 :=
  roundF32_eq_tie (1 - (11914937 / 33554432)) (-1) 10819748 (2704937 / 4194304)
    (by norm_num) (by norm_num [abs_of_pos, abs_of_neg, abs_mul, abs_div])
    (by norm_num [abs_of_pos, abs_of_neg, abs_mul, abs_div])
    (by norm_num [abs_of_pos, abs_of_neg]) (by decide) (by norm_num)

theorem interp32_20 :
    roundF32 (400 * (11914937 / 33554432)) = 9308545 / 65536 :=
  roundF32_eq (400 * (11914937 / 33554432)) (7) (9308545) (9308545 / 65536)
    (by norm_num) (by norm_num [abs_of_pos, abs_of_neg, abs_mul, abs_div])
    (by norm_num [abs_of_pos, abs_of_neg, abs_mul, abs_div])
    (by norm_num) (by norm_num) (by norm_num)

theorem interp32_21 :
    roundF32 ((16509625 / 256) + (9308545 / 65536)) = 16545987 / 256 :=
  roundF32_eq ((16509625 / 256) + (9308545 / 65536)) (15) (16545987) (16545987 / 256)
    (by norm_num) (by norm_num [abs_of_pos, abs_of_neg, abs_mul, abs_div])
    (by norm_num [abs_of_pos, abs_of_neg, abs_mul, abs_div])
    (by norm_num) (by norm_num) (by norm_num)

theorem time_frac_binary32_under : time_frac ieeeRounding 516491588668 = 9628101 / 134217728 := by
  have hden : (kOneHourInNsec * kTimeStep : Int) = 7200000000000 := rfl
  simp only [time_frac, hden, ieee_add, ieee_sub, ieee_mul, ieee_div, ieee_ofInt,
    ieee_lit, ieee_litD, Int.cast_ofNat, Int.cast_zero, Int.cast_one,
    interp32_1, interp32_2, interp32_3]

theorem interpolate_binary32_under :
    interpolate ieeeRounding 100000 100000 (9628101 / 134217728) = 12799999 / 128 := by
  simp only [interpolate, ieee_add, ieee_sub, ieee_mul, ieee_div, ieee_ofInt,
    ieee_lit, ieee_litD, Int.cast_ofNat, Int.cast_zero, Int.cast_one,
    interp32_5, interp32_6, interp32_7, interp32_8, interp32_9]

theorem time_frac_binary32_early : time_frac ieeeRounding 2556667987836 = 1489367 / 4194304 := by
  have hden : (kOneHourInNsec * kTimeStep : Int) = 7200000000000 := rfl
  simp only [time_frac, hden, ieee_add, ieee_sub, ieee_mul, ieee_div, ieee_ofInt,
    ieee_lit, ieee_litD, Int.cast_ofNat, Int.cast_zero, Int.cast_one,
    interp32_10, interp32_2, interp32_11]

theorem interpolate_binary32_early :
    interpolate ieeeRounding 100000 400 (1489367 / 4194304) = 8272993 / 128 := by
  simp only [interpolate, ieee_add, ieee_sub, ieee_mul, ieee_div, ieee_ofInt,
    ieee_lit, ieee_litD, Int.cast_ofNat, Int.cast_zero, Int.cast_one,
    interp32_5, interp32_13, interp32_14, interp32_15, interp32_16]

theorem time_frac_binary32_late : time_frac ieeeRounding 2556668020604 = 11914937 / 33554432 := by
  have hden : (kOneHourInNsec * kTimeStep : Int) = 7200000000000 := rfl
  simp only [time_frac, hden, ieee_add, ieee_sub, ieee_mul, ieee_div, ieee_ofInt,
    ieee_lit, ieee_litD, Int.cast_ofNat, Int.cast_zero, Int.cast_one,
    interp32_17, interp32_2, interp32_18]

theorem interpolate_binary32_late :
    interpolate ieeeRounding 100000 400 (11914937 / 33554432) = 16545987 / 256 := by
  simp only [interpolate, ieee_add, ieee_sub, ieee_mul, ieee_div, ieee_ofInt,
    ieee_lit, ieee_litD, Int.cast_ofNat, Int.cast_zero, Int.cast_one,
    interp32_5, interp32_19, interp32_14, interp32_20, interp32_21]

/-- C9 (counterexample).  In IEEE 754 binary32: at hour 1 and offset 3599999999999 ns, one
nanosecond before the end of the hour, `time_frac` is exactly 1, not below 1.  At hour 8, between
two buckets that both hold 100000 lux, the sun illuminance is 100000.0078125 at offset
507820912699 ns, above the larger entry, and 99999.9921875 at offset 516491588668 ns, below the
smaller one.  At hour 16, between the buckets 100000 and 400, the sun illuminance is
64632.7578125 at offset 2556667987836 ns and 64632.76171875 at the later offset 2556668020604 ns:
it grows while the entries fall. -/
theorem binary32_interpolation_strays :
    (3599999999999 : Int) < kOneHourInNsec ∧
    (∃ il, illumination ieeeRounding 1 3599999999999 = some il ∧ il.time_frac = 1) ∧
    (∃ il, illumination ieeeRounding 8 507820912699 = some il ∧
      readTable (kSunlight ieeeRounding) il.time_idx = some 100000 ∧
      readTable (kSunlight ieeeRounding) il.next_time_idx = some 100000 ∧
      il.sun_lux = 12800001 / 128 ∧ max (100000 : ℚ) 100000 < 12800001 / 128) ∧
    (∃ il, illumination ieeeRounding 8 516491588668 = some il ∧
      readTable (kSunlight ieeeRounding) il.time_idx = some 100000 ∧
      readTable (kSunlight ieeeRounding) il.next_time_idx = some 100000 ∧
      il.sun_lux = 12799999 / 128 ∧ (12799999 : ℚ) / 128 < min 100000 100000) ∧
    (∃ il il', illumination ieeeRounding 16 2556667987836 = some il ∧
      illumination ieeeRounding 16 2556668020604 = some il' ∧
      (2556667987836 : Int) ≤ 2556668020604 ∧ (2556668020604 : Int) < kOneHourInNsec ∧
      readTable (kSunlight ieeeRounding) il.time_idx = some 100000 ∧
      readTable (kSunlight ieeeRounding) il.next_time_idx = some 400 ∧
      il.sun_lux = 8272993 / 128 ∧ il'.sun_lux = 16545987 / 256 ∧
      (400 : ℚ) ≤ 100000 ∧ ¬ (il'.sun_lux ≤ il.sun_lux)) := by
  have hS : ieeeRounding.ofInt 100000 = 100000 := by
    simp only [ieee_ofInt, Int.cast_ofNat, interp32_4]
  have hT : ieeeRounding.ofInt 400 = 400 := by
    simp only [ieee_ofInt, Int.cast_ofNat, interp32_12]
  have hS4 : (kSunlight ieeeRounding).getD 4 0 = 100000 := hS
  have hS5 : (kSunlight ieeeRounding).getD 5 0 = 100000 := hS
  have hS8 : (kSunlight ieeeRounding).getD 8 0 = 100000 := hS
  have hS9 : (kSunlight ieeeRounding).getD 9 0 = 400 := hT
  refine ⟨binary32_interpolation_overshoots.1, binary32_interpolation_overshoots.2.1,
    binary32_interpolation_overshoots.2.2,
    ⟨_, illumination_eq ieeeRounding 8 516491588668 (by decide), ?_, ?_, ?_, by norm_num⟩,
    ⟨_, _, illumination_eq ieeeRounding 16 2556667987836 (by decide),
      illumination_eq ieeeRounding 16 2556668020604 (by decide), by decide, by decide, ?_, ?_,
      ?_, ?_, by norm_num, ?_⟩⟩
  · show readTable (kSunlight ieeeRounding) (time_idx 8) = _
    rw [readTable_some _ _ (by decide) (by decide)]
    exact congrArg some hS4
  · show readTable (kSunlight ieeeRounding) (next_time_idx 8) = _
    rw [readTable_some _ _ (by decide) (by decide)]
    exact congrArg some hS5
  · show interpolate ieeeRounding ((kSunlight ieeeRounding).getD 4 0)
      ((kSunlight ieeeRounding).getD 5 0) (time_frac ieeeRounding 516491588668) = _
    rw [hS4, hS5, time_frac_binary32_under, interpolate_binary32_under]
  · show readTable (kSunlight ieeeRounding) (time_idx 16) = _
    rw [readTable_some _ _ (by decide) (by decide)]
    exact congrArg some hS8
  · show readTable (kSunlight ieeeRounding) (next_time_idx 16) = _
    rw [readTable_some _ _ (by decide) (by decide)]
    exact congrArg some hS9
  · show interpolate ieeeRounding ((kSunlight ieeeRounding).getD 8 0)
      ((kSunlight ieeeRounding).getD 9 0) (time_frac ieeeRounding 2556667987836) = _
    rw [hS8, hS9, time_frac_binary32_early, interpolate_binary32_early]
  · show interpolate ieeeRounding ((kSunlight ieeeRounding).getD 8 0)
      ((kSunlight ieeeRounding).getD 9 0) (time_frac ieeeRounding 2556668020604) = _
    rw [hS8, hS9, time_frac_binary32_late, interpolate_binary32_late]
  · show ¬ (interpolate ieeeRounding ((kSunlight ieeeRounding).getD 8 0)
      ((kSunlight ieeeRounding).getD 9 0) (time_frac ieeeRounding 2556668020604)
      ≤ interpolate ieeeRounding ((kSunlight ieeeRounding).getD 8 0)
      ((kSunlight ieeeRounding).getD 9 0) (time_frac ieeeRounding 2556667987836))
    rw [hS8, hS9, time_frac_binary32_early, interpolate_binary32_early,
      time_frac_binary32_late, interpolate_binary32_late]
    norm_num

/-! ## C13: the entries of a colour table of integers -/

theorem truncStore_eq (q : ℚ) (n : Int) (h0 : 0 ≤ q) (h1 : (n : ℚ) ≤ q) (h2 : q < n + 1) :
    truncStore q = n := by
  unfold truncStore
  rw [if_pos h0, Int.floor_eq_iff.2 ⟨h1, h2⟩]

/-- C13 (counterexample).  Exact arithmetic and a colour table of integers.  For the scene the
constructor builds (hour 12, sensitivity 100, exposure duration 0.033) `CalculateScene` at time 0
stores 5162 as the R count of material 0, the integer part of about 5162.27.  After the exposure
duration has been multiplied by 4, everything else fixed, it stores 20649, the integer part of
about 20649.06, and not 4 * 5162 = 20648. -/
theorem integer_count_not_scaled :
    ∃ s' sk, CalculateScene (exactArith id) integerHeader none (constructedScene exactRounding)
        0 0 = some s' ∧
      CalculateScene (exactArith id) integerHeader none
        (SetExposureDuration (constructedScene exactRounding)
          (4 * (constructedScene exactRounding).exposure_duration_)) 0 0 = some sk ∧
      s'.current_colors_[0]? = some 5162 ∧ sk.current_colors_[0]? = some 20649 ∧
      (20649 : ℚ) ≠ 4 * 5162 := by
  have hf := constructedScene_fields exactRounding
  have hil : illumination exactRounding (constructedScene exactRounding).hour_ 0
      = some (noonIllumination exactRounding) := by
    rw [hf.2.1]
    exact illumination_noon exactRounding
  have ho : -2147483648 ≤ signedOrientation (constructedScene exactRounding) ∧
      signedOrientation (constructedScene exactRounding) < 2147483648 := by
    rw [hf.2.2.2.2.2.2.2.2.2]
    omega
  have hbase : floatCount exactRounding (constructedScene exactRounding)
      (noonIllumination exactRounding) 0 0
      = 1601277842141912552327127 / 310188935560000000000 := by
    rw [← grassCount_exact.1]
    unfold floatCount grassCount lux_to_electrons
    rw [hf.2.2.1, hf.2.2.2.1]
    exact congrArg (fun f => channel exactRounding f _ _) hf.2.2.2.2.1
  have hscaled : floatCount exactRounding
      (SetExposureDuration (constructedScene exactRounding)
        (4 * (constructedScene exactRounding).exposure_duration_))
      (noonIllumination exactRounding) 0 0
      = 4 * (1601277842141912552327127 / 310188935560000000000) := by
    rw [← hbase]
    exact floatCount_scale _ _ _ 0 0 4 rfl rfl rfl rfl
      (by simp only [SetExposureDuration]; ring)
  refine ⟨_, _,
    CalculateScene_none_of (exactArith id) integerHeader _ 0 0 _ hil ho,
    CalculateScene_none_of (exactArith id) integerHeader
      (SetExposureDuration (constructedScene exactRounding)
        (4 * (constructedScene exactRounding).exposure_duration_)) 0 0 _ hil ho, ?_, ?_,
    by norm_num⟩
  · rw [sceneAfter_current_colors]
    have h := calculateColors_getElem? exactRounding integerHeader
      (constructedScene exactRounding) (noonIllumination exactRounding) (by decide)
      (by rw [hf.2.2.2.2.2.2.2.2.1]; decide) 0 0 (by decide) (by decide)
    rw [storedCount_eq, hbase] at h
    exact h.trans
      (congrArg some (truncStore_eq _ 5162 (by norm_num) (by norm_num) (by norm_num)))
  · rw [sceneAfter_current_colors]
    have h := calculateColors_getElem? exactRounding integerHeader
      (SetExposureDuration (constructedScene exactRounding)
        (4 * (constructedScene exactRounding).exposure_duration_))
      (noonIllumination exactRounding) (by decide)
      (by show 44 ≤ (constructedScene exactRounding).current_colors_.length
          rw [hf.2.2.2.2.2.2.2.2.1]) 0 0 (by decide) (by decide)
    rw [storedCount_eq, hscaled] at h
    exact h.trans
      (congrArg some (truncStore_eq _ 20649 (by norm_num) (by norm_num) (by norm_num)))

/-! ## C17: the shaded illumination at 21 o'clock

The roundings of the computation of the Y components in binary32, then the comparison of
`shade_illum_xyz` with the two candidate sums. -/

theorem evening32_1 :
    roundF32 3600000000000 = 3599999959040 :=
  roundF32_eq (3600000000000) (41) (13732910) (3599999959040)
    (by norm_num) (by norm_num [abs_of_pos, abs_of_neg, abs_mul, abs_div])
    (by norm_num [abs_of_pos, abs_of_neg, abs_mul, abs_div])
    (by norm_num) (by norm_num) (by norm_num)

theorem evening32_2 :
    roundF32 7200000000000 = 7199999918080 :=
  roundF32_eq (7200000000000) (42) (13732910) (7199999918080)
    (by norm_num) (by norm_num [abs_of_pos, abs_of_neg, abs_mul, abs_div])
    (by norm_num [abs_of_pos, abs_of_neg, abs_mul, abs_div])
    (by norm_num) (by norm_num) (by norm_num)

theorem evening32_3 :
    roundF32 (3599999959040 / 7199999918080) = 1 / 2 :=
  roundF32_eq (3599999959040 / 7199999918080) (-1) (8388608) (1 / 2)
    (by norm_num) (by norm_num [abs_of_pos, abs_of_neg, abs_mul, abs_div])
    (by norm_num [abs_of_pos, abs_of_neg, abs_mul, abs_div])
    (by norm_num) (by norm_num) (by norm_num)

theorem evening32_4 :
    roundF32 4 = 4 :=
  roundF32_eq (4) (2) (8388608) (4)
    (by norm_num) (by norm_num [abs_of_pos, abs_of_neg, abs_mul, abs_div])
    (by norm_num [abs_of_pos, abs_of_neg, abs_mul, abs_div])
    (by norm_num) (by norm_num) (by norm_num)

theorem evening32_5 : roundF32 0 = 0 :=
  roundBinary_zero _ _

theorem evening32_6 :
    roundF32 1 = 1 :=
  roundF32_eq (1) (0) (8388608) (1)
    (by norm_num) (by norm_num [abs_of_pos, abs_of_neg, abs_mul, abs_div])
    (by norm_num [abs_of_pos, abs_of_neg, abs_mul, abs_div])
    (by norm_num) (by norm_num) (by norm_num)

theorem evening32_7 :
    roundF32 (1 - (1 / 2)) = 1 / 2 :=
  roundF32_eq (1 - (1 / 2)) (-1) (8388608) (1 / 2)
    (by norm_num) (by norm_num [abs_of_pos, abs_of_neg, abs_mul, abs_div])
    (by norm_num [abs_of_pos, abs_of_neg, abs_mul, abs_div])
    (by norm_num) (by norm_num) (by norm_num)

theorem evening32_8 :
    roundF32 (4 * (1 / 2)) = 2 :=
  roundF32_eq (4 * (1 / 2)) (1) (8388608) (2)
    (by norm_num) (by norm_num [abs_of_pos, abs_of_neg, abs_mul, abs_div])
    (by norm_num [abs_of_pos, abs_of_neg, abs_mul, abs_div])
    (by norm_num) (by norm_num) (by norm_num)

theorem evening32_9 : roundF32 (0 * (1 / 2)) = 0 := by
  rw [show (0 * (1 / 2) : ℚ) = 0 by norm_num]
  exact roundBinary_zero _ _

theorem evening32_10 :
    roundF32 (2 + 0) = 2 :=
  roundF32_eq (2 + 0) (1) (8388608) (2)
    (by norm_num) (by norm_num [abs_of_pos, abs_of_neg, abs_mul, abs_div])
    (by norm_num [abs_of_pos, abs_of_neg, abs_mul, abs_div])
    (by norm_num) (by norm_num) (by norm_num)

theorem evening32_11 :
    roundF32 (1 * (1 / 2)) = 1 / 2 :=
  roundF32_eq (1 * (1 / 2)) (-1) (8388608) (1 / 2)
    (by norm_num) (by norm_num [abs_of_pos, abs_of_neg, abs_mul, abs_div])
    (by norm_num [abs_of_pos, abs_of_neg, abs_mul, abs_div])
    (by norm_num) (by norm_num) (by norm_num)

theorem evening32_12 :
    roundF32 (0 + (1 / 2)) = 1 / 2 :=
  roundF32_eq (0 + (1 / 2)) (-1) (8388608) (1 / 2)
    (by norm_num) (by norm_num [abs_of_pos, abs_of_neg, abs_mul, abs_div])
    (by norm_num [abs_of_pos, abs_of_neg, abs_mul, abs_div])
    (by norm_num) (by norm_num) (by norm_num)

theorem evening32_13 :
    roundF32 20000 = 20000 :=
  roundF32_eq (20000) (14) (10240000) (20000)
    (by norm_num) (by norm_num [abs_of_pos, abs_of_neg, abs_mul, abs_div])
    (by norm_num [abs_of_pos, abs_of_neg, abs_mul, abs_div])
    (by norm_num) (by norm_num) (by norm_num)

theorem evening32_14 :
    roundF32 100000 = 100000 :=
  roundF32_eq (100000) (16) (12800000) (100000)
    (by norm_num) (by norm_num [abs_of_pos, abs_of_neg, abs_mul, abs_div])
    (by norm_num [abs_of_pos, abs_of_neg, abs_mul, abs_div])
    (by norm_num) (by norm_num) (by norm_num)

theorem evening32_15 :
    roundF32 (20000 / 100000) = 13421773 / 67108864 :=
  roundF32_eq (20000 / 100000) (-3) (13421773) (13421773 / 67108864)
    (by norm_num) (by norm_num [abs_of_pos, abs_of_neg, abs_mul, abs_div])
    (by norm_num [abs_of_pos, abs_of_neg, abs_mul, abs_div])
    (by norm_num) (by norm_num) (by norm_num)

theorem evening32_16 :
    roundF32 (2 * (13421773 / 67108864)) = 13421773 / 33554432 :=
  roundF32_eq (2 * (13421773 / 67108864)) (-2) (13421773) (13421773 / 33554432)
    (by norm_num) (by norm_num [abs_of_pos, abs_of_neg, abs_mul, abs_div])
    (by norm_num [abs_of_pos, abs_of_neg, abs_mul, abs_div])
    (by norm_num) (by norm_num) (by norm_num)

theorem evening32_17 :
    roundF32 ((1 / 2) * (13421773 / 67108864)) = 13421773 / 134217728 :=
  roundF32_eq ((1 / 2) * (13421773 / 67108864)) (-4) (13421773) (13421773 / 134217728)
    (by norm_num) (by norm_num [abs_of_pos, abs_of_neg, abs_mul, abs_div])
    (by norm_num [abs_of_pos, abs_of_neg, abs_mul, abs_div])
    (by norm_num) (by norm_num) (by norm_num)

theorem evening32_18 :
    roundF64 (2 / 1000) = 1152921504606847 / 576460752303423488 :=
  roundF64_eq (2 / 1000) (-9) (4611686018427388) (1152921504606847 / 576460752303423488)
    (by norm_num) (by norm_num [abs_of_pos, abs_of_neg, abs_mul, abs_div])
    (by norm_num [abs_of_pos, abs_of_neg, abs_mul, abs_div])
    (by norm_num) (by norm_num) (by norm_num)

theorem evening32_19 :
    roundF32 (1152921504606847 / 576460752303423488) = 8589935 / 4294967296 :=
  roundF32_eq (1152921504606847 / 576460752303423488) (-9) (8589935) (8589935 / 4294967296)
    (by norm_num) (by norm_num [abs_of_pos, abs_of_neg, abs_mul, abs_div])
    (by norm_num [abs_of_pos, abs_of_neg, abs_mul, abs_div])
    (by norm_num) (by norm_num) (by norm_num)

theorem evening32_20 :
    roundF32 ((8589935 / 4294967296) + (13421773 / 33554432)) = 6744441 / 16777216 :=
  roundF32_eq ((8589935 / 4294967296) + (13421773 / 33554432)) (-2) (13488882) (6744441 / 16777216)
    (by norm_num) (by norm_num [abs_of_pos, abs_of_neg, abs_mul, abs_div])
    (by norm_num [abs_of_pos, abs_of_neg, abs_mul, abs_div])
    (by norm_num) (by norm_num) (by norm_num)

theorem evening32_21 :
    roundF32 ((6744441 / 16777216) + (1 / 2)) = 15133049 / 16777216 :=
  roundF32_eq ((6744441 / 16777216) + (1 / 2)) (-1) (15133049) (15133049 / 16777216)
    (by norm_num) (by norm_num [abs_of_pos, abs_of_neg, abs_mul, abs_div])
    (by norm_num [abs_of_pos, abs_of_neg, abs_mul, abs_div])
    (by norm_num) (by norm_num) (by norm_num)

theorem evening32_22 :
    roundF32 ((8589935 / 4294967296) + 2) = 8396997 / 4194304 :=
  roundF32_eq ((8589935 / 4294967296) + 2) (1) (8396997) (8396997 / 4194304)
    (by norm_num) (by norm_num [abs_of_pos, abs_of_neg, abs_mul, abs_div])
    (by norm_num [abs_of_pos, abs_of_neg, abs_mul, abs_div])
    (by norm_num) (by norm_num) (by norm_num)

theorem evening32_23 :
    roundF32 ((8396997 / 4194304) + (13421773 / 134217728)) = 8816427 / 4194304 :=
  roundF32_eq ((8396997 / 4194304) + (13421773 / 134217728)) (1) (8816427) (8816427 / 4194304)
    (by norm_num) (by norm_num [abs_of_pos, abs_of_neg, abs_mul, abs_div])
    (by norm_num [abs_of_pos, abs_of_neg, abs_mul, abs_div])
    (by norm_num) (by norm_num) (by norm_num)

theorem time_frac_evening_ieee : time_frac ieeeRounding 3600000000000 = 1 / 2 := by
  have hden : (kOneHourInNsec * kTimeStep : Int) = 7200000000000 := rfl
  simp only [time_frac, hden, ieee_add, ieee_sub, ieee_mul, ieee_div, ieee_ofInt, ieee_lit,
    ieee_litD, Int.cast_ofNat, Int.cast_zero, Int.cast_one, evening32_1, evening32_2, evening32_3]

theorem interpolate_evening_ieee :
    interpolate ieeeRounding (ieeeRounding.ofInt 4) (ieeeRounding.ofInt 0) (1 / 2) = 2 ∧
    interpolate ieeeRounding (ieeeRounding.ofInt 0) (ieeeRounding.ofInt 1) (1 / 2) = 1 / 2 := by
  simp only [interpolate, ieee_add, ieee_sub, ieee_mul, ieee_div, ieee_ofInt, ieee_lit, ieee_litD,
    Int.cast_ofNat, Int.cast_zero, Int.cast_one, evening32_4, evening32_5, evening32_6,
    evening32_7, evening32_8, evening32_9, evening32_10, evening32_11, evening32_12, and_self]

/-- The Y components of the illumination at 21 o'clock in binary32. -/
theorem illuminate_evening_ieee :
    (illuminate ieeeRounding 21 3600000000000 (ieeeRounding.ofInt 4) (ieeeRounding.ofInt 0)
      (ieeeRounding.ofInt 0) (ieeeRounding.ofInt 1)).kClearNightXYZ.e1 = 8589935 / 4294967296 ∧
    (illuminate ieeeRounding 21 3600000000000 (ieeeRounding.ofInt 4) (ieeeRounding.ofInt 0)
      (ieeeRounding.ofInt 0) (ieeeRounding.ofInt 1)).sun_xyz.e1 = 2 ∧
    (illuminate ieeeRounding 21 3600000000000 (ieeeRounding.ofInt 4) (ieeeRounding.ofInt 0)
      (ieeeRounding.ofInt 0) (ieeeRounding.ofInt 1)).sun_shade_xyz.e1 = 13421773 / 33554432 ∧
    (illuminate ieeeRounding 21 3600000000000 (ieeeRounding.ofInt 4) (ieeeRounding.ofInt 0)
      (ieeeRounding.ofInt 0) (ieeeRounding.ofInt 1)).moon_xyz.e1 = 1 / 2 ∧
    (illuminate ieeeRounding 21 3600000000000 (ieeeRounding.ofInt 4) (ieeeRounding.ofInt 0)
      (ieeeRounding.ofInt 0) (ieeeRounding.ofInt 1)).moon_shade_xyz.e1 = 13421773 / 134217728 ∧
    (illuminate ieeeRounding 21 3600000000000 (ieeeRounding.ofInt 4) (ieeeRounding.ofInt 0)
      (ieeeRounding.ofInt 0) (ieeeRounding.ofInt 1)).shade_illum_xyz.e1 = 15133049 / 16777216 := by
  have hs : ¬ ((21 : Int) < kSunOverhead) := by decide
  have hm : Int.tmod (21 + 12) 24 < Int.tmod (kMoonOverhead + 12) 24 := by decide
  simp only [illuminate, xyY_to_XYZ, if_neg hs, if_pos hm, time_frac_evening_ieee,
    interpolate_evening_ieee.1, interpolate_evening_ieee.2]
  simp only [kClearNightIllum, kDaylightShadeIllum, kDirectSunIllum, ieee_add, ieee_sub, ieee_mul,
    ieee_div, ieee_ofInt, ieee_lit, ieee_litD, Int.cast_ofNat, Int.cast_zero, Int.cast_one,
    evening32_13, evening32_14, evening32_15, evening32_16, evening32_17, evening32_18,
    evening32_19, evening32_20, evening32_21, evening32_22, evening32_23, and_self]

theorem illumination_evening (fm : Rounding) :
    illumination fm 21 0 = some (illuminate fm 21 3600000000000 (fm.ofInt 4) (fm.ofInt 0)
      (fm.ofInt 0) (fm.ofInt 1)) :=
  illumination_eq fm 21 0 (by decide)

/-- C17 (counterexample).  At 21 o'clock (time 0) the sun is not below `kSunOverhead` and the
moon is below its threshold, `(21 + 12) mod 24 = 9 < 12`.  In exact arithmetic the Y component of
`shade_illum_xyz` is 0.902, the starlight 0.002 plus the shaded sun 0.4 plus the direct moon 0.5,
and not the starlight plus the direct sun 2 plus the shaded moon 0.1.  In binary32 it is
15133049 / 16777216 (about 0.902), again the sum with the shaded sun and the direct moon, and
not the sum with the direct sun and the shaded moon, 8816427 / 4194304 (about 2.102). -/
theorem shade_illum_shades_the_other_body :
    ¬ ((21 : Int) < kSunOverhead) ∧ ((21 : Int) + 12) % 24 < (kMoonOverhead + 12) % 24 ∧
    (∃ il, illumination exactRounding 21 0 = some il ∧
      il.kClearNightXYZ.e1 = 1 / 500 ∧ il.sun_xyz.e1 = 2 ∧ il.sun_shade_xyz.e1 = 2 / 5 ∧
      il.moon_xyz.e1 = 1 / 2 ∧ il.moon_shade_xyz.e1 = 1 / 10 ∧
      il.shade_illum_xyz.e1 = 451 / 500 ∧
      il.shade_illum_xyz.e1 = il.kClearNightXYZ.e1 + il.sun_shade_xyz.e1 + il.moon_xyz.e1 ∧
      il.shade_illum_xyz.e1 ≠ il.kClearNightXYZ.e1 + il.sun_xyz.e1 + il.moon_shade_xyz.e1) ∧
    (∃ il, illumination ieeeRounding 21 0 = some il ∧
      il.kClearNightXYZ.e1 = 8589935 / 4294967296 ∧ il.sun_xyz.e1 = 2 ∧
      il.sun_shade_xyz.e1 = 13421773 / 33554432 ∧ il.moon_xyz.e1 = 1 / 2 ∧
      il.moon_shade_xyz.e1 = 13421773 / 134217728 ∧
      il.shade_illum_xyz.e1 = 15133049 / 16777216 ∧
      il.shade_illum_xyz.e1 = ieeeRounding.add
        (ieeeRounding.add il.kClearNightXYZ.e1 il.sun_shade_xyz.e1) il.moon_xyz.e1 ∧
      ieeeRounding.add (ieeeRounding.add il.kClearNightXYZ.e1 il.sun_xyz.e1)
        il.moon_shade_xyz.e1 = 8816427 / 4194304 ∧
      il.shade_illum_xyz.e1 ≠ ieeeRounding.add
        (ieeeRounding.add il.kClearNightXYZ.e1 il.sun_xyz.e1) il.moon_shade_xyz.e1) := by
  refine ⟨by decide, by decide, ?_, ?_⟩
  · have hil : illumination exactRounding 21 0
        = some (illuminate exactRounding 21 3600000000000 4 0 0 1) :=
      illumination_eq exactRounding 21 0 (by decide)
    obtain ⟨h1, h2, h3, h4, h5, h6⟩ := illuminate_evening_exact
    refine ⟨_, hil, h1, h2, h3, h4, h5, h6, ?_, ?_⟩
    · rw [h1, h3, h4, h6]
      norm_num
    · rw [h1, h2, h5, h6]
      norm_num
  · obtain ⟨h1, h2, h3, h4, h5, h6⟩ := illuminate_evening_ieee
    have e1 : ieeeRounding.add (ieeeRounding.add (8589935 / 4294967296) (13421773 / 33554432))
        (1 / 2) = 15133049 / 16777216 := by
      simp only [ieee_add, evening32_1, evening32_2, evening32_3, evening32_4, evening32_5,
        evening32_6, evening32_7, evening32_8, evening32_9, evening32_10, evening32_11,
        evening32_12, evening32_13, evening32_14, evening32_15, evening32_16, evening32_17,
        evening32_18, evening32_19, evening32_20, evening32_21, evening32_22, evening32_23]
    have e2 : ieeeRounding.add (ieeeRounding.add (8589935 / 4294967296) 2)
        (13421773 / 134217728) = 8816427 / 4194304 := by
      simp only [ieee_add, evening32_1, evening32_2, evening32_3, evening32_4, evening32_5,
        evening32_6, evening32_7, evening32_8, evening32_9, evening32_10, evening32_11,
        evening32_12, evening32_13, evening32_14, evening32_15, evening32_16, evening32_17,
        evening32_18, evening32_19, evening32_20, evening32_21, evening32_22, evening32_23]
    refine ⟨_, illumination_evening ieeeRounding, h1, h2, h3, h4, h5, h6, ?_, ?_, ?_⟩
    · rw [h1, h3, h4, h6, e1]
    · rw [h1, h2, h5, e2]
    · rw [h1, h2, h5, h6, e2]
      norm_num

/-! ## C21: the mapping of the scene to the sensor -/

/-- The value `mapDiv` returns: the quotient of the larger sensor dimension by the scene
dimension plus one, plus one. -/
theorem mapDiv_inv (hd : Header) (w h md : Int) (hm : mapDiv hd w h = some md) :
    md = (if w > h then Int.tdiv w ((hd.kSceneWidth : Int) + 1) + 1
      else Int.tdiv h ((hd.kSceneHeight : Int) + 1) + 1) := by
  unfold mapDiv at hm
  split at hm
  · rename_i hwh
    rw [if_pos hwh]
    simp only [Option.bind_eq_some] at hm
    obtain ⟨d, hd1, hd2⟩ := hm
    obtain ⟨rfl, -, -⟩ := i32_eq_some _ _ hd1
    obtain ⟨rfl, -, -⟩ := i32_eq_some _ _ hd2
    rfl
  · rename_i hwh
    rw [if_neg hwh]
    simp only [Option.bind_eq_some] at hm
    obtain ⟨d, hd1, hd2⟩ := hm
    obtain ⟨rfl, -, -⟩ := i32_eq_some _ _ hd1
    obtain ⟨rfl, -, -⟩ := i32_eq_some _ _ hd2
    rfl

/-- What a call of `Initialize` that returns has stored. -/
theorem Initialize_inv (hd : Header) (s s' : Scene) (w h : Int) (sens : ℚ)
    (hi : Initialize hd s w h sens = some s') :
    s'.sensor_width_ = w ∧ s'.sensor_height_ = h ∧ s'.sensor_sensitivity_ = sens ∧
    s'.map_div_ = (if w > h then Int.tdiv w ((hd.kSceneWidth : Int) + 1) + 1
      else Int.tdiv h ((hd.kSceneHeight : Int) + 1) + 1) ∧
    s'.offset_x_ = Int.tdiv ((hd.kSceneWidth : Int) * s'.map_div_ - w) 2 ∧
    s'.offset_y_ = Int.tdiv ((hd.kSceneHeight : Int) * s'.map_div_ - h) 2 := by
  unfold Initialize at hi
  simp only [Option.bind_eq_bind, Option.bind_eq_some, Option.some.injEq] at hi
  obtain ⟨md, hm, wx, hwx, dx, hdx, hy, hhy, dy, hdy, rfl⟩ := hi
  obtain ⟨rfl, -, -⟩ := i32_eq_some _ _ hwx
  obtain ⟨rfl, -, -⟩ := i32_eq_some _ _ hdx
  obtain ⟨rfl, -, -⟩ := i32_eq_some _ _ hhy
  obtain ⟨rfl, -, -⟩ := i32_eq_some _ _ hdy
  exact ⟨rfl, rfl, rfl, mapDiv_inv hd w h md hm, rfl, rfl⟩

/-- A call of `Initialize` without signed overflow returns. -/
theorem Initialize_of (hd : Header) (s : Scene) (w h : Int) (sens : ℚ) (hw : 0 < w) (hh : 0 < h)
    (hw1 : w < 2147483647) (hh1 : h < 2147483647)
    (hW : (hd.kSceneWidth : Int) + 1 < 2147483648)
    (hH : (hd.kSceneHeight : Int) + 1 < 2147483648)
    (hx : (hd.kSceneWidth : Int) * (if w > h then Int.tdiv w ((hd.kSceneWidth : Int) + 1) + 1
      else Int.tdiv h ((hd.kSceneHeight : Int) + 1) + 1) < 2147483648)
    (hy : (hd.kSceneHeight : Int) * (if w > h then Int.tdiv w ((hd.kSceneWidth : Int) + 1) + 1
      else Int.tdiv h ((hd.kSceneHeight : Int) + 1) + 1) < 2147483648) :
    ∃ s', Initialize hd s w h sens = some s' := by
  have hWn : (0 : Int) ≤ (hd.kSceneWidth : Int) := Int.ofNat_nonneg _
  have hHn : (0 : Int) ≤ (hd.kSceneHeight : Int) := Int.ofNat_nonneg _
  have qw0 : 0 ≤ Int.tdiv w ((hd.kSceneWidth : Int) + 1) :=
    Int.tdiv_nonneg hw.le (by omega)
  have qh0 : 0 ≤ Int.tdiv h ((hd.kSceneHeight : Int) + 1) :=
    Int.tdiv_nonneg hh.le (by omega)
  have qw1 : Int.tdiv w ((hd.kSceneWidth : Int) + 1) ≤ w := by
    rw [Int.tdiv_eq_ediv hw.le (by omega)]
    exact Int.ediv_le_self _ hw.le
  have qh1 : Int.tdiv h ((hd.kSceneHeight : Int) + 1) ≤ h := by
    rw [Int.tdiv_eq_ediv hh.le (by omega)]
    exact Int.ediv_le_self _ hh.le
  have hmd : mapDiv hd w h = some (if w > h then Int.tdiv w ((hd.kSceneWidth : Int) + 1) + 1
      else Int.tdiv h ((hd.kSceneHeight : Int) + 1) + 1) := by
    unfold mapDiv
    split
    · rw [i32_some _ (by omega) hW, Option.some_bind, i32_some _ (by omega) (by omega)]
    · rw [i32_some _ (by omega) hH, Option.some_bind, i32_some _ (by omega) (by omega)]
  generalize hmdv : (if w > h then Int.tdiv w ((hd.kSceneWidth : Int) + 1) + 1
      else Int.tdiv h ((hd.kSceneHeight : Int) + 1) + 1) = md at hx hy hmd
  have hmd1 : 1 ≤ md := by
    rw [← hmdv]
    split <;> omega
  have hx0 : 0 ≤ (hd.kSceneWidth : Int) * md := mul_nonneg hWn (by omega)
  have hy0 : 0 ≤ (hd.kSceneHeight : Int) * md := mul_nonneg hHn (by omega)
  unfold Initialize
  rw [hmd]
  simp only [Option.bind_eq_bind, Option.some_bind]
  rw [i32_some _ (by omega) hx, Option.some_bind, i32_some _ (by omega) (by omega),
    Option.some_bind, i32_some _ (by omega) hy, Option.some_bind,
    i32_some _ (by omega) (by omega), Option.some_bind]
  exact ⟨_, rfl⟩

theorem tdiv_two_nonneg (x : Int) : 0 ≤ Int.tdiv x 2 ↔ -1 ≤ x := by
  rcases le_or_lt 0 x with hx | hx
  · rw [Int.tdiv_eq_ediv hx (by norm_num)]
    omega
  · have e : x = -(-x) := by omega
    rw [e, Int.neg_tdiv, Int.tdiv_eq_ediv (by omega) (by norm_num)]
    omega

/-- The quotient by `d` plus one, times `d`, exceeds the dividend. -/
theorem lt_mul_tdiv_add_one (a d : Int) (ha : 0 ≤ a) (hd : 0 < d) :
    a < d * (Int.tdiv a d + 1) ∧ 1 ≤ Int.tdiv a d + 1 ∧ Int.tdiv a d = a / d := by
  rw [Int.tdiv_eq_ediv ha hd.le]
  have h1 := Int.emod_add_ediv a d
  have h2 := Int.emod_lt_of_pos a hd
  have h3 : 0 ≤ a / d := Int.ediv_nonneg ha hd.le
  refine ⟨?_, by omega, rfl⟩
  rw [mul_add, mul_one]
  omega

/-- C21 (amended).  For every positive sensor width `w` and height `h`: `Initialize` returns
when no `int` computation overflows, and whenever it returns, `map_div_` is the quotient of the
larger sensor dimension by the scene dimension plus one, plus one (`w / (kSceneWidth + 1) + 1`
when `w > h`, `h / (kSceneHeight + 1) + 1` otherwise), so `map_div_ ≥ 1`, and the scene of one
more tile scaled by `map_div_` exceeds the sensor in that dimension:
`(kSceneWidth + 1) * map_div_ > w` when `w > h`, `(kSceneHeight + 1) * map_div_ > h` otherwise.
The offsets are `(kSceneWidth * map_div_ - w) / 2` and `(kSceneHeight * map_div_ - h) / 2` with
the division truncating towards zero; `offset_x_` is non-negative exactly when
`w ≤ kSceneWidth * map_div_ + 1`, and `offset_y_` exactly when `h ≤ kSceneHeight * map_div_ + 1`.
When the sensor is no larger than the scene in both dimensions, `map_div_` is 1 and both offsets
are non-negative. -/
theorem initialize_map_div (hd : Header) (s : Scene) (w h : Int) (sens : ℚ) (hw : 0 < w)
    (hh : 0 < h) :
    (w < 2147483647 → h < 2147483647 → (hd.kSceneWidth : Int) + 1 < 2147483648 →
      (hd.kSceneHeight : Int) + 1 < 2147483648 →
      (hd.kSceneWidth : Int) * (if w > h then w / ((hd.kSceneWidth : Int) + 1) + 1
        else h / ((hd.kSceneHeight : Int) + 1) + 1) < 2147483648 →
      (hd.kSceneHeight : Int) * (if w > h then w / ((hd.kSceneWidth : Int) + 1) + 1
        else h / ((hd.kSceneHeight : Int) + 1) + 1) < 2147483648 →
      ∃ s', Initialize hd s w h sens = some s') ∧
    ∀ s', Initialize hd s w h sens = some s' →
      s'.sensor_width_ = w ∧ s'.sensor_height_ = h ∧
      s'.map_div_ = (if w > h then w / ((hd.kSceneWidth : Int) + 1) + 1
        else h / ((hd.kSceneHeight : Int) + 1) + 1) ∧
      1 ≤ s'.map_div_ ∧
      (h < w → w < ((hd.kSceneWidth : Int) + 1) * s'.map_div_) ∧
      (w ≤ h → h < ((hd.kSceneHeight : Int) + 1) * s'.map_div_) ∧
      s'.offset_x_ = Int.tdiv ((hd.kSceneWidth : Int) * s'.map_div_ - w) 2 ∧
      s'.offset_y_ = Int.tdiv ((hd.kSceneHeight : Int) * s'.map_div_ - h) 2 ∧
      (0 ≤ s'.offset_x_ ↔ w ≤ (hd.kSceneWidth : Int) * s'.map_div_ + 1) ∧
      (0 ≤ s'.offset_y_ ↔ h ≤ (hd.kSceneHeight : Int) * s'.map_div_ + 1) ∧
      (w ≤ (hd.kSceneWidth : Int) → h ≤ (hd.kSceneHeight : Int) →
        s'.map_div_ = 1 ∧ 0 ≤ s'.offset_x_ ∧ 0 ≤ s'.offset_y_) := by
  have hWn : (0 : Int) ≤ (hd.kSceneWidth : Int) := Int.ofNat_nonneg _
  have hHn : (0 : Int) ≤ (hd.kSceneHeight : Int) := Int.ofNat_nonneg _
  obtain ⟨qw1, qw2, qw3⟩ := lt_mul_tdiv_add_one w ((hd.kSceneWidth : Int) + 1) hw.le (by omega)
  obtain ⟨qh1, qh2, qh3⟩ := lt_mul_tdiv_add_one h ((hd.kSceneHeight : Int) + 1) hh.le (by omega)
  constructor
  · intro hw1 hh1 hW hH hx hy
    rw [← qw3, ← qh3] at hx hy
    exact Initialize_of hd s w h sens hw hh hw1 hh1 hW hH hx hy
  · intro s' hi
    obtain ⟨e1, e2, -, e4, e5, e6⟩ := Initialize_inv hd s s' w h sens hi
    rw [qw3, qh3] at e4
    have hmd1 : 1 ≤ s'.map_div_ := by
      rw [e4]
      split <;> omega
    have hcw : h < w → w < ((hd.kSceneWidth : Int) + 1) * s'.map_div_ := by
      intro hlt
      rw [e4, if_pos hlt, ← qw3]
      exact qw1
    have hch : w ≤ h → h < ((hd.kSceneHeight : Int) + 1) * s'.map_div_ := by
      intro hle
      rw [e4, if_neg (by omega), ← qh3]
      exact qh1
    have hox : 0 ≤ s'.offset_x_ ↔ w ≤ (hd.kSceneWidth : Int) * s'.map_div_ + 1 := by
      rw [e5, tdiv_two_nonneg]
      omega
    have hoy : 0 ≤ s'.offset_y_ ↔ h ≤ (hd.kSceneHeight : Int) * s'.map_div_ + 1 := by
      rw [e6, tdiv_two_nonneg]
      omega
    refine ⟨e1, e2, e4, hmd1, hcw, hch, e5, e6, hox, hoy, ?_⟩
    intro hwW hhH
    have q0w : w / ((hd.kSceneWidth : Int) + 1) = 0 := Int.ediv_eq_zero_of_lt hw.le (by omega)
    have q0h : h / ((hd.kSceneHeight : Int) + 1) = 0 := Int.ediv_eq_zero_of_lt hh.le (by omega)
    have hone : s'.map_div_ = 1 := by
      rw [e4, q0w, q0h]
      split <;> rfl
    refine ⟨hone, ?_, ?_⟩
    · rw [hox, hone]
      omega
    · rw [hoy, hone]
      omega

theorem initialize_map_div_witness :
    (((3 : Int) < 2147483647 → (2 : Int) < 2147483647 →
      (sampleHeader.kSceneWidth : Int) + 1 < 2147483648 →
      (sampleHeader.kSceneHeight : Int) + 1 < 2147483648 →
      (sampleHeader.kSceneWidth : Int) * (if (3 : Int) > 2 then
          3 / ((sampleHeader.kSceneWidth : Int) + 1) + 1
        else 2 / ((sampleHeader.kSceneHeight : Int) + 1) + 1) < 2147483648 →
      (sampleHeader.kSceneHeight : Int) * (if (3 : Int) > 2 then
          3 / ((sampleHeader.kSceneWidth : Int) + 1) + 1
        else 2 / ((sampleHeader.kSceneHeight : Int) + 1) + 1) < 2147483648 →
      ∃ s', Initialize sampleHeader sampleMemory 3 2 100 = some s') ∧
    ∀ s', Initialize sampleHeader sampleMemory 3 2 100 = some s' →
      s'.sensor_width_ = 3 ∧ s'.sensor_height_ = 2 ∧
      s'.map_div_ = (if (3 : Int) > 2 then 3 / ((sampleHeader.kSceneWidth : Int) + 1) + 1
        else 2 / ((sampleHeader.kSceneHeight : Int) + 1) + 1) ∧
      1 ≤ s'.map_div_ ∧
      ((2 : Int) < 3 → 3 < ((sampleHeader.kSceneWidth : Int) + 1) * s'.map_div_) ∧
      ((3 : Int) ≤ 2 → 2 < ((sampleHeader.kSceneHeight : Int) + 1) * s'.map_div_) ∧
      s'.offset_x_ = Int.tdiv ((sampleHeader.kSceneWidth : Int) * s'.map_div_ - 3) 2 ∧
      s'.offset_y_ = Int.tdiv ((sampleHeader.kSceneHeight : Int) * s'.map_div_ - 2) 2 ∧
      (0 ≤ s'.offset_x_ ↔ 3 ≤ (sampleHeader.kSceneWidth : Int) * s'.map_div_ + 1) ∧
      (0 ≤ s'.offset_y_ ↔ 2 ≤ (sampleHeader.kSceneHeight : Int) * s'.map_div_ + 1) ∧
      ((3 : Int) ≤ (sampleHeader.kSceneWidth : Int) → (2 : Int) ≤ (sampleHeader.kSceneHeight : Int) →
        s'.map_div_ = 1 ∧ 0 ≤ s'.offset_x_ ∧ 0 ≤ s'.offset_y_)) :=
  initialize_map_div sampleHeader sampleMemory 3 2 100 (by decide) (by decide)

/-- C21 (counterexample).  `Initialize(640, 480, 100)` with a scene of 2 x 2 tiles returns with
`map_div_ = 640 / 3 + 1 = 214`: the scaled scene has `2 * 214 = 428` pixels in each dimension,
fewer than the sensor's 640 and 480, and the offsets are `(428 - 640) / 2 = -106` and
`(428 - 480) / 2 = -26`, both negative. -/
theorem initialize_scene_smaller_than_sensor :
    ∃ s', Initialize sampleHeader sampleMemory 640 480 100 = some s' ∧
      s'.sensor_width_ = 640 ∧ s'.sensor_height_ = 480 ∧ s'.map_div_ = 214 ∧
      ¬ ((sampleHeader.kSceneWidth : Int) * s'.map_div_ ≥ s'.sensor_width_) ∧
      ¬ ((sampleHeader.kSceneHeight : Int) * s'.map_div_ ≥ s'.sensor_height_) ∧
      s'.offset_x_ = -106 ∧ s'.offset_y_ = -26 ∧ ¬ (0 ≤ s'.offset_x_) ∧ ¬ (0 ≤ s'.offset_y_) :=
  ⟨_, rfl, rfl, rfl, rfl, by decide, by decide, rfl, rfl, by decide, by decide⟩

/-- Whatever the scene size, a sensor of `(kSceneWidth + 1) * (kSceneWidth + 2)` by 1 pixels is
not covered: `map_div_` is `kSceneWidth + 3`, the scaled scene is two pixels narrower than the
sensor and `offset_x_` is -1. -/
theorem initialize_undercovers_any_scene (hd : Header) (s : Scene) (sens : ℚ)
    (hb : ((hd.kSceneWidth : Int) + 1) * ((hd.kSceneWidth : Int) + 2) < 2147483647)
    (hH : (hd.kSceneHeight : Int) * ((hd.kSceneWidth : Int) + 3) < 2147483648)
    (hH1 : (hd.kSceneHeight : Int) + 1 < 2147483648) :
    ∃ s', Initialize hd s (((hd.kSceneWidth : Int) + 1) * ((hd.kSceneWidth : Int) + 2)) 1 sens
        = some s' ∧
      s'.map_div_ = (hd.kSceneWidth : Int) + 3 ∧
      (hd.kSceneWidth : Int) * s'.map_div_ + 2 = s'.sensor_width_ ∧ s'.offset_x_ = -1 := by
  have hWn : (0 : Int) ≤ (hd.kSceneWidth : Int) := Int.ofNat_nonneg _
  have hw2 : 2 ≤ ((hd.kSceneWidth : Int) + 1) * ((hd.kSceneWidth : Int) + 2) := by nlinarith
  have hq : Int.tdiv (((hd.kSceneWidth : Int) + 1) * ((hd.kSceneWidth : Int) + 2))
      ((hd.kSceneWidth : Int) + 1) = (hd.kSceneWidth : Int) + 2 := by
    rw [Int.tdiv_eq_ediv (by omega) (by omega)]
    exact Int.mul_ediv_cancel_left _ (by omega)
  have hmd : (if ((hd.kSceneWidth : Int) + 1) * ((hd.kSceneWidth : Int) + 2) > 1 then
        Int.tdiv (((hd.kSceneWidth : Int) + 1) * ((hd.kSceneWidth : Int) + 2))
          ((hd.kSceneWidth : Int) + 1) + 1
      else Int.tdiv 1 ((hd.kSceneHeight : Int) + 1) + 1) = (hd.kSceneWidth : Int) + 3 := by
    rw [if_pos (by omega), hq]
    ring
  obtain ⟨s', hs'⟩ := Initialize_of hd s
    (((hd.kSceneWidth : Int) + 1) * ((hd.kSceneWidth : Int) + 2)) 1 sens (by omega) (by norm_num)
    hb (by norm_num) (by nlinarith) hH1 (by rw [hmd]; nlinarith) (by rw [hmd]; exact hH)
  obtain ⟨e1, -, -, e4, e5, -⟩ := Initialize_inv hd s s' _ _ sens hs'
  rw [hmd] at e4
  refine ⟨s', hs', e4, ?_, ?_⟩
  · rw [e1, e4]
    ring
  · rw [e5, e4]
    have : (hd.kSceneWidth : Int) * ((hd.kSceneWidth : Int) + 3)
        - ((hd.kSceneWidth : Int) + 1) * ((hd.kSceneWidth : Int) + 2) = -2 := by ring
    rw [this]
    rfl

theorem initialize_undercovers_any_scene_witness :
    ∃ s', Initialize sampleHeader sampleMemory
        (((sampleHeader.kSceneWidth : Int) + 1) * ((sampleHeader.kSceneWidth : Int) + 2)) 1 100
        = some s' ∧
      s'.map_div_ = (sampleHeader.kSceneWidth : Int) + 3 ∧
      (sampleHeader.kSceneWidth : Int) * s'.map_div_ + 2 = s'.sensor_width_ ∧
      s'.offset_x_ = -1 :=
  initialize_undercovers_any_scene sampleHeader sampleMemory 100 (by decide) (by decide)
    (by decide)

end EmulatedScene
